import Mathlib

/-!
# RainSnow_RTGP: input handling, start-up and draw sequencing of `RainSnow.cpp`

A shallow embedding of the host program `src/bin/bin/RainSnow.cpp`.

* Global variables of the program are the fields of `State`; every C++ function that
  reads or writes them becomes a function on `State`.
* An access outside the bounds of a container (`shaders[i]`, `keys[key]`, `textureID[i]`)
  is undefined behaviour in C++; here it is the result `Fault.outOfRange`.
* `GLuint`, `int` and `size_t` values are integers with the conversions written out.
* `double` and `GLfloat` values are exact binary fractions with IEEE-754 rounding written
  out (`Fp`, `toFloat`, `dsub`).
* Calls into OpenGL, GLFW and the camera class are recorded as effects: console lines,
  the close flag of the window, the arguments given to the camera, the list of GL calls.
* GLM is a parameter of `RenderObjects` and of the rendering loop (`Library`, `FrameLibrary`).
  Where the entries of the matrices matter it is instantiated by `FrameLibrary.exact`: a
  `float` literal has the value of the nearest `float` (`floatLiteral`), and the functions
  of GLM work on these values over a field, in exact arithmetic.
* The shaders are not among the sources; the depth lookup and the shadow terms follow the
  description of the three techniques.
-/

namespace RainSnow

/-! ## Constants of `glfw3.h` used by the callbacks -/

/-- Action code of a key release (`GLFW_RELEASE`). -/
def GLFW_RELEASE : Int := 0
/-- Action code of a key press (`GLFW_PRESS`). -/
def GLFW_PRESS : Int := 1
/-- Action code of a key held down until it repeats (`GLFW_REPEAT`). -/
def GLFW_REPEAT : Int := 2
/-- Key code of the digit `1`, its ASCII code. -/
def GLFW_KEY_1 : Int := 49
/-- Key code of the digit `9`, its ASCII code. -/
def GLFW_KEY_9 : Int := 57
/-- Key code of the letter `L`. -/
def GLFW_KEY_L : Int := 76
/-- Key code of the escape key. -/
def GLFW_KEY_ESCAPE : Int := 256

/-! ## Machine numbers -/

/-- Conversion of an `int` to `GLuint` (32 bits, wrapping). -/
def toGLuint (i : Int) : Nat := (i % 4294967296).toNat

/-- Conversion of a `GLuint` to `int` (32 bits, two's complement). -/
def toGLint (n : Nat) : Int :=
  if n % 4294967296 < 2147483648 then (n % 4294967296 : Nat) else (n % 4294967296 : Nat) - 4294967296

/-- Conversion of an `int` to `size_t` (64 bits, wrapping), as done by `vector::operator[]`. -/
def toSizeT (i : Int) : Nat := (i % 18446744073709551616).toNat

/-- An IEEE-754 value. A finite value is `n * 2^(-1074)`: every finite `double` (and so every
finite `float`) is a whole multiple of the smallest subnormal `double`. The sign of zero and
the payload of a NaN are not represented. -/
inductive Fp where
  | fin (n : Int)
  | inf (negative : Bool)
  | nan
deriving DecidableEq

/-- Number of binary digits of `n`, counted by halving at most `fuel` times. -/
def bitLengthAux : Nat → Nat → Nat
  | 0, _ => 0
  | fuel + 1, n => if n = 0 then 0 else bitLengthAux fuel (n / 2) + 1

/-- Number of binary digits of `n`: the least `k` with `n < 2^k`. -/
def bitLength (n : Nat) : Nat := bitLengthAux n n

/-- Round the integer `n` to `p` significant bits, to nearest with ties to even, the unit in
the last place being at least `2^minShift`. -/
def roundBits (p minShift : Nat) (n : Int) : Int :=
  let a := n.natAbs
  let shift := max (bitLength a - p) minShift
  let q := a / 2 ^ shift
  let r := a % 2 ^ shift
  let up : Bool := decide (2 ^ shift < 2 * r) || (decide (2 * r = 2 ^ shift) && decide (q % 2 = 1))
  let m : Nat := (if up then q + 1 else q) * 2 ^ shift
  if n < 0 then -(m : Int) else (m : Int)

/-- Rounding of an exact value to `double`: 53 significant bits, overflow to infinity. -/
def roundDouble (n : Int) : Fp :=
  let r := roundBits 53 0 n
  if 2 ^ 2098 ≤ r.natAbs then Fp.inf (decide (n < 0)) else Fp.fin r

/-- Rounding of an exact value to `float`: 24 significant bits, smallest unit `2^(-149)`,
overflow to infinity. -/
def roundFloat (n : Int) : Fp :=
  let r := roundBits 24 925 n
  if 2 ^ 1202 ≤ r.natAbs then Fp.inf (decide (n < 0)) else Fp.fin r

/-- Conversion `double → float` (the assignment `lastX = xpos`, the initialisation
`GLfloat xoffset = ...`). -/
def toFloat : Fp → Fp
  | Fp.fin n => roundFloat n
  | Fp.inf b => Fp.inf b
  | Fp.nan => Fp.nan

/-- Subtraction in `double` arithmetic. A `float` operand is promoted without change. -/
def dsub : Fp → Fp → Fp
  | Fp.fin a, Fp.fin b => roundDouble (a - b)
  | Fp.nan, _ => Fp.nan
  | _, Fp.nan => Fp.nan
  | Fp.inf s, Fp.inf t => if s = t then Fp.nan else Fp.inf s
  | Fp.inf s, Fp.fin _ => Fp.inf s
  | Fp.fin _, Fp.inf t => Fp.inf (!t)

/-- The value `m / 2^k`, for `k ≤ 1074`. -/
def Fp.ofScaled (m : Int) (k : Nat) : Fp := Fp.fin (m * ((2 ^ (1074 - k) : Nat) : Int))

/-- The value `0`. -/
def Fp.zero : Fp := Fp.fin 0

/-! ## Global state -/

/-- Ways in which the program leaves its defined control flow. -/
inductive Fault where
  /-- `main` returned this code before the rendering loop. -/
  | exit (code : Int)
  /-- An index outside the bounds of its container. -/
  | outOfRange
deriving DecidableEq

/-- The global variables read and written by the callbacks, and the effects they have on
their collaborators. -/
structure State where
  /-- `GLuint current_subroutine` -/
  current_subroutine : Nat
  /-- `vector<std::string> shaders` -/
  shaders : List String
  /-- `bool keys[1024]`: the cells `0 .. 1023` -/
  keys : Nat → Bool
  /-- `GLfloat lastX` -/
  lastX : Fp
  /-- `GLfloat lastY` -/
  lastY : Fp
  /-- `bool firstMouse` -/
  firstMouse : Bool
  /-- `GLboolean wireframe` -/
  wireframe : Bool
  /-- the close flag of the window, set by `glfwSetWindowShouldClose` -/
  shouldClose : Bool
  /-- the texts written to `std::cout`, one for each line printed -/
  console : List String
  /-- the arguments of each call of `camera.ProcessMouseMovement`, oldest first -/
  mouseMoves : List (Fp × Fp)

/-- The globals as their initialisers leave them, before `main` runs. -/
def State.initial : State where
  current_subroutine := 0
  shaders := []
  keys := fun _ => false
  lastX := Fp.zero
  lastY := Fp.zero
  firstMouse := true
  wireframe := false
  shouldClose := false
  console := []
  mouseMoves := []

/-- `PrintCurrentShader(int subroutine)`: prints `shaders[subroutine]`. -/
def PrintCurrentShader (s : State) (subroutine : Int) : Except Fault State :=
  match s.shaders[toSizeT subroutine]? with
  | some name => Except.ok { s with console := s.console ++ ["Current shader subroutine: " ++ name] }
  | none => Except.error Fault.outOfRange

/-- The assignment `keys[key] = v`. -/
def writeKey (s : State) (key : Int) (v : Bool) : Except Fault State :=
  if 0 ≤ key ∧ key < 1024 then
    Except.ok { s with keys := Function.update s.keys key.toNat v }
  else
    Except.error Fault.outOfRange

/-- `key_callback(window, key, scancode, action, mode)`. -/
def key_callback (s : State) (key _scancode action _mode : Int) : Except Fault State :=
  -- if ESC is pressed, we close the application
  let s1 : State :=
    if key = GLFW_KEY_ESCAPE ∧ action = GLFW_PRESS then { s with shouldClose := true } else s
  -- if L is pressed, we activate/deactivate wireframe rendering
  let s2 : State :=
    if key = GLFW_KEY_L ∧ action = GLFW_PRESS then { s1 with wireframe := !s1.wireframe } else s1
  -- pressing a key number, we change the shader applied to the models
  let r3 : Except Fault State :=
    if (GLFW_KEY_1 ≤ key ∧ key ≤ GLFW_KEY_9) ∧ action = GLFW_PRESS then
      let new_subroutine : Nat := toGLuint (key - 48 - 1)
      if new_subroutine < s2.shaders.length then
        PrintCurrentShader { s2 with current_subroutine := new_subroutine } (toGLint new_subroutine)
      else
        Except.ok s2
    else
      Except.ok s2
  -- we keep trace of the pressed keys
  match r3 with
  | Except.error f => Except.error f
  | Except.ok s3 =>
    if action = GLFW_PRESS then writeKey s3 key true
    else if action = GLFW_RELEASE then writeKey s3 key false
    else Except.ok s3

/-- First statement of `key_callback`: the close request. -/
def escapeStage (s : State) (key action : Int) : State :=
  if key = GLFW_KEY_ESCAPE ∧ action = GLFW_PRESS then { s with shouldClose := true } else s

/-- Second statement of `key_callback`: the wireframe toggle. -/
def wireframeStage (s : State) (key action : Int) : State :=
  if key = GLFW_KEY_L ∧ action = GLFW_PRESS then { s with wireframe := !s.wireframe } else s

/-- Third statement of `key_callback`: the selection of the subroutine. -/
def digitStage (s : State) (key action : Int) : Except Fault State :=
  if (GLFW_KEY_1 ≤ key ∧ key ≤ GLFW_KEY_9) ∧ action = GLFW_PRESS then
    if toGLuint (key - 48 - 1) < s.shaders.length then
      PrintCurrentShader { s with current_subroutine := toGLuint (key - 48 - 1) }
        (toGLint (toGLuint (key - 48 - 1)))
    else
      Except.ok s
  else
    Except.ok s

/-- Fourth statement of `key_callback`: the table of pressed keys. -/
def keysStage (s : State) (key action : Int) : Except Fault State :=
  if action = GLFW_PRESS then writeKey s key true
  else if action = GLFW_RELEASE then writeKey s key false
  else Except.ok s

/-- `mouse_callback(window, xpos, ypos)`. -/
def mouse_callback (s : State) (xpos ypos : Fp) : State :=
  let s1 : State :=
    if s.firstMouse then
      { s with lastX := toFloat xpos, lastY := toFloat ypos, firstMouse := false }
    else s
  -- offset of mouse cursor position
  let xoffset : Fp := toFloat (dsub xpos s1.lastX)
  let yoffset : Fp := toFloat (dsub s1.lastY ypos)
  -- the new position will be the previous one for the next frame; the offset goes to the camera
  { s1 with
    lastX := toFloat xpos
    lastY := toFloat ypos
    mouseMoves := s1.mouseMoves ++ [(xoffset, yoffset)] }

/-- One keyboard event as GLFW delivers it to `key_callback`. -/
structure KeyEvent where
  key : Int
  scancode : Int
  action : Int
  mode : Int

/-- The key events of a session, delivered in order; the first fault ends the run. -/
def runKeys : State → List KeyEvent → Except Fault State
  | s, [] => Except.ok s
  | s, e :: es =>
    match key_callback s e.key e.scancode e.action e.mode with
    | Except.ok s' => runKeys s' es
    | Except.error f => Except.error f

/-- The mouse events of a session, delivered in order. -/
def runMouse : State → List (Fp × Fp) → State
  | s, [] => s
  | s, p :: ps => runMouse (mouse_callback s p.1 p.2) ps

/-- The lookup `shaders[current_subroutine]` of the lit pass (argument of
`glGetSubroutineIndex` in the rendering loop of `main`). -/
def currentSubroutineName (s : State) : Except Fault String :=
  match s.shaders[s.current_subroutine]? with
  | some name => Except.ok name
  | none => Except.error Fault.outOfRange

/-- The write `keys[key]` of this event, if it makes one, is inside the array. -/
def KeyEvent.inBounds (e : KeyEvent) : Prop :=
  (e.action = GLFW_PRESS ∨ e.action = GLFW_RELEASE) → 0 ≤ e.key ∧ e.key < 1024

/-- The event is a press of the key `L`. -/
def KeyEvent.isWireframePress (e : KeyEvent) : Bool :=
  decide (e.key = GLFW_KEY_L) && decide (e.action = GLFW_PRESS)

/-- Number of presses of the key `L` among the events. -/
def wireframePresses (events : List KeyEvent) : Nat :=
  events.countP KeyEvent.isWireframePress

/-- The globals after a start-up that found the three subroutines of the lit-pass shader. -/
def State.threeVariants : State :=
  { State.initial with shaders := ["Naive", "Adaptive", "PCF"] }

/-- The offsets computed from two consecutive positions held exactly by `lastX`, `lastY`:
the differences in `double`, converted to `GLfloat`. -/
def offsetBetween (prev cur : Fp × Fp) : Fp × Fp :=
  (toFloat (dsub cur.1 prev.1), toFloat (dsub prev.2 cur.2))

/-! ## Start-up -/

/-- What OpenGL reports for one active subroutine uniform of the fragment shader: its name
and, for each compatible subroutine, its index and its name. -/
structure SubroutineUniform where
  name : String
  compatible : List (Int × String)

/-- Inner loop of `SetupShader`: prints each compatible subroutine and appends its name to
`shaders`. -/
def SetupShader.names : State → List (Int × String) → State
  | s, [] => s
  | s, (index, name) :: rest =>
    SetupShader.names
      { s with
        console := s.console ++ ["\t" ++ toString index ++ " - " ++ name]
        shaders := s.shaders ++ [name] }
      rest

/-- Outer loop of `SetupShader`, from the uniform of index `i` on. -/
def SetupShader.uniforms : State → Nat → List SubroutineUniform → State
  | s, _, [] => s
  | s, i, u :: rest =>
    let s1 : State :=
      { s with
        console := s.console ++
          ["Subroutine Uniform: " ++ toString i ++ " - name: " ++ u.name,
           "Compatible Subroutines:"] }
    let s2 : State := SetupShader.names s1 u.compatible
    SetupShader.uniforms { s2 with console := s2.console ++ [""] } (i + 1) rest

/-- `SetupShader(program)`: the names of the subroutines of the program are printed and
placed in `shaders`. The answers of OpenGL are the arguments. -/
def SetupShader (s : State) (maxSub maxSubU : Int) (uniforms : List SubroutineUniform) : State :=
  SetupShader.uniforms
    { s with
      console := s.console ++
        ["Max Subroutines:" ++ toString maxSub ++ " - Max Subroutine Uniforms:" ++
          toString maxSubU] }
    0 uniforms

/-- What the libraries answer during the start-up of `main`. -/
structure Startup where
  /-- `glfwCreateWindow` returned a window -/
  windowCreated : Bool
  /-- `gladLoadGLLoader` succeeded -/
  gladLoaded : Bool
  /-- `GL_MAX_SUBROUTINES` -/
  maxSub : Int
  /-- `GL_MAX_SUBROUTINE_UNIFORM_LOCATIONS` -/
  maxSubU : Int
  /-- the active subroutine uniforms of the lit-pass program -/
  uniforms : List SubroutineUniform

/-- The part of `main` that precedes the rendering loop, as far as it touches the globals of
the callbacks: creation of the window, loading of OpenGL, `SetupShader` and
`PrintCurrentShader(current_subroutine)`. -/
def main_startup (inp : Startup) : Except Fault State :=
  if inp.windowCreated = false then
    Except.error (Fault.exit (-1))
  else if inp.gladLoaded = false then
    Except.error (Fault.exit (-1))
  else
    let s : State := SetupShader State.initial inp.maxSub inp.maxSubU inp.uniforms
    PrintCurrentShader s (toGLint s.current_subroutine)

/-! ## Drawing the scene -/

/-- The functions of GLM and the uniform table of OpenGL that `RenderObjects` calls. `V` is
the type of `GLfloat` values, `M4` of `glm::mat4`, `M3` of `glm::mat3`. -/
structure Library (V M4 M3 : Type) where
  /-- the value of a `float` literal -/
  lit : ℚ → V
  /-- `glm::radians` -/
  radians : V → V
  /-- `glm::mat4(1.0f)` -/
  mat4 : M4
  /-- `glm::mat3(1.0f)` -/
  mat3 : M3
  /-- `glm::translate(m, v)` -/
  translate : M4 → V × V × V → M4
  /-- `glm::rotate(m, angle, axis)` -/
  rotate : M4 → V → V × V × V → M4
  /-- `glm::scale(m, v)` -/
  scale : M4 → V × V × V → M4
  /-- the product of two `glm::mat4` -/
  mul : M4 → M4 → M4
  /-- `glm::mat3(m)` -/
  toMat3 : M4 → M3
  /-- `glm::inverseTranspose(m)` -/
  inverseTranspose : M3 → M3
  /-- `glGetUniformLocation(program, name)`; `-1` when the program has no such uniform -/
  glGetUniformLocation : Nat → String → Int

/-- The class `Shader`: the name of its OpenGL program. -/
structure Shader where
  Program : Nat

/-- A loaded `Model`, named by a number. -/
abbrev Model := Nat

/-- `enum render_passes`: the value `SHADOWMAP`. -/
def SHADOWMAP : Int := 0
/-- `enum render_passes`: the value `RENDER`. -/
def RENDER : Int := 1

/-- The calls `RenderObjects` makes into OpenGL and the `Model` class. -/
inductive GLCall (V M4 M3 : Type) where
  /-- `glActiveTexture(GL_TEXTURE0 + unit)` -/
  | activeTexture (unit : Nat)
  /-- `glBindTexture(GL_TEXTURE_2D, texture)` -/
  | bindTexture (texture : Nat)
  /-- `glUniform1i(location, value)` -/
  | uniform1i (location : Int) (value : Int)
  /-- `glUniform1f(location, value)` -/
  | uniform1f (location : Int) (value : V)
  /-- `glUniformMatrix4fv(location, 1, GL_FALSE, value)` -/
  | uniformMatrix4fv (location : Int) (value : M4)
  /-- `glUniformMatrix3fv(location, 1, GL_FALSE, value)` -/
  | uniformMatrix3fv (location : Int) (value : M3)
  /-- `model.Draw()` -/
  | draw (model : Model)

/-- The globals read and written by `RenderObjects`. The matrices of an object are written
only in the section of that object, so the function below keeps them in local names and
stores them once, at its end. -/
structure Scene (V M4 M3 : Type) where
  /-- `glm::mat4 view` -/
  view : M4
  /-- `GLfloat orientationY` -/
  orientationY : V
  /-- `GLfloat repeat` -/
  uvRepeat : V
  /-- `vector<GLint> textureID` -/
  textureID : List Int
  lampModelMatrix : M4
  lampNormalMatrix : M3
  benchModelMatrix : M4
  benchNormalMatrix : M3
  treeModelMatrix : M4
  treeNormalMatrix : M3
  planeModelMatrix : M4
  planeNormalMatrix : M3

/-- The read `textureID[i]`. -/
def textureAt (textureID : List Int) (i : Nat) : Except Fault Int :=
  match textureID[i]? with
  | some t => Except.ok t
  | none => Except.error Fault.outOfRange

/-- `RenderObjects(shader, planeModel, benchModel, lampModel, treeModel, render_pass, depthMap)`:
the scene after the call and the calls made, oldest first. -/
def RenderObjects {V M4 M3 : Type} (L : Library V M4 M3) (sc : Scene V M4 M3) (shader : Shader)
    (planeModel benchModel lampModel treeModel : Model) (render_pass : Int) (depthMap : Nat) :
    Except Fault (Scene V M4 M3 × List (GLCall V M4 M3)) := do
  -- For the second rendering step -> we pass the shadow map to the shaders
  let calls : List (GLCall V M4 M3) :=
    if render_pass = RENDER then
      [GLCall.activeTexture 2, GLCall.bindTexture depthMap,
       GLCall.uniform1i (L.glGetUniformLocation shader.Program "shadowMap") 2]
    else []
  let textureLocation : Int := L.glGetUniformLocation shader.Program "tex"
  let repeatLocation : Int := L.glGetUniformLocation shader.Program "repeat"
  -- PLANE
  let planeTexture ← textureAt sc.textureID 1
  let calls := calls ++
    [GLCall.activeTexture 1, GLCall.bindTexture (toGLuint planeTexture),
     GLCall.uniform1i textureLocation 1, GLCall.uniform1f repeatLocation (L.lit 80)]
  -- we reset to identity at each frame
  let planeModelMatrix : M4 := L.mat4
  -- (planeNormalMatrix is reset to identity here and overwritten below)
  let planeModelMatrix : M4 := L.translate planeModelMatrix (L.lit 0, L.lit (-1), L.lit 0)
  let planeModelMatrix : M4 := L.scale planeModelMatrix (L.lit 10, L.lit 1, L.lit 10)
  let planeNormalMatrix : M3 := L.inverseTranspose (L.toMat3 (L.mul sc.view planeModelMatrix))
  let calls := calls ++
    [GLCall.uniformMatrix4fv (L.glGetUniformLocation shader.Program "modelMatrix")
       planeModelMatrix,
     GLCall.uniformMatrix3fv (L.glGetUniformLocation shader.Program "normalMatrix")
       planeNormalMatrix,
     GLCall.draw planeModel]
  -- lamp
  let lampTexture ← textureAt sc.textureID 0
  let calls := calls ++
    [GLCall.activeTexture 0, GLCall.bindTexture (toGLuint lampTexture),
     GLCall.uniform1i textureLocation 0, GLCall.uniform1f repeatLocation sc.uvRepeat]
  let lampModelMatrix : M4 := L.mat4
  -- (lampNormalMatrix is reset to identity here and overwritten below)
  let lampModelMatrix : M4 := L.translate lampModelMatrix (L.lit (-3), L.lit (-1), L.lit 3)
  let lampModelMatrix : M4 :=
    L.rotate lampModelMatrix (L.radians sc.orientationY) (L.lit 0, L.lit 1, L.lit 0)
  let lampModelMatrix : M4 := L.scale lampModelMatrix (L.lit (1/4), L.lit (1/4), L.lit (1/4))
  let lampNormalMatrix : M3 := L.inverseTranspose (L.toMat3 (L.mul sc.view lampModelMatrix))
  let calls := calls ++
    [GLCall.uniformMatrix4fv (L.glGetUniformLocation shader.Program "modelMatrix")
       lampModelMatrix,
     GLCall.uniformMatrix3fv (L.glGetUniformLocation shader.Program "normalMatrix")
       lampNormalMatrix,
     GLCall.draw lampModel]
  -- bench
  let benchTexture ← textureAt sc.textureID 0
  let calls := calls ++
    [GLCall.activeTexture 0, GLCall.bindTexture (toGLuint benchTexture),
     GLCall.uniform1i textureLocation 0, GLCall.uniform1f repeatLocation sc.uvRepeat]
  let benchModelMatrix : M4 := L.mat4
  -- (benchNormalMatrix is reset to identity here and overwritten below)
  let benchModelMatrix : M4 := L.translate benchModelMatrix (L.lit 0, L.lit (-1), L.lit 0)
  let benchModelMatrix : M4 :=
    L.rotate benchModelMatrix (L.radians sc.orientationY) (L.lit 0, L.lit 1, L.lit 0)
  let benchModelMatrix : M4 :=
    L.scale benchModelMatrix (L.lit (1/100), L.lit (1/100), L.lit (1/100))
  let benchNormalMatrix : M3 := L.inverseTranspose (L.toMat3 (L.mul sc.view benchModelMatrix))
  let calls := calls ++
    [GLCall.uniformMatrix4fv (L.glGetUniformLocation shader.Program "modelMatrix")
       benchModelMatrix,
     GLCall.uniformMatrix3fv (L.glGetUniformLocation shader.Program "normalMatrix")
       benchNormalMatrix,
     GLCall.draw benchModel]
  -- tree
  let treeTexture ← textureAt sc.textureID 2
  let calls := calls ++
    [GLCall.activeTexture 3, GLCall.bindTexture (toGLuint treeTexture),
     GLCall.uniform1i textureLocation 3, GLCall.uniform1f repeatLocation sc.uvRepeat]
  let treeModelMatrix : M4 := L.mat4
  -- (treeNormalMatrix is reset to identity here and overwritten below)
  let treeModelMatrix : M4 := L.translate treeModelMatrix (L.lit 5, L.lit (-1), L.lit 5)
  let treeModelMatrix : M4 :=
    L.rotate treeModelMatrix (L.radians sc.orientationY) (L.lit 0, L.lit 1, L.lit 0)
  let treeModelMatrix : M4 := L.scale treeModelMatrix (L.lit (3/2), L.lit (3/2), L.lit (3/2))
  let treeNormalMatrix : M3 := L.inverseTranspose (L.toMat3 (L.mul sc.view treeModelMatrix))
  let calls := calls ++
    [GLCall.uniformMatrix4fv (L.glGetUniformLocation shader.Program "modelMatrix")
       treeModelMatrix,
     GLCall.uniformMatrix3fv (L.glGetUniformLocation shader.Program "normalMatrix")
       treeNormalMatrix,
     GLCall.draw treeModel]
  -- the globals as the call leaves them
  let after : Scene V M4 M3 :=
    { sc with
      planeModelMatrix := planeModelMatrix
      planeNormalMatrix := planeNormalMatrix
      lampModelMatrix := lampModelMatrix
      lampNormalMatrix := lampNormalMatrix
      benchModelMatrix := benchModelMatrix
      benchNormalMatrix := benchNormalMatrix
      treeModelMatrix := treeModelMatrix
      treeNormalMatrix := treeNormalMatrix }
  return (after, calls)

/-- The call is a `Draw()` of a model. -/
def GLCall.isDraw {V M4 M3 : Type} : GLCall V M4 M3 → Bool
  | GLCall.draw _ => true
  | _ => false

/-- The call is a `Draw()` of a model or an upload of a 4x4 matrix. -/
def GLCall.isDrawOrMatrix4 {V M4 M3 : Type} : GLCall V M4 M3 → Bool
  | GLCall.draw _ => true
  | GLCall.uniformMatrix4fv _ _ => true
  | _ => false

/-- The part of the OpenGL state that texturing reads: the active texture unit, the texture
bound to `GL_TEXTURE_2D` on each unit, and the integer uniforms of the program in use, by
location. -/
structure GLState where
  activeUnit : Nat
  bound2D : Nat → Nat
  intUniform : Int → Option Int

/-- Effect of one call on the texturing state, as OpenGL specifies it; a uniform call with
location `-1` is ignored. -/
def GLState.step {V M4 M3 : Type} (g : GLState) : GLCall V M4 M3 → GLState
  | GLCall.activeTexture unit => { g with activeUnit := unit }
  | GLCall.bindTexture texture =>
    { g with bound2D := Function.update g.bound2D g.activeUnit texture }
  | GLCall.uniform1i location value =>
    if location = -1 then g
    else { g with intUniform := Function.update g.intUniform location (some value) }
  | _ => g

/-- The texturing state at each `Draw()` of a sequence of calls, with the model drawn. -/
def statesAtDraws {V M4 M3 : Type} : GLState → List (GLCall V M4 M3) → List (Model × GLState)
  | _, [] => []
  | g, GLCall.draw model :: rest => (model, g) :: statesAtDraws g rest
  | g, call :: rest => statesAtDraws (g.step call) rest

/-- What a draw needs from the texturing state in the lit pass: the shadow map on unit 2 and
the sampler `shadowMap` reading unit 2; the diffuse texture on the unit that the sampler `tex`
reads, which is not unit 2. -/
def GLState.textured (g : GLState) (shadowLocation textureLocation : Int)
    (depthMap unit texture : Nat) : Prop :=
  g.bound2D 2 = depthMap ∧ g.intUniform shadowLocation = some 2 ∧
  g.intUniform textureLocation = some (unit : Int) ∧ g.bound2D unit = texture ∧ unit ≠ 2

/-- The call binds a texture, selects a texture unit or sets an integer uniform. -/
def GLCall.isTexturing {V M4 M3 : Type} : GLCall V M4 M3 → Bool
  | GLCall.activeTexture _ => true
  | GLCall.bindTexture _ => true
  | GLCall.uniform1i _ _ => true
  | _ => false

/-- A library whose values carry no information, with a program that has the uniforms
`tex` (location 4) and `shadowMap` (location 5) and no other. -/
def Library.blank : Library Unit Unit Unit where
  lit := fun _ => ()
  radians := fun _ => ()
  mat4 := ()
  mat3 := ()
  translate := fun _ _ => ()
  rotate := fun _ _ _ => ()
  scale := fun _ _ => ()
  mul := fun _ _ => ()
  toMat3 := fun _ => ()
  inverseTranspose := fun _ => ()
  glGetUniformLocation := fun _ name =>
    if name = "tex" then 4 else if name = "shadowMap" then 5 else -1

/-- A scene over `Library.blank` with the three textures 11, 12, 13. -/
def Scene.blank : Scene Unit Unit Unit where
  view := ()
  orientationY := ()
  uvRepeat := ()
  textureID := [11, 12, 13]
  lampModelMatrix := ()
  lampNormalMatrix := ()
  benchModelMatrix := ()
  benchNormalMatrix := ()
  treeModelMatrix := ()
  treeNormalMatrix := ()
  planeModelMatrix := ()
  planeNormalMatrix := ()

/-- A texturing state with nothing bound and no uniform set. -/
def GLState.blank : GLState where
  activeUnit := 0
  bound2D := fun _ => 0
  intUniform := fun _ => none

/-! ## Keys held down -/

/-- Key code GLFW gives to a key without a token (`GLFW_KEY_UNKNOWN`). -/
def GLFW_KEY_UNKNOWN : Int := -1
/-- The largest key code (`GLFW_KEY_LAST`). -/
def GLFW_KEY_LAST : Int := 348
/-- Key code of the letter `W`. -/
def GLFW_KEY_W : Int := 87
/-- Key code of the letter `S`. -/
def GLFW_KEY_S : Int := 83
/-- Key code of the letter `A`. -/
def GLFW_KEY_A : Int := 65
/-- Key code of the letter `D`. -/
def GLFW_KEY_D : Int := 68

/-- `enum Camera_Movement` of the camera class. -/
inductive Camera_Movement where
  | FORWARD
  | BACKWARD
  | LEFT
  | RIGHT
deriving DecidableEq

/-- The read `keys[key]` for one of the four constant key codes, all inside the array. -/
def keyHeld (s : State) (key : Int) : Bool := s.keys key.toNat

/-- `apply_camera_movements()`: the calls `camera.ProcessKeyboard(direction, deltaTime)` it
makes, in order. -/
def apply_camera_movements (s : State) (deltaTime : Fp) : List (Camera_Movement × Fp) :=
  (if keyHeld s GLFW_KEY_W then [(Camera_Movement.FORWARD, deltaTime)] else []) ++
  (if keyHeld s GLFW_KEY_S then [(Camera_Movement.BACKWARD, deltaTime)] else []) ++
  (if keyHeld s GLFW_KEY_A then [(Camera_Movement.LEFT, deltaTime)] else []) ++
  (if keyHeld s GLFW_KEY_D then [(Camera_Movement.RIGHT, deltaTime)] else [])

/-- The most recent event among `events` (oldest first) that is a press or a release of the
key `k`: `some true` for a press, `some false` for a release, `none` when there is none. -/
def lastEdge (k : Nat) : List KeyEvent → Option Bool
  | [] => none
  | e :: es =>
    match lastEdge k es with
    | some b => some b
    | none =>
      if e.key = (k : Int) ∧ e.action = GLFW_PRESS then some true
      else if e.key = (k : Int) ∧ e.action = GLFW_RELEASE then some false
      else none

/-- The key that moves the camera in a direction. -/
def Camera_Movement.key : Camera_Movement → Nat
  | Camera_Movement.FORWARD => 87
  | Camera_Movement.BACKWARD => 83
  | Camera_Movement.LEFT => 65
  | Camera_Movement.RIGHT => 68

/-! ## `ParticleSettings.h` -/

/-- `std::ceil` of a `float`: the least whole number not below the value. -/
def Fp.ceil : Fp → Fp
  | Fp.fin n => Fp.fin (-((-n) / ((2 ^ 1074 : Nat) : Int)) * ((2 ^ 1074 : Nat) : Int))
  | Fp.inf b => Fp.inf b
  | Fp.nan => Fp.nan

/-- The conversion `(int) x` of a `float`: truncation toward zero. The conversion has no
defined result (`none`) for a value that is not finite or whose truncation is not an `int`. -/
def Fp.toInt32 : Fp → Option Int
  | Fp.fin n =>
    let t : Int :=
      if n < 0 then -((-n) / ((2 ^ 1074 : Nat) : Int)) else n / ((2 ^ 1074 : Nat) : Int)
    if -2147483648 ≤ t ∧ t ≤ 2147483647 then some t else none
  | Fp.inf _ => none
  | Fp.nan => none

/-- `struct SnowGL::ParticleSettings`. -/
structure ParticleSettings where
  particlesPerSecond : Fp
  lifetimeMin : Fp
  lifetimeMax : Fp
  collisionMultiplier : Fp
  globalWind : Fp × Fp × Fp
  initialVelocity : Fp × Fp × Fp
  domainPosition : Fp × Fp × Fp
  domainSize : Fp × Fp × Fp
  drawDomain : Bool
  drawPartition : Bool

/-- `ParticleSettings::getMaxParticles()`:
`(int)ceil(lifetimeMax) * (int)particlesPerSecond`, without a result when a conversion has
none or the product of the two `int` overflows. -/
def ParticleSettings.getMaxParticles (p : ParticleSettings) : Option Int :=
  match Fp.toInt32 (Fp.ceil p.lifetimeMax), Fp.toInt32 p.particlesPerSecond with
  | some a, some b =>
    if -2147483648 ≤ a * b ∧ a * b ≤ 2147483647 then some (a * b) else none
  | _, _ => none

/-- The whole number `count` is at least the product of the two finite values. -/
def atLeastProduct (count : Int) (x y : Fp) : Bool :=
  match x, y with
  | Fp.fin a, Fp.fin b => decide (a * b ≤ count * (((2 ^ 1074 : Nat) : Int) * ((2 ^ 1074 : Nat) : Int)))
  | _, _ => false

/-- The value is finite and not negative. -/
def Fp.nonneg : Fp → Bool
  | Fp.fin n => decide (0 ≤ n)
  | _ => false

/-- Settings that emit 1.5 particles per second, each living for 2 seconds; the other fields
as their initialisers leave them. -/
def ParticleSettings.sample : ParticleSettings where
  particlesPerSecond := Fp.ofScaled 3 1
  lifetimeMin := Fp.zero
  lifetimeMax := Fp.ofScaled 2 0
  collisionMultiplier := Fp.zero
  globalWind := (Fp.zero, Fp.zero, Fp.zero)
  initialVelocity := (Fp.zero, Fp.zero, Fp.zero)
  domainPosition := (Fp.zero, Fp.zero, Fp.zero)
  domainSize := (Fp.ofScaled 5 0, Fp.ofScaled 5 0, Fp.ofScaled 5 0)
  drawDomain := false
  drawPartition := false

/-! ## One iteration of the rendering loop -/

/-- Subtraction of two `GLfloat` values. -/
def fsub : Fp → Fp → Fp
  | Fp.fin a, Fp.fin b => roundFloat (a - b)
  | Fp.nan, _ => Fp.nan
  | _, Fp.nan => Fp.nan
  | Fp.inf s, Fp.inf t => if s = t then Fp.nan else Fp.inf s
  | Fp.inf s, Fp.fin _ => Fp.inf s
  | Fp.fin _, Fp.inf t => Fp.inf (!t)

/-- The functions of GLM and OpenGL that the rendering loop of `main` calls beyond those of
`RenderObjects`. -/
structure FrameLibrary (V M4 M3 : Type) extends Library V M4 M3 where
  /-- `glm::ortho(left, right, bottom, top, zNear, zFar)` -/
  ortho : V → V → V → V → V → V → M4
  /-- `glm::lookAt(eye, center, up)` -/
  lookAt : V × V × V → V × V × V → V × V × V → M4
  /-- `glGetSubroutineIndex(program, GL_FRAGMENT_SHADER, name)` -/
  glGetSubroutineIndex : Nat → String → Nat

/-- The calls of one iteration of the rendering loop into OpenGL and GLFW. -/
inductive FrameCall (V M4 M3 : Type) where
  /-- `shader.Use()` -/
  | useProgram (program : Nat)
  /-- `glViewport(0, 0, width, height)` -/
  | viewport (width height : Int)
  /-- `glBindFramebuffer(GL_FRAMEBUFFER, framebuffer)` -/
  | bindFramebuffer (framebuffer : Nat)
  /-- `glClear(mask)`: which of the colour and the depth buffer the mask names -/
  | clear (color depth : Bool)
  /-- `glPolygonMode(GL_FRONT_AND_BACK, mode)`: `GL_LINE` when `line`, else `GL_FILL` -/
  | polygonMode (line : Bool)
  /-- `glUniformSubroutinesuiv(GL_FRAGMENT_SHADER, 1, &index)` -/
  | uniformSubroutines (index : Nat)
  /-- `glUniform3fv(location, 1, value)` -/
  | uniform3fv (location : Int) (value : V × V × V)
  /-- a call of the kinds `RenderObjects` makes too -/
  | gl (call : GLCall V M4 M3)
  /-- `glfwSwapBuffers(window)` -/
  | swapBuffers

/-- The constants `main` sets up before the loop. -/
structure Assets (M4 : Type) where
  shadow_shader : Shader
  illumination_shader : Shader
  planeModel : Model
  benchModel : Model
  lampModel : Model
  treeModel : Model
  depthMapFBO : Nat
  depthMap : Nat
  /-- size of the framebuffer of the window -/
  width : Int
  height : Int
  /-- `glm::mat4 projection`, the result of `glm::perspective` -/
  projection : M4

/-- The globals `deltaTime` and `lastFrame`. -/
structure Clock where
  deltaTime : Fp
  lastFrame : Fp

/-- The initialiser of `lightDir0`: `glm::vec3(1.0f, 1.0f, 1.0f)`. -/
def lightDir0 : ℚ × ℚ × ℚ := (1, 1, 1)

/-- The sum of the squares of the components of a vector. -/
def squaredLength (v : ℚ × ℚ × ℚ) : ℚ := v.1 * v.1 + v.2.1 * v.2.1 + v.2.2 * v.2.2

/-- A `glm::vec3` of `float` literals. -/
def Library.vec3 {V M4 M3 : Type} (L : Library V M4 M3) (v : ℚ × ℚ × ℚ) : V × V × V :=
  (L.lit v.1, L.lit v.2.1, L.lit v.2.2)

/-- An event that `glfwPollEvents` delivers to a callback. -/
inductive InputEvent where
  | key (e : KeyEvent)
  | mouse (xpos ypos : Fp)

/-- `glfwPollEvents()`: the pending events go to `key_callback` and `mouse_callback`. -/
def pollEvents : State → List InputEvent → Except Fault State
  | s, [] => Except.ok s
  | s, InputEvent.key e :: rest =>
    match key_callback s e.key e.scancode e.action e.mode with
    | Except.ok s' => pollEvents s' rest
    | Except.error f => Except.error f
  | s, InputEvent.mouse xpos ypos :: rest => pollEvents (mouse_callback s xpos ypos) rest

/-- Step 1 of an iteration, the shadow map: the light-space matrix, the scene after the
depth pass and the calls made. -/
def depthPass {V M4 M3 : Type} (L : FrameLibrary V M4 M3) (a : Assets M4) (sc : Scene V M4 M3) :
    Except Fault (M4 × Scene V M4 M3 × List (FrameCall V M4 M3)) := do
  -- near_plane = -10, far_plane = 10, frustumSize = 5
  let lightProjection : M4 :=
    L.ortho (L.lit (-5)) (L.lit 5) (L.lit (-5)) (L.lit 5) (L.lit (-10)) (L.lit 10)
  let lightView : M4 :=
    L.lookAt (L.vec3 lightDir0) (L.lit 0, L.lit 0, L.lit 0) (L.lit 0, L.lit 1, L.lit 0)
  let lightSpaceMatrix : M4 := L.mul lightProjection lightView
  let calls : List (FrameCall V M4 M3) :=
    [FrameCall.useProgram a.shadow_shader.Program,
     FrameCall.gl (GLCall.uniformMatrix4fv
       (L.glGetUniformLocation a.shadow_shader.Program "lightSpaceMatrix") lightSpaceMatrix),
     FrameCall.viewport 1024 1024,
     FrameCall.bindFramebuffer a.depthMapFBO,
     FrameCall.clear false true]
  let rendered ← RenderObjects L.toLibrary sc a.shadow_shader a.planeModel a.benchModel
    a.lampModel a.treeModel SHADOWMAP a.depthMap
  return (lightSpaceMatrix, rendered.1, calls ++ rendered.2.map FrameCall.gl)

/-- Step 2 of an iteration, the scene from the camera: the scene after the lit pass and the
calls made. `cameraView` is what `camera.GetViewMatrix()` returns. -/
def litPass {V M4 M3 : Type} (L : FrameLibrary V M4 M3) (a : Assets M4) (s : State)
    (sc : Scene V M4 M3) (lightSpaceMatrix cameraView : M4) :
    Except Fault (Scene V M4 M3 × List (FrameCall V M4 M3)) := do
  let sc : Scene V M4 M3 := { sc with view := cameraView }
  let program : Nat := a.illumination_shader.Program
  let calls : List (FrameCall V M4 M3) :=
    [FrameCall.bindFramebuffer 0,
     FrameCall.clear true true,
     FrameCall.polygonMode s.wireframe,
     FrameCall.viewport a.width a.height,
     FrameCall.useProgram program]
  let name ← currentSubroutineName s
  let calls := calls ++
    [FrameCall.uniformSubroutines (L.glGetSubroutineIndex program name),
     FrameCall.gl (GLCall.uniformMatrix4fv
       (L.glGetUniformLocation program "projectionMatrix") a.projection),
     FrameCall.gl (GLCall.uniformMatrix4fv (L.glGetUniformLocation program "viewMatrix") sc.view),
     FrameCall.gl (GLCall.uniformMatrix4fv
       (L.glGetUniformLocation program "lightSpaceMatrix") lightSpaceMatrix),
     FrameCall.uniform3fv (L.glGetUniformLocation program "lightVector") (L.vec3 lightDir0),
     -- Kd = 3.0f, alpha = 0.2f, F0 = 0.9f
     FrameCall.gl (GLCall.uniform1f (L.glGetUniformLocation program "Kd") (L.lit 3)),
     FrameCall.gl (GLCall.uniform1f (L.glGetUniformLocation program "alpha") (L.lit (1/5))),
     FrameCall.gl (GLCall.uniform1f (L.glGetUniformLocation program "F0") (L.lit (9/10)))]
  let rendered ← RenderObjects L.toLibrary sc a.illumination_shader a.planeModel a.benchModel
    a.lampModel a.treeModel RENDER a.depthMap
  return (rendered.1, calls ++ rendered.2.map FrameCall.gl ++ [FrameCall.swapBuffers])

/-- What one iteration of the rendering loop leaves and does. -/
structure Frame (V M4 M3 : Type) where
  state : State
  clock : Clock
  scene : Scene V M4 M3
  /-- the calls `camera.ProcessKeyboard(direction, deltaTime)` -/
  cameraMoves : List (Camera_Movement × Fp)
  calls : List (FrameCall V M4 M3)

/-- One iteration of the rendering loop of `main`. `time` is what `glfwGetTime()` returns,
`events` what `glfwPollEvents()` delivers, `cameraView` what `camera.GetViewMatrix()`
returns. -/
def renderFrame {V M4 M3 : Type} (L : FrameLibrary V M4 M3) (a : Assets M4) (s : State)
    (clock : Clock) (sc : Scene V M4 M3) (time : Fp) (events : List InputEvent)
    (cameraView : M4) : Except Fault (Frame V M4 M3) := do
  let currentFrame : Fp := toFloat time
  let clock : Clock :=
    { deltaTime := fsub currentFrame clock.lastFrame, lastFrame := currentFrame }
  let s ← pollEvents s events
  let cameraMoves := apply_camera_movements s clock.deltaTime
  let depth ← depthPass L a sc
  let lit ← litPass L a s depth.2.1 depth.1 cameraView
  return { state := s, clock := clock, scene := lit.1, cameraMoves := cameraMoves,
           calls := depth.2.2 ++ lit.2 }

/-- The uploads of 4x4 matrices among the calls: location and matrix. -/
def matrix4Uploads {V M4 M3 : Type} : List (FrameCall V M4 M3) → List (Int × M4)
  | [] => []
  | FrameCall.gl (GLCall.uniformMatrix4fv location value) :: rest =>
    (location, value) :: matrix4Uploads rest
  | _ :: rest => matrix4Uploads rest

/-- The uploads of 3-vectors among the calls: location and vector. -/
def vector3Uploads {V M4 M3 : Type} : List (FrameCall V M4 M3) → List (Int × (V × V × V))
  | [] => []
  | FrameCall.uniform3fv location value :: rest => (location, value) :: vector3Uploads rest
  | _ :: rest => vector3Uploads rest

/-- The location given to a call that sets a uniform. -/
def GLCall.uniformLocation {V M4 M3 : Type} : GLCall V M4 M3 → Option Int
  | GLCall.uniform1i location _ => some location
  | GLCall.uniform1f location _ => some location
  | GLCall.uniformMatrix4fv location _ => some location
  | GLCall.uniformMatrix3fv location _ => some location
  | _ => none

/-- The location given to a call of the loop that sets a uniform. -/
def FrameCall.uniformLocation {V M4 M3 : Type} : FrameCall V M4 M3 → Option Int
  | FrameCall.uniform3fv location _ => some location
  | FrameCall.gl call => call.uniformLocation
  | _ => none

/-- The locations of the uniforms that a sequence of calls gives a value to: OpenGL ignores
a call whose location is `-1`. -/
def uniformsSet {V M4 M3 : Type} (calls : List (FrameCall V M4 M3)) : List Int :=
  (calls.filterMap FrameCall.uniformLocation).filter (fun location => decide (location ≠ -1))

/-- A library whose values carry no information, with a depth-pass program (number 1) that
has the uniforms `lightSpaceMatrix` (location 0) and `modelMatrix` (location 1) and no other,
and a lit-pass program (number 2) with the uniforms of `Library.blank`. -/
def FrameLibrary.blank : FrameLibrary Unit Unit Unit where
  toLibrary :=
    { Library.blank with
      glGetUniformLocation := fun program name =>
        if program = 1 then
          if name = "lightSpaceMatrix" then 0 else if name = "modelMatrix" then 1 else -1
        else Library.blank.glGetUniformLocation program name }
  ortho := fun _ _ _ _ _ _ => ()
  lookAt := fun _ _ _ => ()
  glGetSubroutineIndex := fun _ _ => 0

/-- Assets over `FrameLibrary.blank`: depth-pass program 1, lit-pass program 2. -/
def Assets.blank : Assets Unit where
  shadow_shader := Shader.mk 1
  illumination_shader := Shader.mk 2
  planeModel := 20
  benchModel := 21
  lampModel := 22
  treeModel := 23
  depthMapFBO := 1
  depthMap := 7
  width := 800
  height := 600
  projection := ()

/-- The call sets a uniform. -/
def FrameCall.setsUniform {V M4 M3 : Type} (call : FrameCall V M4 M3) : Bool :=
  call.uniformLocation.isSome

/-! ## GLM in exact arithmetic -/

/-- A `glm::mat4` over the numbers `K`, entry `m i j` in row `i` and column `j`: the GLM
expression `m[j][i]`. -/
abbrev Mat4 (K : Type) := Matrix (Fin 4) (Fin 4) K

/-- A `glm::mat3` over the numbers `K`. -/
abbrev Mat3 (K : Type) := Matrix (Fin 3) (Fin 3) K

/-- The scalar functions that GLM takes from the C library. -/
structure Scalars (K : Type) where
  cos : K → K
  sin : K → K
  /-- `glm::inversesqrt` -/
  inversesqrt : K → K
  /-- `glm::radians` -/
  radians : K → K

/-- Modelled from the spec: `glm::translate` (GLM is not among the sources; the spec names
the translation of the local transform). The fourth column of the result is
`m[0] * v[0] + m[1] * v[1] + m[2] * v[2] + m[3]`, the other columns are those of `m`. -/
def glmTranslate {K : Type} [Field K] (m : Mat4 K) (v : K × K × K) : Mat4 K :=
  Matrix.of fun i j =>
    if j = 3 then m i 0 * v.1 + m i 1 * v.2.1 + m i 2 * v.2.2 + m i 3 else m i j

/-- Modelled from the spec: `glm::scale` (GLM is not among the sources; the spec names the
scale of the local transform). The first three columns of `m` are multiplied by the
components of `v`. -/
def glmScale {K : Type} [Field K] (m : Mat4 K) (v : K × K × K) : Mat4 K :=
  Matrix.of fun i j =>
    if j = 0 then m i 0 * v.1
    else if j = 1 then m i 1 * v.2.1
    else if j = 2 then m i 2 * v.2.2
    else m i 3

/-- Modelled from the spec: `glm::normalize` of a `vec3` (GLM is not among the sources):
`v * inversesqrt(dot(v, v))`. -/
def glmNormalize {K : Type} [Field K] (T : Scalars K) (v : K × K × K) : K × K × K :=
  (v.1 * T.inversesqrt (v.1 * v.1 + v.2.1 * v.2.1 + v.2.2 * v.2.2),
   v.2.1 * T.inversesqrt (v.1 * v.1 + v.2.1 * v.2.1 + v.2.2 * v.2.2),
   v.2.2 * T.inversesqrt (v.1 * v.1 + v.2.1 * v.2.1 + v.2.2 * v.2.2))

/-- The 3x3 matrix `Rotate` that `glm::rotate` builds from the cosine, the sine and the
normalised axis, entry in row `i` and column `j`. -/
def glmRotation {K : Type} [Field K] (c s : K) (axis : K × K × K) : Mat3 K :=
  !![c + (1 - c) * axis.1 * axis.1,
     (1 - c) * axis.2.1 * axis.1 - s * axis.2.2,
     (1 - c) * axis.2.2 * axis.1 + s * axis.2.1;
     (1 - c) * axis.1 * axis.2.1 + s * axis.2.2,
     c + (1 - c) * axis.2.1 * axis.2.1,
     (1 - c) * axis.2.2 * axis.2.1 - s * axis.1;
     (1 - c) * axis.1 * axis.2.2 - s * axis.2.1,
     (1 - c) * axis.2.1 * axis.2.2 + s * axis.1,
     c + (1 - c) * axis.2.2 * axis.2.2]

/-- Modelled from the spec: `glm::rotate` (GLM is not among the sources; the spec names the
rotation of the local transform). Each of the first three columns of the result is the
combination of the first three columns of `m` by a column of `Rotate`; the fourth column is
that of `m`. -/
def glmRotate {K : Type} [Field K] (T : Scalars K) (m : Mat4 K) (angle : K)
    (v : K × K × K) : Mat4 K :=
  let r : Mat3 K := glmRotation (T.cos angle) (T.sin angle) (glmNormalize T v)
  Matrix.of fun i j =>
    if j = 0 then m i 0 * r 0 0 + m i 1 * r 1 0 + m i 2 * r 2 0
    else if j = 1 then m i 0 * r 0 1 + m i 1 * r 1 1 + m i 2 * r 2 1
    else if j = 2 then m i 0 * r 0 2 + m i 1 * r 1 2 + m i 2 * r 2 2
    else m i 3

/-- Modelled from the spec: `glm::mat3(m)` for a `mat4` (GLM is not among the sources): the
upper left 3x3 part, as the spec says of the normal matrix. -/
def glmMat3 {K : Type} (m : Mat4 K) : Mat3 K :=
  Matrix.of fun i j => m (Fin.castSucc i) (Fin.castSucc j)

/-- The determinant that `glm::inverseTranspose` divides by. -/
def glmDeterminant3 {K : Type} [Field K] (m : Mat3 K) : K :=
  m 0 0 * (m 1 1 * m 2 2 - m 2 1 * m 1 2)
  - m 1 0 * (m 0 1 * m 2 2 - m 2 1 * m 0 2)
  + m 2 0 * (m 0 1 * m 1 2 - m 1 1 * m 0 2)

/-- Modelled from the spec: `glm::inverseTranspose` of a `mat3` (GLM is not among the
sources; the spec names the inverse-transpose of the upper 3x3 part): the matrix of the
cofactors divided by the determinant. -/
def glmInverseTranspose {K : Type} [Field K] (m : Mat3 K) : Mat3 K :=
  (glmDeterminant3 m)⁻¹ •
    !![m 1 1 * m 2 2 - m 1 2 * m 2 1, -(m 1 0 * m 2 2 - m 1 2 * m 2 0),
       m 1 0 * m 2 1 - m 1 1 * m 2 0;
       -(m 0 1 * m 2 2 - m 0 2 * m 2 1), m 0 0 * m 2 2 - m 0 2 * m 2 0,
       -(m 0 0 * m 2 1 - m 0 1 * m 2 0);
       m 0 1 * m 1 2 - m 0 2 * m 1 1, -(m 0 0 * m 1 2 - m 0 2 * m 1 0),
       m 0 0 * m 1 1 - m 0 1 * m 1 0]

/-- Modelled from the spec: `glm::ortho(left, right, bottom, top, zNear, zFar)` (GLM is not
among the sources; the spec names the orthographic projection of the light, with depth in
standard clip space): the box is mapped onto the cube from -1 to 1. -/
def glmOrtho {K : Type} [Field K] (left right bottom top zNear zFar : K) : Mat4 K :=
  !![2 / (right - left), 0, 0, -(right + left) / (right - left);
     0, 2 / (top - bottom), 0, -(top + bottom) / (top - bottom);
     0, 0, -2 / (zFar - zNear), -(zFar + zNear) / (zFar - zNear);
     0, 0, 0, 1]

/-- The cross product of two `vec3`. -/
def glmCross {K : Type} [Field K] (x y : K × K × K) : K × K × K :=
  (x.2.1 * y.2.2 - y.2.1 * x.2.2, x.2.2 * y.1 - y.2.2 * x.1, x.1 * y.2.1 - y.1 * x.2.1)

/-- The dot product of two `vec3`. -/
def glmDot {K : Type} [Field K] (x y : K × K × K) : K :=
  x.1 * y.1 + x.2.1 * y.2.1 + x.2.2 * y.2.2

/-- Modelled from the spec: `glm::lookAt(eye, center, up)` (GLM is not among the sources; the
spec names the view matrix that looks from the light direction toward the origin, up = +Y). -/
def glmLookAt {K : Type} [Field K] (T : Scalars K) (eye center up : K × K × K) : Mat4 K :=
  let f := glmNormalize T (center.1 - eye.1, center.2.1 - eye.2.1, center.2.2 - eye.2.2)
  let s := glmNormalize T (glmCross f up)
  let u := glmCross s f
  !![s.1, s.2.1, s.2.2, -glmDot s eye;
     u.1, u.2.1, u.2.2, -glmDot u eye;
     -f.1, -f.2.1, -f.2.2, glmDot f eye;
     0, 0, 0, 1]

/-- The value of the literal `q` with the suffix `f`: the `float` nearest to `q`, ties to
even (24 significant bits, smallest unit `2^(-149)`), for a literal within the range of
`float`. The size of `q` is cut to a whole number of units `2^(-1076)`, made odd when
something is cut off; this number lies on the same side of every `float` and of every
midpoint of two neighbouring `float` values as `q` does, so its rounding is that of `q`. -/
def floatLiteral (q : ℚ) : ℚ :=
  let a : Nat := q.num.natAbs * 2 ^ 1075
  let n : Nat := 2 * (a / q.den) + (if a % q.den = 0 then 0 else 1)
  let r : Int := roundBits 24 927 (n : Int)
  (if q < 0 then -(r : ℚ) else (r : ℚ)) / 2 ^ 1076

/-- GLM over the numbers `K`: a `float` literal has the value of the nearest `float`, the
functions of GLM work on the values without rounding. The library `RenderObjects` and the
rendering loop are run with when their matrices are looked at. -/
def FrameLibrary.exact {K : Type} [Field K] (T : Scalars K)
    (glGetUniformLocation : Nat → String → Int) (glGetSubroutineIndex : Nat → String → Nat) :
    FrameLibrary K (Mat4 K) (Mat3 K) where
  lit := fun q => ((floatLiteral q : ℚ) : K)
  radians := T.radians
  mat4 := 1
  mat3 := 1
  translate := glmTranslate
  rotate := glmRotate T
  scale := glmScale
  mul := fun x y => x * y
  toMat3 := glmMat3
  inverseTranspose := glmInverseTranspose
  glGetUniformLocation := glGetUniformLocation
  ortho := glmOrtho
  lookAt := glmLookAt T
  glGetSubroutineIndex := glGetSubroutineIndex

/-- The translation by `v`, as a matrix acting on column vectors. -/
def translation {K : Type} [Field K] (v : K × K × K) : Mat4 K :=
  !![1, 0, 0, v.1; 0, 1, 0, v.2.1; 0, 0, 1, v.2.2; 0, 0, 0, 1]

/-- The rotation about the Y axis with cosine `c` and sine `s`, acting on column vectors. -/
def rotationY {K : Type} [Field K] (c s : K) : Mat4 K :=
  !![c, 0, s, 0; 0, 1, 0, 0; -s, 0, c, 0; 0, 0, 0, 1]

/-- The scaling by the components of `v`, acting on column vectors. -/
def scaling {K : Type} [Field K] (v : K × K × K) : Mat4 K :=
  !![v.1, 0, 0, 0; 0, v.2.1, 0, 0; 0, 0, v.2.2, 0; 0, 0, 0, 1]

/-- Scalar functions over the rationals: the cosine and the sine of the angle whose
half-angle tangent is the argument, and an inverse square root that is right at 1. -/
def Scalars.rational : Scalars ℚ where
  cos := fun t => (1 - t * t) / (1 + t * t)
  sin := fun t => 2 * t / (1 + t * t)
  inversesqrt := fun _ => 1
  radians := fun t => t

/-- A scene over the rationals: the view is the identity, `orientationY` is 1/2, the three
textures are 11, 12, 13. -/
def Scene.rational : Scene ℚ (Mat4 ℚ) (Mat3 ℚ) where
  view := 1
  orientationY := 1 / 2
  uvRepeat := 1
  textureID := [11, 12, 13]
  lampModelMatrix := 1
  lampNormalMatrix := 1
  benchModelMatrix := 1
  benchNormalMatrix := 1
  treeModelMatrix := 1
  treeNormalMatrix := 1
  planeModelMatrix := 1
  planeNormalMatrix := 1

/-- The scene `Scene.rational` with another view: the matrix that exchanges the third and the
fourth coordinate. -/
def Scene.exchanged : Scene ℚ (Mat4 ℚ) (Mat3 ℚ) :=
  { Scene.rational with view := !![1, 0, 0, 0; 0, 1, 0, 0; 0, 0, 0, 1; 0, 0, 1, 0] }

/-! ## The depth target and the shadow test -/

/-- Wrap modes of a texture coordinate. -/
inductive Wrap where
  | REPEAT
  | MIRRORED_REPEAT
  | CLAMP_TO_EDGE
  | CLAMP_TO_BORDER
deriving DecidableEq

/-- Filters of a texture. -/
inductive Filter where
  | NEAREST
  | LINEAR
  | NEAREST_MIPMAP_NEAREST
  | LINEAR_MIPMAP_NEAREST
  | NEAREST_MIPMAP_LINEAR
  | LINEAR_MIPMAP_LINEAR
deriving DecidableEq

/-- The sampling parameters of a texture. -/
structure TextureConfig where
  minFilter : Filter
  magFilter : Filter
  wrapS : Wrap
  wrapT : Wrap
  borderColor : ℚ × ℚ × ℚ × ℚ

/-- The parameters OpenGL gives a new texture. -/
def TextureConfig.initial : TextureConfig where
  minFilter := Filter.NEAREST_MIPMAP_LINEAR
  magFilter := Filter.LINEAR
  wrapS := Wrap.REPEAT
  wrapT := Wrap.REPEAT
  borderColor := (0, 0, 0, 0)

/-- What is fixed in the shaders: the tolerance of the naive technique and the offsets of the
neighbourhood that PCF samples around the projected coordinate, which holds at least one
texel. Neither is known from the sources: every choice is a value of this type. -/
structure ShadowSettings where
  naiveTolerance : NNRat
  neighbourhood : List (ℚ × ℚ)
  nonempty : neighbourhood ≠ []

/-- Shader settings for the examples: no tolerance for the naive technique, a 3x3
neighbourhood with a step of 1/1024. -/
def ShadowSettings.sample : ShadowSettings where
  naiveTolerance := 0
  neighbourhood :=
    [(-1 / 1024, -1 / 1024), (-1 / 1024, 0), (-1 / 1024, 1 / 1024),
     (0, -1 / 1024), (0, 0), (0, 1 / 1024),
     (1 / 1024, -1 / 1024), (1 / 1024, 0), (1 / 1024, 1 / 1024)]
  nonempty := List.cons_ne_nil _ _

/-! ## Loading of the textures -/

/-- What the libraries answer during one call of `LoadTexture`. -/
structure TextureAnswer where
  /-- `stbi_load` returned an image -/
  found : Bool
  /-- the name that `glGenTextures` wrote to `textureImage` -/
  textureImage : Nat

/-- `LoadTexture(path)`: a failed load is reported on the console and the function goes on;
the name of the texture, a `GLuint`, is returned as `GLint`. -/
def LoadTexture (s : State) (answer : TextureAnswer) : State × Int :=
  let s1 : State :=
    if answer.found = false then { s with console := s.console ++ ["Failed to load texture!"] }
    else s
  (s1, toGLint answer.textureImage)

/-- The three statements `textureID.push_back(LoadTexture(...))` of `main`. -/
def main_textures (s : State) (textureID : List Int) (grid soil bark : TextureAnswer) :
    State × List Int :=
  let r0 := LoadTexture s grid
  let textureID := textureID ++ [r0.2]
  let r1 := LoadTexture r0.1 soil
  let textureID := textureID ++ [r1.2]
  let r2 := LoadTexture r1.1 bark
  let textureID := textureID ++ [r2.2]
  (r2.1, textureID)

/-- The call is a `glBindTexture`. -/
def GLCall.isBindTexture {V M4 M3 : Type} : GLCall V M4 M3 → Bool
  | GLCall.bindTexture _ => true
  | _ => false

/-! ## The rendering loop -/

/-- What the outside world gives to one iteration of the rendering loop: the value of
`glfwGetTime()`, the events `glfwPollEvents()` delivers, the value of
`camera.GetViewMatrix()`. -/
structure FrameInput (M4 : Type) where
  time : Fp
  events : List InputEvent
  cameraView : M4

/-- The rendering loop `while(!glfwWindowShouldClose(window))` of `main`, for as many
iterations as there are inputs: the iterations made, oldest first. The close flag is the one
`key_callback` sets. -/
def renderLoop {V M4 M3 : Type} (L : FrameLibrary V M4 M3) (a : Assets M4) :
    State → Clock → Scene V M4 M3 → List (FrameInput M4) → Except Fault (List (Frame V M4 M3))
  | _, _, _, [] => Except.ok []
  | s, clock, sc, input :: rest =>
    if s.shouldClose then Except.ok []
    else
      match renderFrame L a s clock sc input.time input.events input.cameraView with
      | Except.error f => Except.error f
      | Except.ok frame =>
        match renderLoop L a frame.state frame.clock frame.scene rest with
        | Except.error f => Except.error f
        | Except.ok frames => Except.ok (frame :: frames)

/-- The calls of a sequence of iterations, oldest first. -/
def allCalls {V M4 M3 : Type} : List (Frame V M4 M3) → List (FrameCall V M4 M3)
  | [] => []
  | frame :: frames => frame.calls ++ allCalls frames

/-- The write `keys[key]` of a key event, if it makes one, is inside the array. -/
def InputEvent.inBounds : InputEvent → Prop
  | InputEvent.key e => e.inBounds
  | InputEvent.mouse _ _ => True

/-- The part of the OpenGL state that decides where and how a draw is rasterised: the
framebuffer bound to `GL_FRAMEBUFFER` and the polygon mode (`GL_LINE` when `line`, else
`GL_FILL`). -/
structure RasterState where
  framebuffer : Nat
  line : Bool
deriving DecidableEq

/-- The state of a new OpenGL context: the default framebuffer and `GL_FILL`. -/
def RasterState.initial : RasterState where
  framebuffer := 0
  line := false

/-- Effect of one call on the rasterisation state, as OpenGL specifies it. -/
def RasterState.step {V M4 M3 : Type} (g : RasterState) : FrameCall V M4 M3 → RasterState
  | FrameCall.bindFramebuffer framebuffer => { g with framebuffer := framebuffer }
  | FrameCall.polygonMode line => { g with line := line }
  | _ => g

/-- The rasterisation state after a sequence of calls. -/
def RasterState.run {V M4 M3 : Type} : RasterState → List (FrameCall V M4 M3) → RasterState
  | g, [] => g
  | g, call :: rest => RasterState.run (g.step call) rest

/-- The rasterisation state at each `Draw()` of a sequence of calls, with the model drawn. -/
def rasterAtDraws {V M4 M3 : Type} :
    RasterState → List (FrameCall V M4 M3) → List (Model × RasterState)
  | _, [] => []
  | g, FrameCall.gl (GLCall.draw model) :: rest => (model, g) :: rasterAtDraws g rest
  | g, call :: rest => rasterAtDraws (g.step call) rest

/-- The call is a `Draw()` of a model or a `glPolygonMode`. -/
def FrameCall.isDrawOrPolygonMode {V M4 M3 : Type} : FrameCall V M4 M3 → Bool
  | FrameCall.gl (GLCall.draw _) => true
  | FrameCall.polygonMode _ => true
  | _ => false

/-! ## Selection of the shader subroutine -/

theorem toGLuint_digit (key : Int) (hlo : 49 ≤ key) (hhi : key ≤ 57) :
    toGLuint (key - 48 - 1) = (key - 49).toNat := by
  unfold toGLuint
  congr 1
  omega

theorem toSizeT_toGLint (n : Nat) (h : n < 2147483648) : toSizeT (toGLint n) = n := by
  unfold toSizeT toGLint
  have h1 : n % 4294967296 = n := Nat.mod_eq_of_lt (by omega)
  rw [h1, if_pos h]
  omega

/-- The result of a press of a digit key that names an existing subroutine. -/
theorem key_callback_digit_valid (s : State) (key scancode mode : Int) (name : String)
    (hlo : 49 ≤ key) (hhi : key ≤ 57) (hname : s.shaders[(key - 49).toNat]? = some name) :
    key_callback s key scancode GLFW_PRESS mode = Except.ok
      { s with
        current_subroutine := (key - 49).toNat
        console := s.console ++ ["Current shader subroutine: " ++ name]
        keys := Function.update s.keys key.toNat true } := by
  have hi : (key - 49).toNat < s.shaders.length := by
    by_contra hge
    rw [List.getElem?_eq_none (Nat.le_of_not_lt hge)] at hname
    exact Option.noConfusion hname
  have hL : key ≠ 76 := by omega
  have hE : key ≠ 256 := by omega
  have hsmall : (key - 49).toNat < 2147483648 := by omega
  have hb : 0 ≤ key ∧ key < 1024 := by omega
  simp [key_callback, PrintCurrentShader, writeKey, GLFW_KEY_1, GLFW_KEY_9, GLFW_KEY_L,
    GLFW_KEY_ESCAPE, GLFW_PRESS, hlo, hhi, hL, hE, hb, hi, hname, toGLuint_digit,
    toSizeT_toGLint, hsmall]

/-- The result of a press of a digit key that names no subroutine. -/
theorem key_callback_digit_invalid (s : State) (key scancode mode : Int)
    (hlo : 49 ≤ key) (hhi : key ≤ 57) (hi : s.shaders.length ≤ (key - 49).toNat) :
    key_callback s key scancode GLFW_PRESS mode = Except.ok
      { s with keys := Function.update s.keys key.toNat true } := by
  have hL : key ≠ 76 := by omega
  have hE : key ≠ 256 := by omega
  have hb : 0 ≤ key ∧ key < 1024 := by omega
  have hi' : ¬ (key - 49 < (s.shaders.length : Int)) := by omega
  simp [key_callback, writeKey, GLFW_KEY_1, GLFW_KEY_9, GLFW_KEY_L,
    GLFW_KEY_ESCAPE, GLFW_PRESS, hlo, hhi, hL, hE, hb, hi', toGLuint_digit]

/-- C1: a press of a digit key whose index `i = key - '1'` is below `shaders.size()` returns
normally with `current_subroutine = i`, and the name the lit pass looks up afterwards,
`shaders[current_subroutine]`, is the name at position `i`. -/
theorem C1_digit_press_selects_variant (s : State) (key scancode mode : Int)
    (hlo : GLFW_KEY_1 ≤ key) (hhi : key ≤ GLFW_KEY_9)
    (hi : (key - GLFW_KEY_1).toNat < s.shaders.length) :
    ∃ s' name, key_callback s key scancode GLFW_PRESS mode = Except.ok s' ∧
      s'.current_subroutine = (key - GLFW_KEY_1).toNat ∧
      s'.shaders = s.shaders ∧
      s.shaders[(key - GLFW_KEY_1).toNat]? = some name ∧
      currentSubroutineName s' = Except.ok name := by
  simp only [GLFW_KEY_1, GLFW_KEY_9] at hlo hhi hi
  have hname : s.shaders[(key - 49).toNat]? = some (s.shaders[(key - 49).toNat]) :=
    List.getElem?_eq_getElem hi
  refine ⟨_, s.shaders[(key - 49).toNat],
    key_callback_digit_valid s key scancode mode _ hlo hhi hname, rfl, rfl, ?_, ?_⟩
  · exact hname
  · simp [currentSubroutineName, hi]

/-- Witness of C1: with two variants, pressing `2` selects index 1, the name `"Adaptive"`. -/
theorem C1_digit_press_selects_variant_witness :
    ∃ s' name,
      key_callback { State.initial with shaders := ["Naive", "Adaptive"] } 50 3 GLFW_PRESS 0
        = Except.ok s' ∧
      s'.current_subroutine = (50 - GLFW_KEY_1).toNat ∧
      s'.shaders = ["Naive", "Adaptive"] ∧
      ["Naive", "Adaptive"][(50 - GLFW_KEY_1).toNat]? = some name ∧
      currentSubroutineName s' = Except.ok name :=
  C1_digit_press_selects_variant { State.initial with shaders := ["Naive", "Adaptive"] } 50 3 0
    (by decide) (by decide) (by decide)

/-- C2: a press of a digit key whose index `key - '1'` is not below `shaders.size()` returns
normally, leaves `current_subroutine` and `shaders` (so the active variant name) as they
were, and prints nothing. -/
theorem C2_digit_press_out_of_range_ignored (s : State) (key scancode mode : Int)
    (hlo : GLFW_KEY_1 ≤ key) (hhi : key ≤ GLFW_KEY_9)
    (hi : s.shaders.length ≤ (key - GLFW_KEY_1).toNat) :
    ∃ s', key_callback s key scancode GLFW_PRESS mode = Except.ok s' ∧
      s'.current_subroutine = s.current_subroutine ∧
      s'.shaders = s.shaders ∧
      currentSubroutineName s' = currentSubroutineName s ∧
      s'.console = s.console :=
  ⟨_, key_callback_digit_invalid s key scancode mode hlo hhi hi, rfl, rfl, rfl, rfl⟩

/-- Witness of C2: with two variants, pressing `3` changes nothing. -/
theorem C2_digit_press_out_of_range_ignored_witness :
    ∃ s',
      key_callback { State.initial with shaders := ["Naive", "Adaptive"] } 51 3 GLFW_PRESS 0
        = Except.ok s' ∧
      s'.current_subroutine = 0 ∧
      s'.shaders = ["Naive", "Adaptive"] ∧
      currentSubroutineName s'
        = currentSubroutineName { State.initial with shaders := ["Naive", "Adaptive"] } ∧
      s'.console = [] :=
  C2_digit_press_out_of_range_ignored { State.initial with shaders := ["Naive", "Adaptive"] }
    51 3 0 (by decide) (by decide) (by decide)

/-! ## `key_callback`, statement by statement -/

/-- `key_callback` is its four statements in sequence. -/
theorem key_callback_eq_stages (s : State) (key scancode action mode : Int) :
    key_callback s key scancode action mode =
      match digitStage (wireframeStage (escapeStage s key action) key action) key action with
      | Except.error f => Except.error f
      | Except.ok s3 => keysStage s3 key action := rfl

theorem digitStage_ok (s s3 : State) (key action : Int)
    (h : digitStage s key action = Except.ok s3) :
    s3.shaders = s.shaders ∧ s3.wireframe = s.wireframe ∧ s3.shouldClose = s.shouldClose ∧
    s3.keys = s.keys ∧
    s3.current_subroutine =
      (if (GLFW_KEY_1 ≤ key ∧ key ≤ GLFW_KEY_9) ∧ action = GLFW_PRESS ∧
          toGLuint (key - 48 - 1) < s.shaders.length
        then toGLuint (key - 48 - 1) else s.current_subroutine) := by
  unfold digitStage at h
  by_cases hd : (GLFW_KEY_1 ≤ key ∧ key ≤ GLFW_KEY_9) ∧ action = GLFW_PRESS
  · by_cases hv : toGLuint (key - 48 - 1) < s.shaders.length
    · rw [if_pos hd, if_pos hv] at h
      unfold PrintCurrentShader at h
      split at h
      · injection h with h
        subst h
        simp [hd.1, hd.2, hv]
      · exact Except.noConfusion h
    · rw [if_pos hd, if_neg hv] at h
      injection h with h
      subst h
      simp [hv]
  · rw [if_neg hd] at h
    injection h with h
    subst h
    have hd' : ¬ ((GLFW_KEY_1 ≤ key ∧ key ≤ GLFW_KEY_9) ∧ action = GLFW_PRESS ∧
        toGLuint (key - 48 - 1) < s.shaders.length) := fun hc => hd ⟨hc.1, hc.2.1⟩
    rw [if_neg hd']
    exact ⟨rfl, rfl, rfl, rfl, rfl⟩

theorem keysStage_ok (s s' : State) (key action : Int)
    (h : keysStage s key action = Except.ok s') :
    s'.shaders = s.shaders ∧ s'.wireframe = s.wireframe ∧ s'.shouldClose = s.shouldClose ∧
    s'.current_subroutine = s.current_subroutine ∧ s'.console = s.console := by
  unfold keysStage writeKey at h
  split at h
  · split at h
    · injection h with h
      subst h
      exact ⟨rfl, rfl, rfl, rfl, rfl⟩
    · exact Except.noConfusion h
  · split at h
    · split at h
      · injection h with h
        subst h
        exact ⟨rfl, rfl, rfl, rfl, rfl⟩
      · exact Except.noConfusion h
    · injection h with h
      subst h
      exact ⟨rfl, rfl, rfl, rfl, rfl⟩

/-- What a call of `key_callback` that returns has done to the selection, the wireframe flag
and the close request. -/
theorem key_callback_ok (s s' : State) (key scancode action mode : Int)
    (h : key_callback s key scancode action mode = Except.ok s') :
    s'.shaders = s.shaders ∧
    s'.wireframe = (if key = GLFW_KEY_L ∧ action = GLFW_PRESS then !s.wireframe else s.wireframe) ∧
    s'.shouldClose =
      (if key = GLFW_KEY_ESCAPE ∧ action = GLFW_PRESS then true else s.shouldClose) ∧
    s'.current_subroutine =
      (if (GLFW_KEY_1 ≤ key ∧ key ≤ GLFW_KEY_9) ∧ action = GLFW_PRESS ∧
          toGLuint (key - 48 - 1) < s.shaders.length
        then toGLuint (key - 48 - 1) else s.current_subroutine) := by
  rw [key_callback_eq_stages] at h
  split at h
  · exact Except.noConfusion h
  · rename_i s3 h3
    obtain ⟨a1, a2, a3, _, a5⟩ := digitStage_ok _ s3 key action h3
    obtain ⟨b1, b2, b3, b4, _⟩ := keysStage_ok s3 s' key action h
    have e1 : (wireframeStage (escapeStage s key action) key action).shaders = s.shaders := by
      unfold wireframeStage escapeStage
      split <;> split <;> rfl
    have e2 : (wireframeStage (escapeStage s key action) key action).wireframe
        = (if key = GLFW_KEY_L ∧ action = GLFW_PRESS then !s.wireframe else s.wireframe) := by
      unfold wireframeStage escapeStage
      split <;> split <;> rfl
    have e3 : (wireframeStage (escapeStage s key action) key action).shouldClose
        = (if key = GLFW_KEY_ESCAPE ∧ action = GLFW_PRESS then true else s.shouldClose) := by
      unfold wireframeStage escapeStage
      split <;> split <;> rfl
    have e4 : (wireframeStage (escapeStage s key action) key action).current_subroutine
        = s.current_subroutine := by
      unfold wireframeStage escapeStage
      split <;> split <;> rfl
    rw [e1, e4] at a5
    exact ⟨b1.trans (a1.trans e1), b2.trans (a2.trans e2), b3.trans (a3.trans e3), b4.trans a5⟩

/-- A call of `key_callback` whose write to `keys` is inside the array returns. -/
theorem key_callback_total (s : State) (key scancode action mode : Int)
    (hb : (action = GLFW_PRESS ∨ action = GLFW_RELEASE) → 0 ≤ key ∧ key < 1024) :
    ∃ s', key_callback s key scancode action mode = Except.ok s' := by
  rw [key_callback_eq_stages]
  have hd : ∃ s3, digitStage (wireframeStage (escapeStage s key action) key action) key action
      = Except.ok s3 := by
    generalize wireframeStage (escapeStage s key action) key action = s2
    unfold digitStage
    by_cases hd : (GLFW_KEY_1 ≤ key ∧ key ≤ GLFW_KEY_9) ∧ action = GLFW_PRESS
    · by_cases hv : toGLuint (key - 48 - 1) < s2.shaders.length
      · rw [if_pos hd, if_pos hv]
        have h49 : 49 ≤ key := hd.1.1
        have h57 : key ≤ 57 := hd.1.2
        have hg : toGLuint (key - 48 - 1) = (key - 49).toNat := toGLuint_digit key h49 h57
        have hsmall : (key - 49).toNat < 2147483648 := by omega
        rw [hg] at hv
        simp [PrintCurrentShader, hg, toSizeT_toGLint, hsmall, hv]
      · rw [if_pos hd, if_neg hv]
        exact ⟨_, rfl⟩
    · rw [if_neg hd]
      exact ⟨_, rfl⟩
  obtain ⟨s3, h3⟩ := hd
  rw [h3]
  simp only
  unfold keysStage writeKey
  by_cases hp : action = GLFW_PRESS
  · rw [if_pos hp, if_pos (hb (Or.inl hp))]
    exact ⟨_, rfl⟩
  · rw [if_neg hp]
    by_cases hr : action = GLFW_RELEASE
    · rw [if_pos hr, if_pos (hb (Or.inr hr))]
      exact ⟨_, rfl⟩
    · rw [if_neg hr]
      exact ⟨_, rfl⟩

/-! ## The index stays valid -/

/-- One call of `key_callback` that returns keeps `shaders` and keeps the index valid. -/
theorem key_callback_preserves_valid (s s' : State) (key scancode action mode : Int)
    (h : key_callback s key scancode action mode = Except.ok s')
    (hv : s.current_subroutine < s.shaders.length) :
    s'.shaders = s.shaders ∧ s'.current_subroutine < s'.shaders.length := by
  obtain ⟨h1, _, _, h4⟩ := key_callback_ok s s' key scancode action mode h
  refine ⟨h1, ?_⟩
  rw [h4, h1]
  split
  · rename_i hc
    exact hc.2.2
  · exact hv

/-- Every run of key events that returns keeps `shaders` and keeps the index valid. -/
theorem runKeys_preserves_valid (events : List KeyEvent) (s s' : State)
    (h : runKeys s events = Except.ok s')
    (hv : s.current_subroutine < s.shaders.length) :
    s'.shaders = s.shaders ∧ s'.current_subroutine < s'.shaders.length := by
  induction events generalizing s with
  | nil =>
    simp only [runKeys] at h
    injection h with h
    subst h
    exact ⟨rfl, hv⟩
  | cons e es ih =>
    simp only [runKeys] at h
    split at h
    · rename_i s1 h1
      have k1 := key_callback_preserves_valid s s1 e.key e.scancode e.action e.mode h1 hv
      have k2 := ih s1 h k1.2
      exact ⟨k2.1.trans k1.1, k2.2⟩
    · exact Except.noConfusion h

/-- Every run of key events whose writes to `keys` are inside the array returns. -/
theorem runKeys_total (events : List KeyEvent) (s : State)
    (hb : ∀ e ∈ events, e.inBounds) : ∃ s', runKeys s events = Except.ok s' := by
  induction events generalizing s with
  | nil => exact ⟨s, rfl⟩
  | cons e es ih =>
    obtain ⟨s1, h1⟩ := key_callback_total s e.key e.scancode e.action e.mode
      (hb e (List.mem_cons_self e es))
    obtain ⟨s', h'⟩ := ih s1 (fun x hx => hb x (List.mem_cons_of_mem e hx))
    refine ⟨s', ?_⟩
    simp only [runKeys, h1]
    exact h'

/-- C3: from a state with `current_subroutine = 0` and a non-empty `shaders`, every state
reached by a sequence of `key_callback` events has `current_subroutine < shaders.size()`, so
the lookup `shaders[current_subroutine]` of the lit pass is in bounds; and such a sequence
does reach a state whenever its writes to `keys` stay inside the array. -/
theorem C3_current_subroutine_stays_in_bounds (s0 : State)
    (h0 : s0.current_subroutine = 0) (hne : s0.shaders ≠ []) (events : List KeyEvent) :
    ((∀ e ∈ events, e.inBounds) → ∃ s', runKeys s0 events = Except.ok s') ∧
    ∀ s', runKeys s0 events = Except.ok s' →
      s'.shaders = s0.shaders ∧ s'.current_subroutine < s'.shaders.length ∧
      ∃ name, currentSubroutineName s' = Except.ok name := by
  refine ⟨runKeys_total events s0, ?_⟩
  intro s' hrun
  have hv0 : s0.current_subroutine < s0.shaders.length := by
    rw [h0]
    exact List.length_pos.mpr hne
  obtain ⟨h1, h2⟩ := runKeys_preserves_valid events s0 s' hrun hv0
  refine ⟨h1, h2, s'.shaders[s'.current_subroutine], ?_⟩
  simp [currentSubroutineName, h2]

/-- Witness of C3: three variants, and the presses `3`, `9`, then the release of `3`. -/
theorem C3_current_subroutine_stays_in_bounds_witness :
    ((∀ e ∈ [KeyEvent.mk 51 0 1 0, KeyEvent.mk 57 0 1 0, KeyEvent.mk 51 0 0 0], e.inBounds) →
      ∃ s', runKeys State.threeVariants
        [KeyEvent.mk 51 0 1 0, KeyEvent.mk 57 0 1 0, KeyEvent.mk 51 0 0 0] = Except.ok s') ∧
    ∀ s', runKeys State.threeVariants
        [KeyEvent.mk 51 0 1 0, KeyEvent.mk 57 0 1 0, KeyEvent.mk 51 0 0 0] = Except.ok s' →
      s'.shaders = State.threeVariants.shaders ∧ s'.current_subroutine < s'.shaders.length ∧
      ∃ name, currentSubroutineName s' = Except.ok name :=
  C3_current_subroutine_stays_in_bounds State.threeVariants rfl (by decide)
    [KeyEvent.mk 51 0 1 0, KeyEvent.mk 57 0 1 0, KeyEvent.mk 51 0 0 0]

/-! ## Wireframe toggle -/

/-- The wireframe flag after a run of key events that returns: the flag before, negated once
for every press of `L`. -/
theorem runKeys_wireframe (events : List KeyEvent) (s s' : State)
    (h : runKeys s events = Except.ok s') :
    s'.wireframe = xor s.wireframe (decide (wireframePresses events % 2 = 1)) := by
  induction events generalizing s with
  | nil =>
    simp only [runKeys] at h
    injection h with h
    subst h
    simp [wireframePresses]
  | cons e es ih =>
    simp only [runKeys] at h
    split at h
    · rename_i s1 h1
      have k := (key_callback_ok s s1 e.key e.scancode e.action e.mode h1).2.1
      have k2 := ih s1 h
      rw [k2, k]
      unfold wireframePresses at *
      rw [List.countP_cons]
      rcases Nat.mod_two_eq_zero_or_one (List.countP KeyEvent.isWireframePress es) with hm | hm
      · by_cases hp : e.key = GLFW_KEY_L ∧ e.action = GLFW_PRESS
        · have hq : (List.countP KeyEvent.isWireframePress es + 1) % 2 = 1 := by omega
          simp [KeyEvent.isWireframePress, hp.1, hp.2, hm, hq]
        · have hq : KeyEvent.isWireframePress e = false := by
            simp only [KeyEvent.isWireframePress, Bool.and_eq_false_iff, decide_eq_false_iff_not]
            tauto
          simp [hp, hq, hm]
      · by_cases hp : e.key = GLFW_KEY_L ∧ e.action = GLFW_PRESS
        · have hq : (List.countP KeyEvent.isWireframePress es + 1) % 2 = 0 := by omega
          simp [KeyEvent.isWireframePress, hp.1, hp.2, hm, hq]
        · have hq : KeyEvent.isWireframePress e = false := by
            simp only [KeyEvent.isWireframePress, Bool.and_eq_false_iff, decide_eq_false_iff_not]
            tauto
          simp [hp, hq, hm]
    · exact Except.noConfusion h

/-- C7: a press of `L` returns with the wireframe flag negated. For every sequence of key
events that returns, the flag at the end is the flag at the start negated once per press of
`L`: it is restored when the sequence holds exactly two presses of `L` (whatever lies between
them), and from `GL_FALSE` it is true exactly when the number of presses is odd. Such a
sequence returns whenever its writes to `keys` stay inside the array. -/
theorem C7_wireframe_toggles_on_press (s : State) (events : List KeyEvent) :
    (∀ scancode mode, ∃ s1, key_callback s GLFW_KEY_L scancode GLFW_PRESS mode = Except.ok s1 ∧
      s1.wireframe = !s.wireframe) ∧
    ((∀ e ∈ events, e.inBounds) → ∃ s', runKeys s events = Except.ok s') ∧
    ∀ s', runKeys s events = Except.ok s' →
      s'.wireframe = xor s.wireframe (decide (wireframePresses events % 2 = 1)) ∧
      (wireframePresses events = 2 → s'.wireframe = s.wireframe) ∧
      (s.wireframe = false → (s'.wireframe = true ↔ Odd (wireframePresses events))) := by
  refine ⟨?_, runKeys_total events s, ?_⟩
  · intro scancode mode
    obtain ⟨s1, h1⟩ := key_callback_total s GLFW_KEY_L scancode GLFW_PRESS mode
      (fun _ => by decide)
    refine ⟨s1, h1, ?_⟩
    have k := (key_callback_ok s s1 GLFW_KEY_L scancode GLFW_PRESS mode h1).2.1
    simpa using k
  · intro s' hrun
    have k := runKeys_wireframe events s s' hrun
    refine ⟨k, ?_, ?_⟩
    · intro h2
      rw [k, h2]
      simp
    · intro hf
      rw [k, hf, Nat.odd_iff]
      simp

/-! ## Press edges -/

/-- C8: a call of `key_callback` returns whenever its write to `keys` is inside the array.
When it returns and the action is not `GLFW_PRESS`, `current_subroutine`, `wireframe` and the
close request of the window are as before; the close request changes only for the key `ESC`
with action `GLFW_PRESS`, which sets it. -/
theorem C8_reacts_to_press_edges_only (s : State) (key scancode action mode : Int) :
    (((action = GLFW_PRESS ∨ action = GLFW_RELEASE) → 0 ≤ key ∧ key < 1024) →
      ∃ s', key_callback s key scancode action mode = Except.ok s') ∧
    ∀ s', key_callback s key scancode action mode = Except.ok s' →
      (action ≠ GLFW_PRESS →
        s'.current_subroutine = s.current_subroutine ∧ s'.wireframe = s.wireframe ∧
        s'.shouldClose = s.shouldClose) ∧
      (s'.shouldClose ≠ s.shouldClose → key = GLFW_KEY_ESCAPE ∧ action = GLFW_PRESS) ∧
      (key = GLFW_KEY_ESCAPE ∧ action = GLFW_PRESS → s'.shouldClose = true) := by
  refine ⟨key_callback_total s key scancode action mode, ?_⟩
  intro s' h
  obtain ⟨_, k2, k3, k4⟩ := key_callback_ok s s' key scancode action mode h
  refine ⟨?_, ?_, ?_⟩
  · intro hnp
    have c2 : ¬ (key = GLFW_KEY_L ∧ action = GLFW_PRESS) := fun hc => hnp hc.2
    have c3 : ¬ (key = GLFW_KEY_ESCAPE ∧ action = GLFW_PRESS) := fun hc => hnp hc.2
    have c4 : ¬ ((GLFW_KEY_1 ≤ key ∧ key ≤ GLFW_KEY_9) ∧ action = GLFW_PRESS ∧
        toGLuint (key - 48 - 1) < s.shaders.length) := fun hc => hnp hc.2.1
    rw [if_neg c2] at k2
    rw [if_neg c3] at k3
    rw [if_neg c4] at k4
    exact ⟨k4, k2, k3⟩
  · intro hne
    by_contra hc
    rw [if_neg hc] at k3
    exact hne k3
  · intro hc
    rw [if_pos hc] at k3
    exact k3

/-! ## Mouse offsets -/

theorem roundDouble_zero : roundDouble 0 = Fp.fin 0 := by decide!

theorem roundFloat_zero : roundFloat 0 = Fp.fin 0 := by decide!

/-- A finite value minus itself is zero, also after the conversion to `GLfloat`. -/
theorem toFloat_dsub_self (n : Int) : toFloat (dsub (Fp.fin n) (Fp.fin n)) = Fp.zero := by
  simp only [dsub, sub_self, roundDouble_zero, toFloat, roundFloat_zero, Fp.zero]

/-- The first mouse event at a finite position that `GLfloat` holds exactly passes the
offsets `(0, 0)` to the camera. -/
theorem mouse_callback_first_exact (s : State) (x y : Int) (hfirst : s.firstMouse = true)
    (hx : toFloat (Fp.fin x) = Fp.fin x) (hy : toFloat (Fp.fin y) = Fp.fin y) :
    (mouse_callback s (Fp.fin x) (Fp.fin y)).mouseMoves = s.mouseMoves ++ [(Fp.zero, Fp.zero)] := by
  simp only [mouse_callback, hfirst, if_true, hx, hy, toFloat_dsub_self]

/-- A mouse event after the first: the offsets are taken against `lastX`, `lastY`. -/
theorem mouse_callback_later (s : State) (x y : Fp) (h : s.firstMouse = false) :
    (mouse_callback s x y).mouseMoves
      = s.mouseMoves ++ [(toFloat (dsub x s.lastX), toFloat (dsub s.lastY y))] := by
  simp [mouse_callback, h]

/-- After every mouse event `firstMouse` is false and `lastX`, `lastY` hold the position of
the event, converted to `GLfloat`. -/
theorem mouse_callback_after (s : State) (x y : Fp) :
    (mouse_callback s x y).firstMouse = false ∧
    (mouse_callback s x y).lastX = toFloat x ∧ (mouse_callback s x y).lastY = toFloat y := by
  unfold mouse_callback
  by_cases h : s.firstMouse = true
  · simp [h]
  · simp [h]

/-- The offsets of a run of mouse events whose positions `GLfloat` holds exactly. -/
theorem runMouse_exact (ps : List (Fp × Fp)) (s : State) (p : Fp × Fp)
    (hrep : ∀ q ∈ p :: ps, toFloat q.1 = q.1 ∧ toFloat q.2 = q.2) :
    (runMouse s (p :: ps)).mouseMoves
      = (mouse_callback s p.1 p.2).mouseMoves ++ List.zipWith offsetBetween (p :: ps) ps ∧
    (runMouse s (p :: ps)).firstMouse = false ∧
    (runMouse s (p :: ps)).lastX = ((p :: ps).getLast (List.cons_ne_nil p ps)).1 ∧
    (runMouse s (p :: ps)).lastY = ((p :: ps).getLast (List.cons_ne_nil p ps)).2 := by
  induction ps generalizing s p with
  | nil =>
    obtain ⟨a1, a2, a3⟩ := mouse_callback_after s p.1 p.2
    have hp := hrep p (List.mem_cons_self p [])
    simp only [runMouse, List.zipWith_nil_right, List.append_nil, List.getLast_singleton]
    exact ⟨trivial, a1, a2.trans hp.1, a3.trans hp.2⟩
  | cons q qs ih =>
    obtain ⟨a1, a2, a3⟩ := mouse_callback_after s p.1 p.2
    have hp := hrep p (List.mem_cons_self p (q :: qs))
    obtain ⟨b1, b2, b3, b4⟩ := ih (mouse_callback s p.1 p.2) q
      (fun x hx => hrep x (List.mem_cons_of_mem p hx))
    have hstep : runMouse s (p :: q :: qs) = runMouse (mouse_callback s p.1 p.2) (q :: qs) := rfl
    rw [hstep]
    refine ⟨?_, b2, ?_, ?_⟩
    · rw [b1, mouse_callback_later _ q.1 q.2 a1, a2, a3, hp.1, hp.2]
      simp [offsetBetween]
    · rw [b3, List.getLast_cons (List.cons_ne_nil q qs)]
    · rw [b4, List.getLast_cons (List.cons_ne_nil q qs)]

/-- C5: at start-up (`firstMouse = true`) the first mouse event at the position
`(400 + 2^(-20), 300)`, a pair of `double` values, makes `mouse_callback` pass the offsets
`(2^(-20), 0)` to the camera, not `(0, 0)`: `lastX` keeps the position as a `GLfloat`, 400,
and the offset is taken against it. -/
theorem C5_first_mouse_offset_at_fractional_position :
    State.initial.firstMouse = true ∧
    dsub (Fp.ofScaled 419430401 20) Fp.zero = Fp.ofScaled 419430401 20 ∧
    toFloat (Fp.ofScaled 419430401 20) = Fp.ofScaled 400 0 ∧
    (mouse_callback State.initial (Fp.ofScaled 419430401 20) (Fp.ofScaled 300 0)).mouseMoves
      = [(Fp.ofScaled 1 20, Fp.zero)] ∧
    (Fp.ofScaled 1 20, Fp.zero) ≠ (Fp.zero, Fp.zero) := by
  decide!

/-- C6, as stated, fails: after a first event at `(2^(-20), 0)` the event at `(400, 0)`, both
positions held exactly by a `GLfloat`, passes the offset `400` to the camera, while the
difference of the two positions is `400 - 2^(-20)`. -/
theorem C6_offset_is_not_the_difference :
    toFloat (Fp.ofScaled 1 20) = Fp.ofScaled 1 20 ∧
    toFloat (Fp.ofScaled 400 0) = Fp.ofScaled 400 0 ∧
    dsub (Fp.ofScaled 400 0) (Fp.ofScaled 1 20) = Fp.ofScaled 419430399 20 ∧
    (runMouse State.initial
        [(Fp.ofScaled 1 20, Fp.zero), (Fp.ofScaled 400 0, Fp.zero)]).mouseMoves
      = [(Fp.zero, Fp.zero), (Fp.ofScaled 400 0, Fp.zero)] ∧
    (runMouse State.initial
        [(Fp.ofScaled 1 20, Fp.zero), (Fp.ofScaled 400 0, Fp.zero)]).mouseMoves
      ≠ [(Fp.zero, Fp.zero),
         (dsub (Fp.ofScaled 400 0) (Fp.ofScaled 1 20), dsub Fp.zero Fp.zero)] := by
  decide!

/-- C6, amended: for every sequence of mouse events whose positions a `GLfloat` holds
exactly, on each event after the first the offsets passed to the camera are the differences
`xpos - (xpos of the previous event)` and `(ypos of the previous event) - ypos`, evaluated in
`double` and converted to `GLfloat`; after the sequence `firstMouse` is false and
`lastX`, `lastY` hold the position of the last event. -/
theorem C6_offsets_between_consecutive_events (s : State) (p : Fp × Fp) (ps : List (Fp × Fp))
    (hrep : ∀ q ∈ p :: ps, toFloat q.1 = q.1 ∧ toFloat q.2 = q.2) :
    (runMouse s (p :: ps)).mouseMoves
      = (mouse_callback s p.1 p.2).mouseMoves ++ List.zipWith offsetBetween (p :: ps) ps ∧
    (runMouse s (p :: ps)).firstMouse = false ∧
    (runMouse s (p :: ps)).lastX = ((p :: ps).getLast (List.cons_ne_nil p ps)).1 ∧
    (runMouse s (p :: ps)).lastY = ((p :: ps).getLast (List.cons_ne_nil p ps)).2 :=
  runMouse_exact ps s p hrep

/-- Witness of C6: the events `(400, 300)`, `(403, 298)`, `(403.5, 298)` from start-up. -/
theorem C6_offsets_between_consecutive_events_witness :
    (runMouse State.initial
        [(Fp.ofScaled 400 0, Fp.ofScaled 300 0), (Fp.ofScaled 403 0, Fp.ofScaled 298 0),
         (Fp.ofScaled 807 1, Fp.ofScaled 298 0)]).mouseMoves
      = (mouse_callback State.initial (Fp.ofScaled 400 0) (Fp.ofScaled 300 0)).mouseMoves ++
        List.zipWith offsetBetween
          [(Fp.ofScaled 400 0, Fp.ofScaled 300 0), (Fp.ofScaled 403 0, Fp.ofScaled 298 0),
           (Fp.ofScaled 807 1, Fp.ofScaled 298 0)]
          [(Fp.ofScaled 403 0, Fp.ofScaled 298 0), (Fp.ofScaled 807 1, Fp.ofScaled 298 0)] ∧
    (runMouse State.initial
        [(Fp.ofScaled 400 0, Fp.ofScaled 300 0), (Fp.ofScaled 403 0, Fp.ofScaled 298 0),
         (Fp.ofScaled 807 1, Fp.ofScaled 298 0)]).firstMouse = false ∧
    (runMouse State.initial
        [(Fp.ofScaled 400 0, Fp.ofScaled 300 0), (Fp.ofScaled 403 0, Fp.ofScaled 298 0),
         (Fp.ofScaled 807 1, Fp.ofScaled 298 0)]).lastX = Fp.ofScaled 807 1 ∧
    (runMouse State.initial
        [(Fp.ofScaled 400 0, Fp.ofScaled 300 0), (Fp.ofScaled 403 0, Fp.ofScaled 298 0),
         (Fp.ofScaled 807 1, Fp.ofScaled 298 0)]).lastY = Fp.ofScaled 298 0 :=
  C6_offsets_between_consecutive_events State.initial (Fp.ofScaled 400 0, Fp.ofScaled 300 0)
    [(Fp.ofScaled 403 0, Fp.ofScaled 298 0), (Fp.ofScaled 807 1, Fp.ofScaled 298 0)]
    (by decide!)

/-! ## Start-up with no subroutine -/

/-- C4: when OpenGL reports no subroutine (no subroutine uniform, or one without compatible
subroutines), `main` does not stop with an exit code: `PrintCurrentShader(0)` reads
`shaders[0]` of the empty vector. The exit with code `-1` is taken only when the window or the
OpenGL loader fails. -/
theorem C4_start_up_without_variant_indexes_shaders :
    main_startup (Startup.mk true true 256 1024 []) = Except.error Fault.outOfRange ∧
    main_startup (Startup.mk true true 256 1024 [SubroutineUniform.mk "shadow_model" []])
      = Except.error Fault.outOfRange ∧
    main_startup (Startup.mk false true 256 1024 []) = Except.error (Fault.exit (-1)) ∧
    main_startup (Startup.mk true false 256 1024 []) = Except.error (Fault.exit (-1)) :=
  ⟨rfl, rfl, rfl, rfl⟩

/-! ## Draw order and texture units -/

/-- C9: with the three textures of `main` in `textureID`, one call of `RenderObjects`, for
any value of `render_pass`, returns having made exactly four draw calls, in the order plane,
lamp, bench, tree; among the draws and the uploads of 4x4 matrices, each draw comes right
after the upload, to `modelMatrix`, of the model matrix built for that object. -/
theorem C9_four_draws_in_fixed_order {V M4 M3 : Type} (L : Library V M4 M3)
    (sc : Scene V M4 M3) (shader : Shader) (planeModel benchModel lampModel treeModel : Model)
    (render_pass : Int) (depthMap : Nat) (t0 t1 t2 : Int) :
    ∃ res, RenderObjects L { sc with textureID := [t0, t1, t2] } shader planeModel benchModel
        lampModel treeModel render_pass depthMap = Except.ok res ∧
      res.2.filter GLCall.isDraw =
        [GLCall.draw planeModel, GLCall.draw lampModel, GLCall.draw benchModel,
         GLCall.draw treeModel] ∧
      res.2.filter GLCall.isDrawOrMatrix4 =
        [GLCall.uniformMatrix4fv (L.glGetUniformLocation shader.Program "modelMatrix")
           res.1.planeModelMatrix,
         GLCall.draw planeModel,
         GLCall.uniformMatrix4fv (L.glGetUniformLocation shader.Program "modelMatrix")
           res.1.lampModelMatrix,
         GLCall.draw lampModel,
         GLCall.uniformMatrix4fv (L.glGetUniformLocation shader.Program "modelMatrix")
           res.1.benchModelMatrix,
         GLCall.draw benchModel,
         GLCall.uniformMatrix4fv (L.glGetUniformLocation shader.Program "modelMatrix")
           res.1.treeModelMatrix,
         GLCall.draw treeModel] ∧
      res.1.planeModelMatrix =
        L.scale (L.translate L.mat4 (L.lit 0, L.lit (-1), L.lit 0))
          (L.lit 10, L.lit 1, L.lit 10) ∧
      res.1.lampModelMatrix =
        L.scale (L.rotate (L.translate L.mat4 (L.lit (-3), L.lit (-1), L.lit 3))
            (L.radians sc.orientationY) (L.lit 0, L.lit 1, L.lit 0))
          (L.lit (1/4), L.lit (1/4), L.lit (1/4)) ∧
      res.1.benchModelMatrix =
        L.scale (L.rotate (L.translate L.mat4 (L.lit 0, L.lit (-1), L.lit 0))
            (L.radians sc.orientationY) (L.lit 0, L.lit 1, L.lit 0))
          (L.lit (1/100), L.lit (1/100), L.lit (1/100)) ∧
      res.1.treeModelMatrix =
        L.scale (L.rotate (L.translate L.mat4 (L.lit 5, L.lit (-1), L.lit 5))
            (L.radians sc.orientationY) (L.lit 0, L.lit 1, L.lit 0))
          (L.lit (3/2), L.lit (3/2), L.lit (3/2)) := by
  refine ⟨_, rfl, ?_, ?_, rfl, rfl, rfl, rfl⟩
  · by_cases hr : render_pass = RENDER
    · simp [hr, GLCall.isDraw]
    · simp [hr, GLCall.isDraw]
  · by_cases hr : render_pass = RENDER
    · simp [hr, GLCall.isDrawOrMatrix4]
    · simp [hr, GLCall.isDrawOrMatrix4]

/-- C10: in the lit pass (`render_pass = RENDER`), with the three textures of `main`, the
texturing calls of `RenderObjects` are: shadow map on unit 2 and `shadowMap = 2`, then for
plane, lamp, bench, tree the diffuse texture on unit 1, 0, 0, 3 and `tex` set to that same
unit. For a program that has the uniforms `tex` and `shadowMap`, at each of the four draws
unit 2 still holds the shadow map, `shadowMap` is 2, `tex` is the unit holding the texture of
the object drawn, and that unit is not 2. -/
theorem C10_diffuse_units_leave_shadow_map_bound {V M4 M3 : Type} (L : Library V M4 M3)
    (sc : Scene V M4 M3) (shader : Shader) (planeModel benchModel lampModel treeModel : Model)
    (depthMap : Nat) (t0 t1 t2 : Int) (g : GLState)
    (hshadow : L.glGetUniformLocation shader.Program "shadowMap" ≠ -1)
    (htex : L.glGetUniformLocation shader.Program "tex" ≠ -1)
    (hdistinct : L.glGetUniformLocation shader.Program "tex"
      ≠ L.glGetUniformLocation shader.Program "shadowMap") :
    ∃ res g1 g2 g3 g4,
      RenderObjects L { sc with textureID := [t0, t1, t2] } shader planeModel benchModel
        lampModel treeModel RENDER depthMap = Except.ok res ∧
      res.2.filter GLCall.isTexturing =
        [GLCall.activeTexture 2, GLCall.bindTexture depthMap,
         GLCall.uniform1i (L.glGetUniformLocation shader.Program "shadowMap") 2,
         GLCall.activeTexture 1, GLCall.bindTexture (toGLuint t1),
         GLCall.uniform1i (L.glGetUniformLocation shader.Program "tex") 1,
         GLCall.activeTexture 0, GLCall.bindTexture (toGLuint t0),
         GLCall.uniform1i (L.glGetUniformLocation shader.Program "tex") 0,
         GLCall.activeTexture 0, GLCall.bindTexture (toGLuint t0),
         GLCall.uniform1i (L.glGetUniformLocation shader.Program "tex") 0,
         GLCall.activeTexture 3, GLCall.bindTexture (toGLuint t2),
         GLCall.uniform1i (L.glGetUniformLocation shader.Program "tex") 3] ∧
      statesAtDraws g res.2 =
        [(planeModel, g1), (lampModel, g2), (benchModel, g3), (treeModel, g4)] ∧
      g1.textured (L.glGetUniformLocation shader.Program "shadowMap")
        (L.glGetUniformLocation shader.Program "tex") depthMap 1 (toGLuint t1) ∧
      g2.textured (L.glGetUniformLocation shader.Program "shadowMap")
        (L.glGetUniformLocation shader.Program "tex") depthMap 0 (toGLuint t0) ∧
      g3.textured (L.glGetUniformLocation shader.Program "shadowMap")
        (L.glGetUniformLocation shader.Program "tex") depthMap 0 (toGLuint t0) ∧
      g4.textured (L.glGetUniformLocation shader.Program "shadowMap")
        (L.glGetUniformLocation shader.Program "tex") depthMap 3 (toGLuint t2) := by
  have hd2 : L.glGetUniformLocation shader.Program "shadowMap"
      ≠ L.glGetUniformLocation shader.Program "tex" := fun h => hdistinct h.symm
  refine ⟨_, _, _, _, _, rfl, ?_, rfl, ?_, ?_, ?_, ?_⟩
  · simp [RENDER, GLCall.isTexturing]
  · simp [GLState.textured, GLState.step, Function.update, hshadow, htex, hdistinct, hd2]
  · simp [GLState.textured, GLState.step, Function.update, hshadow, htex, hdistinct, hd2]
  · simp [GLState.textured, GLState.step, Function.update, hshadow, htex, hdistinct, hd2]
  · simp [GLState.textured, GLState.step, Function.update, hshadow, htex, hdistinct, hd2]

/-- Witness of C10: a program with `tex` at location 4 and `shadowMap` at location 5, the
textures 11, 12, 13 and the shadow map 7. -/
theorem C10_diffuse_units_leave_shadow_map_bound_witness :
    ∃ res g1 g2 g3 g4,
      RenderObjects Library.blank { Scene.blank with textureID := [11, 12, 13] } (Shader.mk 1)
        20 21 22 23 RENDER 7 = Except.ok res ∧
      res.2.filter GLCall.isTexturing =
        [GLCall.activeTexture 2, GLCall.bindTexture 7,
         GLCall.uniform1i (Library.blank.glGetUniformLocation 1 "shadowMap") 2,
         GLCall.activeTexture 1, GLCall.bindTexture (toGLuint 12),
         GLCall.uniform1i (Library.blank.glGetUniformLocation 1 "tex") 1,
         GLCall.activeTexture 0, GLCall.bindTexture (toGLuint 11),
         GLCall.uniform1i (Library.blank.glGetUniformLocation 1 "tex") 0,
         GLCall.activeTexture 0, GLCall.bindTexture (toGLuint 11),
         GLCall.uniform1i (Library.blank.glGetUniformLocation 1 "tex") 0,
         GLCall.activeTexture 3, GLCall.bindTexture (toGLuint 13),
         GLCall.uniform1i (Library.blank.glGetUniformLocation 1 "tex") 3] ∧
      statesAtDraws GLState.blank res.2 = [(20, g1), (22, g2), (21, g3), (23, g4)] ∧
      g1.textured (Library.blank.glGetUniformLocation 1 "shadowMap")
        (Library.blank.glGetUniformLocation 1 "tex") 7 1 (toGLuint 12) ∧
      g2.textured (Library.blank.glGetUniformLocation 1 "shadowMap")
        (Library.blank.glGetUniformLocation 1 "tex") 7 0 (toGLuint 11) ∧
      g3.textured (Library.blank.glGetUniformLocation 1 "shadowMap")
        (Library.blank.glGetUniformLocation 1 "tex") 7 0 (toGLuint 11) ∧
      g4.textured (Library.blank.glGetUniformLocation 1 "shadowMap")
        (Library.blank.glGetUniformLocation 1 "tex") 7 3 (toGLuint 13) :=
  C10_diffuse_units_leave_shadow_map_bound Library.blank Scene.blank (Shader.mk 1)
    20 21 22 23 7 11 12 13 GLState.blank (by decide) (by decide) (by decide)

/-! ## The table of pressed keys -/

/-- The table `keys` after a call of `key_callback` that returns. -/
theorem key_callback_keys (s s' : State) (key scancode action mode : Int)
    (h : key_callback s key scancode action mode = Except.ok s') :
    (0 ≤ key ∧ key < 1024 ∨ (action ≠ GLFW_PRESS ∧ action ≠ GLFW_RELEASE)) ∧
    s'.keys =
      (if action = GLFW_PRESS then Function.update s.keys key.toNat true
       else if action = GLFW_RELEASE then Function.update s.keys key.toNat false
       else s.keys) := by
  rw [key_callback_eq_stages] at h
  split at h
  · exact Except.noConfusion h
  · rename_i s3 h3
    have a4 := (digitStage_ok _ s3 key action h3).2.2.2.1
    have e : (wireframeStage (escapeStage s key action) key action).keys = s.keys := by
      unfold wireframeStage escapeStage
      split <;> split <;> rfl
    rw [e] at a4
    unfold keysStage writeKey at h
    by_cases hp : action = GLFW_PRESS
    · rw [if_pos hp] at h
      by_cases hb : 0 ≤ key ∧ key < 1024
      · rw [if_pos hb] at h
        injection h with h
        subst h
        exact ⟨Or.inl hb, by simp [hp, a4]⟩
      · rw [if_neg hb] at h
        exact Except.noConfusion h
    · rw [if_neg hp] at h
      by_cases hr : action = GLFW_RELEASE
      · rw [if_pos hr] at h
        by_cases hb : 0 ≤ key ∧ key < 1024
        · rw [if_pos hb] at h
          injection h with h
          subst h
          refine ⟨Or.inl hb, ?_⟩
          rw [if_neg hp, if_pos hr]
          simp only
          rw [a4]
        · rw [if_neg hb] at h
          exact Except.noConfusion h
      · rw [if_neg hr] at h
        injection h with h
        subst h
        exact ⟨Or.inr ⟨hp, hr⟩, by simp [hp, hr, a4]⟩

/-- The cell `keys[k]` after a run of key events that returns: the most recent press or
release of `k` decides, and without one the cell is as before. -/
theorem runKeys_keys (events : List KeyEvent) (s s' : State) (k : Nat)
    (h : runKeys s events = Except.ok s') :
    s'.keys k = (lastEdge k events).getD (s.keys k) := by
  induction events generalizing s with
  | nil =>
    simp only [runKeys] at h
    injection h with h
    subst h
    rfl
  | cons e es ih =>
    simp only [runKeys] at h
    split at h
    · rename_i s1 h1
      obtain ⟨hb, hk⟩ := key_callback_keys s s1 e.key e.scancode e.action e.mode h1
      rw [ih s1 h]
      simp only [lastEdge]
      cases hl : lastEdge k es with
      | some b => rfl
      | none =>
        simp only [Option.getD_none]
        rw [hk]
        by_cases hp : e.action = GLFW_PRESS
        · have hb' : 0 ≤ e.key ∧ e.key < 1024 := by
            rcases hb with hb | hb
            · exact hb
            · exact absurd hp hb.1
          by_cases hkey : e.key = (k : Int)
          · have hk' : e.key.toNat = k := by omega
            rw [if_pos hp, if_pos ⟨hkey, hp⟩, hk', Function.update_same]
            rfl
          · have hk' : k ≠ e.key.toNat := by omega
            have c1 : ¬ (e.key = (k : Int) ∧ e.action = GLFW_PRESS) := fun hc => hkey hc.1
            have c2 : ¬ (e.key = (k : Int) ∧ e.action = GLFW_RELEASE) := fun hc => hkey hc.1
            rw [if_pos hp, if_neg c1, if_neg c2, Function.update_noteq hk']
            rfl
        · by_cases hr : e.action = GLFW_RELEASE
          · have hb' : 0 ≤ e.key ∧ e.key < 1024 := by
              rcases hb with hb | hb
              · exact hb
              · exact absurd hr hb.2
            by_cases hkey : e.key = (k : Int)
            · have hk' : e.key.toNat = k := by omega
              have c1 : ¬ (e.key = (k : Int) ∧ e.action = GLFW_PRESS) := fun hc => hp hc.2
              rw [if_neg hp, if_pos hr, if_neg c1, if_pos ⟨hkey, hr⟩, hk', Function.update_same]
              rfl
            · have hk' : k ≠ e.key.toNat := by omega
              have c1 : ¬ (e.key = (k : Int) ∧ e.action = GLFW_PRESS) := fun hc => hkey hc.1
              have c2 : ¬ (e.key = (k : Int) ∧ e.action = GLFW_RELEASE) := fun hc => hkey hc.1
              rw [if_neg hp, if_pos hr, if_neg c1, if_neg c2, Function.update_noteq hk']
              rfl
          · have c1 : ¬ (e.key = (k : Int) ∧ e.action = GLFW_PRESS) := fun hc => hp hc.2
            have c2 : ¬ (e.key = (k : Int) ∧ e.action = GLFW_RELEASE) := fun hc => hr hc.2
            rw [if_neg hp, if_neg hr, if_neg c1, if_neg c2]
            rfl
    · exact Except.noConfusion h

/-- A direction is among the calls of `apply_camera_movements` exactly when its key is held. -/
theorem mem_apply_camera_movements (s : State) (deltaTime : Fp) (d : Camera_Movement) :
    (d, deltaTime) ∈ apply_camera_movements s deltaTime ↔ s.keys d.key = true := by
  cases d <;>
    simp [apply_camera_movements, keyHeld, Camera_Movement.key, GLFW_KEY_W, GLFW_KEY_S,
      GLFW_KEY_A, GLFW_KEY_D]

/-- C19: a sequence of key events returns whenever its writes to `keys` stay inside the
array. When it returns, for every key code `k` in 0..1023 the cell `keys[k]` is decided by the
most recent press or release of `k` (true for a press, false for a release) and is as before
when there is none, so repeats and events of other keys do not change it; from the table with
no key held, `keys[k]` is true exactly when that most recent event is a press. The call
`camera.ProcessKeyboard(d, deltaTime)` is among the calls of `apply_camera_movements` exactly
when the cell of the key of `d` (W, S, A, D) is true, for each direction on its own. -/
theorem C19_keys_follow_last_press_or_release (s : State) (events : List KeyEvent) :
    ((∀ e ∈ events, e.inBounds) → ∃ s', runKeys s events = Except.ok s') ∧
    ∀ s', runKeys s events = Except.ok s' →
      (∀ k, k < 1024 → s'.keys k = (lastEdge k events).getD (s.keys k)) ∧
      ((∀ k, s.keys k = false) →
        ∀ k, k < 1024 → (s'.keys k = true ↔ lastEdge k events = some true)) ∧
      ∀ (d : Camera_Movement) (deltaTime : Fp),
        (d, deltaTime) ∈ apply_camera_movements s' deltaTime ↔
          (lastEdge d.key events).getD (s.keys d.key) = true := by
  refine ⟨runKeys_total events s, ?_⟩
  intro s' hrun
  refine ⟨fun k _ => runKeys_keys events s s' k hrun, ?_, ?_⟩
  · intro hfalse k _
    rw [runKeys_keys events s s' k hrun, hfalse k]
    cases lastEdge k events with
    | none => simp
    | some b => simp
  · intro d deltaTime
    rw [mem_apply_camera_movements, runKeys_keys events s s' d.key hrun]

/-- Witness of C19: from start-up, W pressed, D pressed, W repeated, S pressed and released:
the frame that follows moves the camera forward and to the right. -/
theorem C19_keys_follow_last_press_or_release_witness :
    ∃ s', runKeys State.initial
        [KeyEvent.mk 87 0 1 0, KeyEvent.mk 68 0 1 0, KeyEvent.mk 87 0 2 0,
         KeyEvent.mk 83 0 1 0, KeyEvent.mk 83 0 0 0] = Except.ok s' ∧
      apply_camera_movements s' (Fp.ofScaled 1 6)
        = [(Camera_Movement.FORWARD, Fp.ofScaled 1 6), (Camera_Movement.RIGHT, Fp.ofScaled 1 6)] ∧
      ∀ (d : Camera_Movement) (deltaTime : Fp),
        (d, deltaTime) ∈ apply_camera_movements s' deltaTime ↔
          (lastEdge d.key
            [KeyEvent.mk 87 0 1 0, KeyEvent.mk 68 0 1 0, KeyEvent.mk 87 0 2 0,
             KeyEvent.mk 83 0 1 0, KeyEvent.mk 83 0 0 0]).getD (State.initial.keys d.key) = true :=
  ⟨_, rfl, rfl,
    ((C19_keys_follow_last_press_or_release State.initial
      [KeyEvent.mk 87 0 1 0, KeyEvent.mk 68 0 1 0, KeyEvent.mk 87 0 2 0,
       KeyEvent.mk 83 0 1 0, KeyEvent.mk 83 0 0 0]).2 _ rfl).2.2⟩

/-- C20: for the key code `GLFW_KEY_UNKNOWN = -1`, a press and a release make `key_callback`
write `keys[-1]`, outside the array. For the key codes from 0 to `GLFW_KEY_LAST = 348` the
call returns for every action, its write being inside the array. -/
theorem C20_unknown_key_is_written_outside_keys (s : State) (scancode mode : Int) :
    key_callback s GLFW_KEY_UNKNOWN scancode GLFW_PRESS mode = Except.error Fault.outOfRange ∧
    key_callback s GLFW_KEY_UNKNOWN scancode GLFW_RELEASE mode = Except.error Fault.outOfRange ∧
    ∀ key action : Int, 0 ≤ key → key ≤ GLFW_KEY_LAST →
      ∃ s', key_callback s key scancode action mode = Except.ok s' := by
  refine ⟨?_, ?_, ?_⟩
  · simp [key_callback, writeKey, GLFW_KEY_UNKNOWN, GLFW_PRESS, GLFW_KEY_ESCAPE, GLFW_KEY_L,
      GLFW_KEY_1, GLFW_KEY_9]
  · simp [key_callback, writeKey, GLFW_KEY_UNKNOWN, GLFW_PRESS, GLFW_RELEASE, GLFW_KEY_ESCAPE,
      GLFW_KEY_L, GLFW_KEY_1, GLFW_KEY_9]
  · intro key action h0 h1
    apply key_callback_total
    intro _
    simp only [GLFW_KEY_LAST] at h1
    omega

/-! ## Number of particles -/

/-- C14: with `particlesPerSecond = 1.5` and `lifetimeMax = 2.0`, both not negative,
`getMaxParticles()` returns `2 * 1 = 2`, which is below `particlesPerSecond * lifetimeMax = 3`:
the rate is truncated to 1 before the product is taken. -/
theorem C14_max_particles_below_product :
    Fp.nonneg ParticleSettings.sample.lifetimeMax = true ∧
    Fp.nonneg ParticleSettings.sample.particlesPerSecond = true ∧
    Fp.toInt32 (Fp.ceil ParticleSettings.sample.lifetimeMax) = some 2 ∧
    Fp.toInt32 ParticleSettings.sample.particlesPerSecond = some 1 ∧
    ParticleSettings.sample.getMaxParticles = some 2 ∧
    atLeastProduct 2 ParticleSettings.sample.particlesPerSecond
      ParticleSettings.sample.lifetimeMax = false ∧
    atLeastProduct 3 ParticleSettings.sample.particlesPerSecond
      ParticleSettings.sample.lifetimeMax = true := by
  decide!

/-! ## The two passes of an iteration -/

/-- A scene whose `textureID` holds three textures, written with them. -/
theorem Scene.eq_of_textures {V M4 M3 : Type} (sc : Scene V M4 M3) (t0 t1 t2 : Int)
    (h : sc.textureID = [t0, t1, t2]) : sc = { sc with textureID := [t0, t1, t2] } := by
  rw [← h]

/-- The depth pass on a scene with three textures: its result, its light-space matrix and
its uploads of 4x4 matrices. -/
theorem depthPass_eq {V M4 M3 : Type} (L : FrameLibrary V M4 M3) (a : Assets M4)
    (sc : Scene V M4 M3) (t0 t1 t2 : Int) :
    ∃ res, depthPass L a { sc with textureID := [t0, t1, t2] } = Except.ok res ∧
      res.1 = L.mul
        (L.ortho (L.lit (-5)) (L.lit 5) (L.lit (-5)) (L.lit 5) (L.lit (-10)) (L.lit 10))
        (L.lookAt (L.vec3 lightDir0) (L.lit 0, L.lit 0, L.lit 0) (L.lit 0, L.lit 1, L.lit 0)) ∧
      res.2.1.textureID = [t0, t1, t2] ∧
      matrix4Uploads res.2.2 =
        [(L.glGetUniformLocation a.shadow_shader.Program "lightSpaceMatrix", res.1),
         (L.glGetUniformLocation a.shadow_shader.Program "modelMatrix",
           res.2.1.planeModelMatrix),
         (L.glGetUniformLocation a.shadow_shader.Program "modelMatrix",
           res.2.1.lampModelMatrix),
         (L.glGetUniformLocation a.shadow_shader.Program "modelMatrix",
           res.2.1.benchModelMatrix),
         (L.glGetUniformLocation a.shadow_shader.Program "modelMatrix",
           res.2.1.treeModelMatrix)] := by
  refine ⟨_, rfl, rfl, rfl, ?_⟩
  simp [SHADOWMAP, RENDER, matrix4Uploads]

/-- The lit pass on a scene with three textures and a valid subroutine index: its result, its
uploads of 4x4 matrices and of 3-vectors. -/
theorem litPass_eq {V M4 M3 : Type} (L : FrameLibrary V M4 M3) (a : Assets M4) (s : State)
    (sc : Scene V M4 M3) (t0 t1 t2 : Int) (lightSpaceMatrix cameraView : M4) (name : String)
    (hname : currentSubroutineName s = Except.ok name) :
    ∃ res, litPass L a s { sc with textureID := [t0, t1, t2] } lightSpaceMatrix cameraView
        = Except.ok res ∧
      matrix4Uploads res.2 =
        [(L.glGetUniformLocation a.illumination_shader.Program "projectionMatrix",
           a.projection),
         (L.glGetUniformLocation a.illumination_shader.Program "viewMatrix", cameraView),
         (L.glGetUniformLocation a.illumination_shader.Program "lightSpaceMatrix",
           lightSpaceMatrix),
         (L.glGetUniformLocation a.illumination_shader.Program "modelMatrix",
           res.1.planeModelMatrix),
         (L.glGetUniformLocation a.illumination_shader.Program "modelMatrix",
           res.1.lampModelMatrix),
         (L.glGetUniformLocation a.illumination_shader.Program "modelMatrix",
           res.1.benchModelMatrix),
         (L.glGetUniformLocation a.illumination_shader.Program "modelMatrix",
           res.1.treeModelMatrix)] ∧
      vector3Uploads res.2 =
        [(L.glGetUniformLocation a.illumination_shader.Program "lightVector",
           (L.lit 1, L.lit 1, L.lit 1))] := by
  unfold litPass
  rw [hname]
  refine ⟨_, rfl, ?_, ?_⟩
  · simp [RENDER, matrix4Uploads]
  · simp [RENDER, vector3Uploads, Library.vec3, lightDir0]

theorem matrix4Uploads_append {V M4 M3 : Type} (xs ys : List (FrameCall V M4 M3)) :
    matrix4Uploads (xs ++ ys) = matrix4Uploads xs ++ matrix4Uploads ys := by
  induction xs with
  | nil => rfl
  | cons x xs ih =>
    cases x with
    | gl call => cases call <;> simp [matrix4Uploads, ih]
    | _ => simp [matrix4Uploads, ih]

/-- One iteration on a scene with three textures: it returns when the events are handled
and the subroutine index is valid, and what it returns is made of the two passes. -/
theorem renderFrame_eq {V M4 M3 : Type} (L : FrameLibrary V M4 M3) (a : Assets M4) (s : State)
    (clock : Clock) (sc : Scene V M4 M3) (t0 t1 t2 : Int) (time : Fp)
    (events : List InputEvent) (cameraView : M4) :
    (∀ s' name, pollEvents s events = Except.ok s' →
      currentSubroutineName s' = Except.ok name →
      ∃ frame, renderFrame L a s clock { sc with textureID := [t0, t1, t2] } time events
        cameraView = Except.ok frame) ∧
    ∀ frame, renderFrame L a s clock { sc with textureID := [t0, t1, t2] } time events
        cameraView = Except.ok frame →
      ∃ depth lit,
        depthPass L a { sc with textureID := [t0, t1, t2] } = Except.ok depth ∧
        depth.2.1.textureID = [t0, t1, t2] ∧
        pollEvents s events = Except.ok frame.state ∧
        litPass L a frame.state depth.2.1 depth.1 cameraView = Except.ok lit ∧
        frame.calls = depth.2.2 ++ lit.2 ∧
        frame.cameraMoves = apply_camera_movements frame.state frame.clock.deltaTime := by
  obtain ⟨d, hd, _, htex, _⟩ := depthPass_eq L a sc t0 t1 t2
  constructor
  · intro s' name hp hn
    obtain ⟨l, hl, _, _⟩ := litPass_eq L a s' d.2.1 t0 t1 t2 d.1 cameraView name hn
    rw [← Scene.eq_of_textures d.2.1 t0 t1 t2 htex] at hl
    unfold renderFrame
    simp only [hp, hd, hl, bind, Except.bind]
    exact ⟨_, rfl⟩
  · intro frame h
    unfold renderFrame at h
    cases hp : pollEvents s events with
    | error f =>
      simp only [hp, bind, Except.bind] at h
      exact Except.noConfusion h
    | ok s' =>
      simp only [hp, hd, bind, Except.bind] at h
      cases hl : litPass L a s' d.2.1 d.1 cameraView with
      | error f =>
        simp only [hl] at h
        exact Except.noConfusion h
      | ok l =>
        simp only [hl, pure, Except.pure] at h
        injection h with h
        subst h
        exact ⟨d, l, hd, htex, rfl, hl, rfl, rfl⟩

/-- C17: in every iteration of the rendering loop that returns, the uploads of 4x4 matrices
are, in order: `lightSpaceMatrix` of the depth-pass program, four model matrices,
`projectionMatrix`, `viewMatrix` and `lightSpaceMatrix` of the lit-pass program, four model
matrices. Both uploads of `lightSpaceMatrix` carry the one product
`lightProjection * lightView` of the iteration, built from constants only: neither the
camera view, nor the state of the keys, nor the time, nor the events enter it. The iteration
returns whenever its events are handled and the subroutine index is valid. -/
theorem C17_light_space_matrix_is_shared {V M4 M3 : Type} (L : FrameLibrary V M4 M3)
    (a : Assets M4) (s : State) (clock : Clock) (sc : Scene V M4 M3) (t0 t1 t2 : Int)
    (time : Fp) (events : List InputEvent) (cameraView : M4) :
    (∀ s' name, pollEvents s events = Except.ok s' →
      currentSubroutineName s' = Except.ok name →
      ∃ frame, renderFrame L a s clock { sc with textureID := [t0, t1, t2] } time events
        cameraView = Except.ok frame) ∧
    ∀ frame, renderFrame L a s clock { sc with textureID := [t0, t1, t2] } time events
        cameraView = Except.ok frame →
      ∃ depthModels litModels : List (Int × M4),
        matrix4Uploads frame.calls =
          (L.glGetUniformLocation a.shadow_shader.Program "lightSpaceMatrix",
            L.mul
              (L.ortho (L.lit (-5)) (L.lit 5) (L.lit (-5)) (L.lit 5) (L.lit (-10)) (L.lit 10))
              (L.lookAt (L.vec3 lightDir0) (L.lit 0, L.lit 0, L.lit 0)
                (L.lit 0, L.lit 1, L.lit 0))) ::
          depthModels ++
          (L.glGetUniformLocation a.illumination_shader.Program "projectionMatrix",
            a.projection) ::
          (L.glGetUniformLocation a.illumination_shader.Program "viewMatrix", cameraView) ::
          (L.glGetUniformLocation a.illumination_shader.Program "lightSpaceMatrix",
            L.mul
              (L.ortho (L.lit (-5)) (L.lit 5) (L.lit (-5)) (L.lit 5) (L.lit (-10)) (L.lit 10))
              (L.lookAt (L.vec3 lightDir0) (L.lit 0, L.lit 0, L.lit 0)
                (L.lit 0, L.lit 1, L.lit 0))) ::
          litModels ∧
        depthModels.length = 4 ∧ litModels.length = 4 ∧
        (∀ u ∈ depthModels,
          u.1 = L.glGetUniformLocation a.shadow_shader.Program "modelMatrix") ∧
        (∀ u ∈ litModels,
          u.1 = L.glGetUniformLocation a.illumination_shader.Program "modelMatrix") := by
  obtain ⟨htotal, hframe⟩ := renderFrame_eq L a s clock sc t0 t1 t2 time events cameraView
  refine ⟨htotal, ?_⟩
  intro frame h
  obtain ⟨d, l, hd, htex, _, hl, hcalls, _⟩ := hframe frame h
  obtain ⟨d', hd', hM, _, hup⟩ := depthPass_eq L a sc t0 t1 t2
  rw [hd] at hd'
  injection hd' with hd'
  subst hd'
  have hname : ∃ name, currentSubroutineName frame.state = Except.ok name := by
    cases hn : currentSubroutineName frame.state with
    | ok name => exact ⟨name, rfl⟩
    | error f =>
      unfold litPass at hl
      simp only [hn, bind, Except.bind] at hl
      exact Except.noConfusion hl
  obtain ⟨name, hname⟩ := hname
  obtain ⟨l', hl', hlup, _⟩ := litPass_eq L a frame.state d.2.1 t0 t1 t2 d.1 cameraView name hname
  rw [← Scene.eq_of_textures d.2.1 t0 t1 t2 htex, hl] at hl'
  injection hl' with hl'
  subst hl'
  refine ⟨[(L.glGetUniformLocation a.shadow_shader.Program "modelMatrix",
             d.2.1.planeModelMatrix),
           (L.glGetUniformLocation a.shadow_shader.Program "modelMatrix",
             d.2.1.lampModelMatrix),
           (L.glGetUniformLocation a.shadow_shader.Program "modelMatrix",
             d.2.1.benchModelMatrix),
           (L.glGetUniformLocation a.shadow_shader.Program "modelMatrix",
             d.2.1.treeModelMatrix)],
          [(L.glGetUniformLocation a.illumination_shader.Program "modelMatrix",
             l.1.planeModelMatrix),
           (L.glGetUniformLocation a.illumination_shader.Program "modelMatrix",
             l.1.lampModelMatrix),
           (L.glGetUniformLocation a.illumination_shader.Program "modelMatrix",
             l.1.benchModelMatrix),
           (L.glGetUniformLocation a.illumination_shader.Program "modelMatrix",
             l.1.treeModelMatrix)], ?_, rfl, rfl, ?_, ?_⟩
  · rw [hcalls, matrix4Uploads_append, hup, hlup, hM]
  · intro u hu
    simp only [List.mem_cons, List.mem_singleton, List.not_mem_nil, or_false] at hu
    rcases hu with rfl | rfl | rfl | rfl <;> rfl
  · intro u hu
    simp only [List.mem_cons, List.mem_singleton, List.not_mem_nil, or_false] at hu
    rcases hu with rfl | rfl | rfl | rfl <;> rfl

/-! ## The light direction -/

/-- C11, as stated, fails: the squares of the components of `lightDir0` add up to 3. -/
theorem C11_light_direction_is_not_unit :
    lightDir0 = (1, 1, 1) ∧ squaredLength lightDir0 = 3 ∧ squaredLength lightDir0 ≠ 1 := by
  refine ⟨rfl, ?_, ?_⟩ <;> norm_num [squaredLength, lightDir0]

/-- C11, amended: the light direction `lightDir0` is the vector `(1, 1, 1)`, whose squares
add up to 3; the program uploads it as it is as `lightVector` in the lit pass and uses it as
it is as the look-from position of the light view. -/
theorem C11_light_direction_is_used_as_given {V M4 M3 : Type} (L : FrameLibrary V M4 M3)
    (a : Assets M4) (s : State) (sc : Scene V M4 M3) (t0 t1 t2 : Int)
    (lightSpaceMatrix cameraView : M4) :
    squaredLength lightDir0 = 3 ∧
    (∃ depth, depthPass L a { sc with textureID := [t0, t1, t2] } = Except.ok depth ∧
      depth.1 = L.mul
        (L.ortho (L.lit (-5)) (L.lit 5) (L.lit (-5)) (L.lit 5) (L.lit (-10)) (L.lit 10))
        (L.lookAt (L.lit 1, L.lit 1, L.lit 1) (L.lit 0, L.lit 0, L.lit 0)
          (L.lit 0, L.lit 1, L.lit 0))) ∧
    ∀ name, currentSubroutineName s = Except.ok name →
      ∃ lit, litPass L a s { sc with textureID := [t0, t1, t2] } lightSpaceMatrix cameraView
          = Except.ok lit ∧
        vector3Uploads lit.2 =
          [(L.glGetUniformLocation a.illumination_shader.Program "lightVector",
            (L.lit 1, L.lit 1, L.lit 1))] := by
  refine ⟨by norm_num [squaredLength, lightDir0], ?_, ?_⟩
  · obtain ⟨d, hd, hM, _, _⟩ := depthPass_eq L a sc t0 t1 t2
    exact ⟨d, hd, hM⟩
  · intro name hname
    obtain ⟨l, hl, _, hv⟩ :=
      litPass_eq L a s sc t0 t1 t2 lightSpaceMatrix cameraView name hname
    exact ⟨l, hl, hv⟩

/-! ## Uniforms of the depth pass -/

/-- C15, as stated, fails: for a depth-pass program whose only uniforms are
`lightSpaceMatrix` (location 0) and `modelMatrix` (location 1), the depth pass makes
seventeen calls that set a uniform; twelve of them are the uploads of `tex`, `repeat` and
`normalMatrix` of the four objects, made with the location `-1`. -/
theorem C15_depth_pass_issues_other_uploads :
    ∃ depth, depthPass FrameLibrary.blank Assets.blank Scene.blank = Except.ok depth ∧
      depth.2.2.filter FrameCall.setsUniform =
        [FrameCall.gl (GLCall.uniformMatrix4fv 0 ()),
         FrameCall.gl (GLCall.uniform1i (-1) 1), FrameCall.gl (GLCall.uniform1f (-1) ()),
         FrameCall.gl (GLCall.uniformMatrix4fv 1 ()),
         FrameCall.gl (GLCall.uniformMatrix3fv (-1) ()),
         FrameCall.gl (GLCall.uniform1i (-1) 0), FrameCall.gl (GLCall.uniform1f (-1) ()),
         FrameCall.gl (GLCall.uniformMatrix4fv 1 ()),
         FrameCall.gl (GLCall.uniformMatrix3fv (-1) ()),
         FrameCall.gl (GLCall.uniform1i (-1) 0), FrameCall.gl (GLCall.uniform1f (-1) ()),
         FrameCall.gl (GLCall.uniformMatrix4fv 1 ()),
         FrameCall.gl (GLCall.uniformMatrix3fv (-1) ()),
         FrameCall.gl (GLCall.uniform1i (-1) 3), FrameCall.gl (GLCall.uniform1f (-1) ()),
         FrameCall.gl (GLCall.uniformMatrix4fv 1 ()),
         FrameCall.gl (GLCall.uniformMatrix3fv (-1) ())] ∧
      (depth.2.2.filter FrameCall.setsUniform).length = 17 ∧
      depth.2.2.filterMap FrameCall.uniformLocation =
        [0, -1, -1, 1, -1, -1, -1, 1, -1, -1, -1, 1, -1, -1, -1, 1, -1] :=
  ⟨_, rfl, rfl, rfl, rfl⟩

/-- C15, amended: during the depth pass the host sets, for the depth-pass program,
`lightSpaceMatrix` once and then for each of the four objects `tex`, `repeat`,
`modelMatrix` and `normalMatrix`, each at the location `glGetUniformLocation` gives for that
program; no upload of `shadowMap` is made. When the depth-pass program has no uniform `tex`,
`repeat` or `normalMatrix` (location `-1`), the only uniforms that receive a value are
`lightSpaceMatrix` and `modelMatrix`. -/
theorem C15_depth_pass_uniform_uploads {V M4 M3 : Type} (L : FrameLibrary V M4 M3)
    (a : Assets M4) (sc : Scene V M4 M3) (t0 t1 t2 : Int) :
    ∃ depth, depthPass L a { sc with textureID := [t0, t1, t2] } = Except.ok depth ∧
      depth.2.2.filter FrameCall.setsUniform =
        [FrameCall.gl (GLCall.uniformMatrix4fv
           (L.glGetUniformLocation a.shadow_shader.Program "lightSpaceMatrix") depth.1),
         FrameCall.gl (GLCall.uniform1i
           (L.glGetUniformLocation a.shadow_shader.Program "tex") 1),
         FrameCall.gl (GLCall.uniform1f
           (L.glGetUniformLocation a.shadow_shader.Program "repeat") (L.lit 80)),
         FrameCall.gl (GLCall.uniformMatrix4fv
           (L.glGetUniformLocation a.shadow_shader.Program "modelMatrix")
           depth.2.1.planeModelMatrix),
         FrameCall.gl (GLCall.uniformMatrix3fv
           (L.glGetUniformLocation a.shadow_shader.Program "normalMatrix")
           depth.2.1.planeNormalMatrix),
         FrameCall.gl (GLCall.uniform1i
           (L.glGetUniformLocation a.shadow_shader.Program "tex") 0),
         FrameCall.gl (GLCall.uniform1f
           (L.glGetUniformLocation a.shadow_shader.Program "repeat") sc.uvRepeat),
         FrameCall.gl (GLCall.uniformMatrix4fv
           (L.glGetUniformLocation a.shadow_shader.Program "modelMatrix")
           depth.2.1.lampModelMatrix),
         FrameCall.gl (GLCall.uniformMatrix3fv
           (L.glGetUniformLocation a.shadow_shader.Program "normalMatrix")
           depth.2.1.lampNormalMatrix),
         FrameCall.gl (GLCall.uniform1i
           (L.glGetUniformLocation a.shadow_shader.Program "tex") 0),
         FrameCall.gl (GLCall.uniform1f
           (L.glGetUniformLocation a.shadow_shader.Program "repeat") sc.uvRepeat),
         FrameCall.gl (GLCall.uniformMatrix4fv
           (L.glGetUniformLocation a.shadow_shader.Program "modelMatrix")
           depth.2.1.benchModelMatrix),
         FrameCall.gl (GLCall.uniformMatrix3fv
           (L.glGetUniformLocation a.shadow_shader.Program "normalMatrix")
           depth.2.1.benchNormalMatrix),
         FrameCall.gl (GLCall.uniform1i
           (L.glGetUniformLocation a.shadow_shader.Program "tex") 3),
         FrameCall.gl (GLCall.uniform1f
           (L.glGetUniformLocation a.shadow_shader.Program "repeat") sc.uvRepeat),
         FrameCall.gl (GLCall.uniformMatrix4fv
           (L.glGetUniformLocation a.shadow_shader.Program "modelMatrix")
           depth.2.1.treeModelMatrix),
         FrameCall.gl (GLCall.uniformMatrix3fv
           (L.glGetUniformLocation a.shadow_shader.Program "normalMatrix")
           depth.2.1.treeNormalMatrix)] ∧
      (L.glGetUniformLocation a.shadow_shader.Program "tex" = -1 →
        L.glGetUniformLocation a.shadow_shader.Program "repeat" = -1 →
        L.glGetUniformLocation a.shadow_shader.Program "normalMatrix" = -1 →
        ∀ location ∈ uniformsSet depth.2.2,
          location = L.glGetUniformLocation a.shadow_shader.Program "lightSpaceMatrix" ∨
          location = L.glGetUniformLocation a.shadow_shader.Program "modelMatrix") := by
  refine ⟨_, rfl, ?_, ?_⟩
  · simp [SHADOWMAP, RENDER, FrameCall.setsUniform, FrameCall.uniformLocation,
      GLCall.uniformLocation]
  · intro h1 h2 h3 location hmem
    simp [SHADOWMAP, RENDER, uniformsSet, FrameCall.uniformLocation, GLCall.uniformLocation,
      h1, h2, h3] at hmem
    tauto

/-! ## Model matrices in exact arithmetic -/

theorem glmTranslate_eq_mul {K : Type} [Field K] (m : Mat4 K) (v : K × K × K) :
    glmTranslate m v = m * translation v := by
  ext i j
  fin_cases j <;>
    simp [glmTranslate, translation, Matrix.mul_apply, Fin.sum_univ_four, Matrix.vecHead,
      Matrix.vecTail]

theorem glmScale_eq_mul {K : Type} [Field K] (m : Mat4 K) (v : K × K × K) :
    glmScale m v = m * scaling v := by
  ext i j
  fin_cases j <;>
    simp [glmScale, scaling, Matrix.mul_apply, Fin.sum_univ_four, Matrix.vecHead,
      Matrix.vecTail]

theorem glmRotate_eq_mul {K : Type} [Field K] (T : Scalars K) (hinv : T.inversesqrt 1 = 1)
    (m : Mat4 K) (angle : K) :
    glmRotate T m angle (0, 1, 0) = m * rotationY (T.cos angle) (T.sin angle) := by
  ext i j
  fin_cases j <;>
    simp [glmRotate, glmRotation, glmNormalize, rotationY, Matrix.mul_apply,
      Fin.sum_univ_four, hinv, Matrix.vecHead, Matrix.vecTail]

theorem glmDeterminant3_eq_det {K : Type} [Field K] (m : Mat3 K) :
    glmDeterminant3 m = m.det := by
  rw [Matrix.det_fin_three]
  unfold glmDeterminant3
  ring

theorem castSucc_two : Fin.castSucc (2 : Fin 3) = (2 : Fin 4) := rfl

theorem castSucc_one : Fin.castSucc (1 : Fin 3) = (1 : Fin 4) := rfl

theorem castSucc_zero : Fin.castSucc (0 : Fin 3) = (0 : Fin 4) := rfl

/-- The determinant of the upper 3x3 part of translation times rotation about Y times
scaling. -/
theorem det_glmMat3_trs {K : Type} [Field K] (v w : K × K × K) (c s : K) :
    (glmMat3 (translation v * rotationY c s * scaling w)).det
      = (c * c + s * s) * (w.1 * w.2.1 * w.2.2) := by
  rw [Matrix.det_fin_three]
  simp [glmMat3, translation, rotationY, scaling, Matrix.mul_apply, Fin.sum_univ_four,
    Matrix.vecHead, Matrix.vecTail, castSucc_two, castSucc_one, castSucc_zero]
  ring

/-- The determinant of the upper 3x3 part of translation times scaling. -/
theorem det_glmMat3_ts {K : Type} [Field K] (v w : K × K × K) :
    (glmMat3 (translation v * scaling w)).det = w.1 * w.2.1 * w.2.2 := by
  rw [Matrix.det_fin_three]
  simp [glmMat3, translation, scaling, Matrix.mul_apply, Fin.sum_univ_four,
    Matrix.vecHead, Matrix.vecTail, castSucc_two, castSucc_one, castSucc_zero]

/-- Translation times rotation about Y times scaling sends the origin to the translation. -/
theorem trs_origin {K : Type} [Field K] (v w : K × K × K) (c s : K) :
    Matrix.mulVec (translation v * rotationY c s * scaling w) ![0, 0, 0, 1]
      = ![v.1, v.2.1, v.2.2, 1] := by
  ext i
  fin_cases i <;>
    simp [translation, rotationY, scaling, Matrix.mul_apply, Matrix.mulVec, Matrix.dotProduct,
      Fin.sum_univ_four, Matrix.vecHead, Matrix.vecTail]

/-- The bottom row of translation times rotation about Y times scaling is `0 0 0 1`. -/
theorem trs_bottom {K : Type} [Field K] (v w : K × K × K) (c s : K) (j : Fin 3) :
    (translation v * rotationY c s * scaling w) 3 (Fin.castSucc j) = 0 := by
  fin_cases j <;>
    simp [translation, rotationY, scaling, Matrix.mul_apply, Fin.sum_univ_four,
      Matrix.vecHead, Matrix.vecTail, castSucc_two, castSucc_one, castSucc_zero]

/-- The bottom row of translation times scaling is `0 0 0 1`. -/
theorem ts_bottom {K : Type} [Field K] (v w : K × K × K) (j : Fin 3) :
    (translation v * scaling w) 3 (Fin.castSucc j) = 0 := by
  fin_cases j <;>
    simp [translation, scaling, Matrix.mul_apply, Fin.sum_univ_four,
      Matrix.vecHead, Matrix.vecTail, castSucc_two, castSucc_one, castSucc_zero]

/-- The upper 3x3 part of a product whose second factor has the bottom row `0 0 0 _`. -/
theorem glmMat3_mul_affine {K : Type} [Field K] (a b : Mat4 K)
    (hb : ∀ j : Fin 3, b 3 (Fin.castSucc j) = 0) :
    glmMat3 (a * b) = glmMat3 a * glmMat3 b := by
  ext i j
  simp [glmMat3, Matrix.mul_apply, Fin.sum_univ_four, Fin.sum_univ_three, hb j, castSucc_two,
    castSucc_one, castSucc_zero]

/-- The determinant of a matrix with the bottom row `0 0 0 1` is that of its upper 3x3
part. -/
theorem det_affine {K : Type} [Field K] (a : Mat4 K)
    (ha : ∀ j : Fin 3, a 3 (Fin.castSucc j) = 0) (h1 : a 3 3 = 1) :
    a.det = (glmMat3 a).det := by
  have h30 : a 3 0 = 0 := ha 0
  have h31 : a 3 1 = 0 := ha 1
  have h32 : a 3 2 = 0 := ha 2
  rw [Matrix.det_succ_row a 3]
  simp only [Fin.sum_univ_four, h30, h31, h32, h1]
  have e : (3 : Fin 4) = Fin.last 3 := rfl
  have hsub : Matrix.submatrix a (Fin.succAbove 3) (Fin.succAbove 3) = glmMat3 a := by
    rw [e, Fin.succAbove_last]
    rfl
  rw [hsub]
  simp [e]
  norm_num

/-- Where its determinant is not zero, `glm::inverseTranspose` returns the transpose of the
inverse. -/
theorem glmInverseTranspose_spec {K : Type} [Field K] (m : Mat3 K)
    (h : glmDeterminant3 m ≠ 0) : (glmInverseTranspose m).transpose * m = 1 := by
  have h' := h
  unfold glmDeterminant3 at h'
  ext i j
  fin_cases i <;> fin_cases j <;>
    simp [glmInverseTranspose, glmDeterminant3, Matrix.mul_apply, Fin.sum_univ_three,
      Matrix.vecHead, Matrix.vecTail, Matrix.one_apply] <;>
    field_simp <;>
    ring

/-- The determinant `glm::inverseTranspose` divides by for the normal matrix of a model
matrix with bottom row `0 0 0 _`: that of the upper 3x3 part of the view times that of the
upper 3x3 part of the model matrix. -/
theorem det_view_model {K : Type} [Field K] (view model : Mat4 K)
    (hm : ∀ j : Fin 3, model 3 (Fin.castSucc j) = 0) :
    glmDeterminant3 (glmMat3 (view * model)) = (glmMat3 view).det * (glmMat3 model).det := by
  rw [glmDeterminant3_eq_det, glmMat3_mul_affine view model hm, Matrix.det_mul]

theorem floatLiteral_zero : floatLiteral 0 = 0 := by decide!

theorem floatLiteral_one : floatLiteral 1 = 1 := by decide!

theorem floatLiteral_neg_one : floatLiteral (-1) = -1 := by decide!

theorem floatLiteral_three : floatLiteral 3 = 3 := by decide!

theorem floatLiteral_neg_three : floatLiteral (-3) = -3 := by decide!

theorem floatLiteral_five : floatLiteral 5 = 5 := by decide!

theorem floatLiteral_neg_five : floatLiteral (-5) = -5 := by decide!

theorem floatLiteral_ten : floatLiteral 10 = 10 := by decide!

theorem floatLiteral_neg_ten : floatLiteral (-10) = -10 := by decide!

theorem floatLiteral_quarter : floatLiteral (1 / 4) = 1 / 4 := by decide!

theorem floatLiteral_three_halves : floatLiteral (3 / 2) = 3 / 2 := by decide!

/-- The literal `0.01f` is not a hundredth: it is `5368709 / 2^29`. -/
theorem floatLiteral_hundredth : floatLiteral (1 / 100) = 5368709 / 536870912 := by decide!

/-- The model matrices `RenderObjects` builds with GLM in exact arithmetic. -/
theorem RenderObjects_exact {K : Type} [Field K] [CharZero K] (T : Scalars K)
    (hinv : T.inversesqrt 1 = 1) (location : Nat → String → Int)
    (subroutine : Nat → String → Nat) (sc : Scene K (Mat4 K) (Mat3 K)) (shader : Shader)
    (planeModel benchModel lampModel treeModel : Model) (render_pass : Int) (depthMap : Nat)
    (t0 t1 t2 : Int) :
    ∃ res, RenderObjects (FrameLibrary.exact T location subroutine).toLibrary
        { sc with textureID := [t0, t1, t2] } shader planeModel benchModel lampModel treeModel
        render_pass depthMap = Except.ok res ∧
      res.1.planeModelMatrix = translation (0, -1, 0) * scaling (10, 1, 10) ∧
      res.1.lampModelMatrix =
        translation (-3, -1, 3) *
          rotationY (T.cos (T.radians sc.orientationY)) (T.sin (T.radians sc.orientationY)) *
          scaling (1 / 4, 1 / 4, 1 / 4) ∧
      res.1.benchModelMatrix =
        translation (0, -1, 0) *
          rotationY (T.cos (T.radians sc.orientationY)) (T.sin (T.radians sc.orientationY)) *
          scaling (5368709 / 536870912, 5368709 / 536870912, 5368709 / 536870912) ∧
      res.1.treeModelMatrix =
        translation (5, -1, 5) *
          rotationY (T.cos (T.radians sc.orientationY)) (T.sin (T.radians sc.orientationY)) *
          scaling (3 / 2, 3 / 2, 3 / 2) ∧
      res.1.planeNormalMatrix = glmInverseTranspose (glmMat3 (sc.view * res.1.planeModelMatrix)) ∧
      res.1.lampNormalMatrix = glmInverseTranspose (glmMat3 (sc.view * res.1.lampModelMatrix)) ∧
      res.1.benchNormalMatrix = glmInverseTranspose (glmMat3 (sc.view * res.1.benchModelMatrix)) ∧
      res.1.treeNormalMatrix = glmInverseTranspose (glmMat3 (sc.view * res.1.treeModelMatrix)) := by
  refine ⟨_, rfl, ?_, ?_, ?_, ?_, rfl, rfl, rfl, rfl⟩
  · show glmScale (glmTranslate 1 (((floatLiteral 0 : ℚ) : K), ((floatLiteral (-1) : ℚ) : K),
          ((floatLiteral 0 : ℚ) : K)))
        (((floatLiteral 10 : ℚ) : K), ((floatLiteral 1 : ℚ) : K), ((floatLiteral 10 : ℚ) : K))
        = _
    rw [floatLiteral_zero, floatLiteral_neg_one, floatLiteral_ten, floatLiteral_one,
      glmScale_eq_mul, glmTranslate_eq_mul, one_mul]
    norm_num
  · show glmScale (glmRotate T (glmTranslate 1 (((floatLiteral (-3) : ℚ) : K),
          ((floatLiteral (-1) : ℚ) : K), ((floatLiteral 3 : ℚ) : K)))
        (T.radians sc.orientationY) (((floatLiteral 0 : ℚ) : K), ((floatLiteral 1 : ℚ) : K),
          ((floatLiteral 0 : ℚ) : K)))
        (((floatLiteral (1 / 4) : ℚ) : K), ((floatLiteral (1 / 4) : ℚ) : K),
          ((floatLiteral (1 / 4) : ℚ) : K)) = _
    rw [floatLiteral_zero, floatLiteral_one, floatLiteral_neg_one, floatLiteral_three,
      floatLiteral_neg_three, floatLiteral_quarter, Rat.cast_zero, Rat.cast_one,
      glmScale_eq_mul, glmRotate_eq_mul T hinv, glmTranslate_eq_mul, one_mul]
    norm_num
  · show glmScale (glmRotate T (glmTranslate 1 (((floatLiteral 0 : ℚ) : K),
          ((floatLiteral (-1) : ℚ) : K), ((floatLiteral 0 : ℚ) : K)))
        (T.radians sc.orientationY) (((floatLiteral 0 : ℚ) : K), ((floatLiteral 1 : ℚ) : K),
          ((floatLiteral 0 : ℚ) : K)))
        (((floatLiteral (1 / 100) : ℚ) : K), ((floatLiteral (1 / 100) : ℚ) : K),
          ((floatLiteral (1 / 100) : ℚ) : K)) = _
    rw [floatLiteral_zero, floatLiteral_one, floatLiteral_neg_one, floatLiteral_hundredth,
      Rat.cast_zero, Rat.cast_one, glmScale_eq_mul, glmRotate_eq_mul T hinv,
      glmTranslate_eq_mul, one_mul]
    norm_num
  · show glmScale (glmRotate T (glmTranslate 1 (((floatLiteral 5 : ℚ) : K),
          ((floatLiteral (-1) : ℚ) : K), ((floatLiteral 5 : ℚ) : K)))
        (T.radians sc.orientationY) (((floatLiteral 0 : ℚ) : K), ((floatLiteral 1 : ℚ) : K),
          ((floatLiteral 0 : ℚ) : K)))
        (((floatLiteral (3 / 2) : ℚ) : K), ((floatLiteral (3 / 2) : ℚ) : K),
          ((floatLiteral (3 / 2) : ℚ) : K)) = _
    rw [floatLiteral_zero, floatLiteral_one, floatLiteral_neg_one, floatLiteral_five,
      floatLiteral_three_halves, Rat.cast_zero, Rat.cast_one, glmScale_eq_mul,
      glmRotate_eq_mul T hinv, glmTranslate_eq_mul, one_mul]
    norm_num

/-- The determinants of the upper 3x3 parts of the model matrices `RenderObjects` builds,
with a cosine and a sine whose squares add up to 1. -/
theorem RenderObjects_exact_det {K : Type} [Field K] [CharZero K] (T : Scalars K)
    (hinv : T.inversesqrt 1 = 1)
    (hcs : ∀ a, T.cos a * T.cos a + T.sin a * T.sin a = 1)
    (location : Nat → String → Int) (subroutine : Nat → String → Nat)
    (sc : Scene K (Mat4 K) (Mat3 K)) (shader : Shader)
    (planeModel benchModel lampModel treeModel : Model) (render_pass : Int) (depthMap : Nat)
    (t0 t1 t2 : Int) :
    ∃ res, RenderObjects (FrameLibrary.exact T location subroutine).toLibrary
        { sc with textureID := [t0, t1, t2] } shader planeModel benchModel lampModel treeModel
        render_pass depthMap = Except.ok res ∧
      (glmMat3 res.1.planeModelMatrix).det = 100 ∧
      (glmMat3 res.1.lampModelMatrix).det = 1 / 64 ∧
      (glmMat3 res.1.benchModelMatrix).det = (5368709 / 536870912) ^ 3 ∧
      (glmMat3 res.1.treeModelMatrix).det = 27 / 8 ∧
      (∀ view : Mat4 K, glmDeterminant3 (glmMat3 (view * res.1.planeModelMatrix))
        = (glmMat3 view).det * (glmMat3 res.1.planeModelMatrix).det) ∧
      (∀ view : Mat4 K, glmDeterminant3 (glmMat3 (view * res.1.lampModelMatrix))
        = (glmMat3 view).det * (glmMat3 res.1.lampModelMatrix).det) ∧
      (∀ view : Mat4 K, glmDeterminant3 (glmMat3 (view * res.1.benchModelMatrix))
        = (glmMat3 view).det * (glmMat3 res.1.benchModelMatrix).det) ∧
      (∀ view : Mat4 K, glmDeterminant3 (glmMat3 (view * res.1.treeModelMatrix))
        = (glmMat3 view).det * (glmMat3 res.1.treeModelMatrix).det) ∧
      res.1.planeNormalMatrix = glmInverseTranspose (glmMat3 (sc.view * res.1.planeModelMatrix)) ∧
      res.1.lampNormalMatrix = glmInverseTranspose (glmMat3 (sc.view * res.1.lampModelMatrix)) ∧
      res.1.benchNormalMatrix = glmInverseTranspose (glmMat3 (sc.view * res.1.benchModelMatrix)) ∧
      res.1.treeNormalMatrix = glmInverseTranspose (glmMat3 (sc.view * res.1.treeModelMatrix)) := by
  obtain ⟨res, h, hp, hl, hb, ht, np, nl, nb, nt⟩ :=
    RenderObjects_exact T hinv location subroutine sc shader planeModel benchModel lampModel
      treeModel render_pass depthMap t0 t1 t2
  refine ⟨res, h, ?_, ?_, ?_, ?_, ?_, ?_, ?_, ?_, np, nl, nb, nt⟩
  · rw [hp, det_glmMat3_ts]
    norm_num
  · rw [hl, det_glmMat3_trs, hcs]
    norm_num
  · rw [hb, det_glmMat3_trs, hcs]
    norm_num
  · rw [ht, det_glmMat3_trs, hcs]
    norm_num
  · intro view
    exact det_view_model view _ (by rw [hp]; exact ts_bottom _ _)
  · intro view
    exact det_view_model view _ (by rw [hl]; exact trs_bottom _ _ _ _)
  · intro view
    exact det_view_model view _ (by rw [hb]; exact trs_bottom _ _ _ _)
  · intro view
    exact det_view_model view _ (by rw [ht]; exact trs_bottom _ _ _ _)

/-- The cosine and the sine of `Scalars.rational`: their squares add up to 1. -/
theorem Scalars.rational_cos_sin (a : ℚ) :
    Scalars.rational.cos a * Scalars.rational.cos a
      + Scalars.rational.sin a * Scalars.rational.sin a = 1 := by
  have h : (1 : ℚ) + a * a ≠ 0 := ne_of_gt (by have := mul_self_nonneg a; linarith)
  simp only [Scalars.rational]
  field_simp
  ring

/-- C18: with GLM in exact arithmetic, for every `orientationY` the lamp, bench and tree
model matrices are translation times rotation about Y (by `orientationY`, in degrees) times
scaling (the bench by the value `5368709 / 2^29` of the literal `0.01f`), the plane matrix is
the translation by `(0, -1, 0)` times the scaling by `(10, 1, 10)`, in which `orientationY`
does not occur; such a product scales a vertex first, then rotates it, then translates it,
and sends the origin of the object to the position `(-3, -1, 3)` of the lamp, `(0, -1, 0)` of
the bench, `(5, -1, 5)` of the tree. -/
theorem C18_model_matrix_is_translate_rotate_scale {K : Type} [Field K] [CharZero K]
    (T : Scalars K) (hinv : T.inversesqrt 1 = 1) (location : Nat → String → Int)
    (subroutine : Nat → String → Nat) (sc : Scene K (Mat4 K) (Mat3 K)) (shader : Shader)
    (planeModel benchModel lampModel treeModel : Model) (render_pass : Int) (depthMap : Nat)
    (t0 t1 t2 : Int) :
    ∃ res, RenderObjects (FrameLibrary.exact T location subroutine).toLibrary
        { sc with textureID := [t0, t1, t2] } shader planeModel benchModel lampModel treeModel
        render_pass depthMap = Except.ok res ∧
      res.1.lampModelMatrix =
        translation (-3, -1, 3) *
          rotationY (T.cos (T.radians sc.orientationY)) (T.sin (T.radians sc.orientationY)) *
          scaling (1 / 4, 1 / 4, 1 / 4) ∧
      res.1.benchModelMatrix =
        translation (0, -1, 0) *
          rotationY (T.cos (T.radians sc.orientationY)) (T.sin (T.radians sc.orientationY)) *
          scaling (5368709 / 536870912, 5368709 / 536870912, 5368709 / 536870912) ∧
      res.1.treeModelMatrix =
        translation (5, -1, 5) *
          rotationY (T.cos (T.radians sc.orientationY)) (T.sin (T.radians sc.orientationY)) *
          scaling (3 / 2, 3 / 2, 3 / 2) ∧
      res.1.planeModelMatrix = translation (0, -1, 0) * scaling (10, 1, 10) ∧
      Matrix.mulVec res.1.lampModelMatrix ![0, 0, 0, 1] = ![-3, -1, 3, 1] ∧
      Matrix.mulVec res.1.benchModelMatrix ![0, 0, 0, 1] = ![0, -1, 0, 1] ∧
      Matrix.mulVec res.1.treeModelMatrix ![0, 0, 0, 1] = ![5, -1, 5, 1] ∧
      ∀ (v w : K × K × K) (c s : K) (p : Fin 4 → K),
        Matrix.mulVec (translation v * rotationY c s * scaling w) p
          = Matrix.mulVec (translation v)
              (Matrix.mulVec (rotationY c s) (Matrix.mulVec (scaling w) p)) := by
  obtain ⟨res, h, hp, hl, hb, ht, _⟩ :=
    RenderObjects_exact T hinv location subroutine sc shader planeModel benchModel lampModel
      treeModel render_pass depthMap t0 t1 t2
  refine ⟨res, h, hl, hb, ht, hp, ?_, ?_, ?_, ?_⟩
  · rw [hl, trs_origin]
  · rw [hb, trs_origin]
  · rw [ht, trs_origin]
  · intro v w c s p
    rw [Matrix.mulVec_mulVec, Matrix.mulVec_mulVec]

/-- Witness of C18: over the rationals, with `orientationY` the angle of cosine 3/5 and sine
4/5. -/
theorem C18_model_matrix_is_translate_rotate_scale_witness :
    ∃ res, RenderObjects
        (FrameLibrary.exact Scalars.rational (fun _ _ => 0) (fun _ _ => 0)).toLibrary
        { Scene.rational with textureID := [11, 12, 13] } (Shader.mk 1) 20 21 22 23 RENDER 7
        = Except.ok res ∧
      res.1.lampModelMatrix =
        translation (-3, -1, 3) * rotationY (3 / 5) (4 / 5) * scaling (1 / 4, 1 / 4, 1 / 4) ∧
      Matrix.mulVec res.1.lampModelMatrix ![0, 0, 0, 1] = ![-3, -1, 3, 1] := by
  obtain ⟨res, h, hl, _, _, _, ho, _⟩ :=
    C18_model_matrix_is_translate_rotate_scale Scalars.rational rfl (fun _ _ => 0)
      (fun _ _ => 0) Scene.rational (Shader.mk 1) 20 21 22 23 RENDER 7 11 12 13
  refine ⟨res, h, ?_, ho⟩
  rw [hl]
  norm_num [Scalars.rational, Scene.rational]

/-- C16, as stated, fails in two places. The bench is scaled by the literal `0.01f`, whose
value is `5368709 / 2^29` and not a hundredth, so the determinant of the upper 3x3 part of
its model matrix is the cube of that value and not `10^(-6)`. And an invertible view matrix
is not enough for the normal matrices: the matrix that exchanges the third and the fourth
coordinate is its own inverse, yet with it as view the determinant that
`glm::inverseTranspose` divides by is zero for each of the four objects. -/
theorem C16_bench_scale_and_exchanged_view :
    floatLiteral (1 / 100) = 5368709 / 536870912 ∧
    (∃ res, RenderObjects
        (FrameLibrary.exact Scalars.rational (fun _ _ => 0) (fun _ _ => 0)).toLibrary
        { Scene.rational with textureID := [11, 12, 13] } (Shader.mk 1) 20 21 22 23 RENDER 7
        = Except.ok res ∧
      (glmMat3 res.1.benchModelMatrix).det = (5368709 / 536870912) ^ 3 ∧
      (glmMat3 res.1.benchModelMatrix).det ≠ 1 / 1000000) ∧
    Scene.exchanged.view * Scene.exchanged.view = 1 ∧
    Scene.exchanged.view.det ≠ 0 ∧
    ∃ res, RenderObjects
        (FrameLibrary.exact Scalars.rational (fun _ _ => 0) (fun _ _ => 0)).toLibrary
        { Scene.exchanged with textureID := [11, 12, 13] } (Shader.mk 1) 20 21 22 23 RENDER 7
        = Except.ok res ∧
      glmDeterminant3 (glmMat3 (Scene.exchanged.view * res.1.planeModelMatrix)) = 0 ∧
      glmDeterminant3 (glmMat3 (Scene.exchanged.view * res.1.lampModelMatrix)) = 0 ∧
      glmDeterminant3 (glmMat3 (Scene.exchanged.view * res.1.benchModelMatrix)) = 0 ∧
      glmDeterminant3 (glmMat3 (Scene.exchanged.view * res.1.treeModelMatrix)) = 0 := by
  have hsq : Scene.exchanged.view * Scene.exchanged.view = 1 := by
    ext i j
    fin_cases i <;> fin_cases j <;>
      simp [Scene.exchanged, Matrix.mul_apply, Fin.sum_univ_four, Matrix.vecHead,
        Matrix.vecTail]
  have hdet : Scene.exchanged.view.det ≠ 0 := by
    intro h0
    have h1 := congrArg Matrix.det hsq
    rw [Matrix.det_mul, h0, Matrix.det_one] at h1
    norm_num at h1
  have h3 : (glmMat3 Scene.exchanged.view).det = 0 := by
    rw [Matrix.det_fin_three]
    simp [glmMat3, Scene.exchanged, Matrix.vecHead, Matrix.vecTail, castSucc_two,
      castSucc_one, castSucc_zero]
  refine ⟨floatLiteral_hundredth, ?_, hsq, hdet, ?_⟩
  · obtain ⟨res, h, _, _, db, _⟩ :=
      RenderObjects_exact_det Scalars.rational rfl Scalars.rational_cos_sin (fun _ _ => 0)
        (fun _ _ => 0) Scene.rational (Shader.mk 1) 20 21 22 23 RENDER 7 11 12 13
    refine ⟨res, h, db, ?_⟩
    rw [db]
    norm_num
  · obtain ⟨res, h, _, _, _, _, vp, vl, vb, vt, _⟩ :=
      RenderObjects_exact_det Scalars.rational rfl Scalars.rational_cos_sin (fun _ _ => 0)
        (fun _ _ => 0) Scene.exchanged (Shader.mk 1) 20 21 22 23 RENDER 7 11 12 13
    refine ⟨res, h, ?_, ?_, ?_, ?_⟩
    · rw [vp, h3, zero_mul]
    · rw [vl, h3, zero_mul]
    · rw [vb, h3, zero_mul]
    · rw [vt, h3, zero_mul]

/-- C16, amended: with GLM in exact arithmetic on the values of the `float` literals, and a
cosine and a sine whose squares add up to 1, for every `orientationY` the upper 3x3 part of
the model matrix of each object has as determinant the product of the scale factors of the
object: 100 for the plane, 1/64 for the lamp, the cube of `5368709 / 2^29` for the bench,
27/8 for the tree. The determinant that `glm::inverseTranspose` divides by is that of the
upper 3x3 part of the view times this one; when the upper 3x3 part of the view is
invertible it is not zero for any object, and the normal matrix `RenderObjects` stores is
the transpose of the inverse of the upper 3x3 part of view times model. For a view with the
bottom row `0 0 0 1` the determinant of the upper 3x3 part is that of the view. -/
theorem C16_model_matrices_are_non_singular {K : Type} [Field K] [CharZero K]
    (T : Scalars K) (hinv : T.inversesqrt 1 = 1)
    (hcs : ∀ a, T.cos a * T.cos a + T.sin a * T.sin a = 1)
    (location : Nat → String → Int) (subroutine : Nat → String → Nat)
    (sc : Scene K (Mat4 K) (Mat3 K))
    (hview : (glmMat3 sc.view).det ≠ 0)
    (shader : Shader) (planeModel benchModel lampModel treeModel : Model)
    (render_pass : Int) (depthMap : Nat) (t0 t1 t2 : Int) :
    ∃ res, RenderObjects (FrameLibrary.exact T location subroutine).toLibrary
        { sc with textureID := [t0, t1, t2] } shader planeModel benchModel lampModel treeModel
        render_pass depthMap = Except.ok res ∧
      (glmMat3 res.1.planeModelMatrix).det = 100 ∧
      (glmMat3 res.1.lampModelMatrix).det = 1 / 64 ∧
      (glmMat3 res.1.benchModelMatrix).det = (5368709 / 536870912) ^ 3 ∧
      (glmMat3 res.1.treeModelMatrix).det = 27 / 8 ∧
      (glmMat3 res.1.benchModelMatrix).det ≠ 0 ∧
      glmDeterminant3 (glmMat3 (sc.view * res.1.planeModelMatrix))
        = (glmMat3 sc.view).det * 100 ∧
      glmDeterminant3 (glmMat3 (sc.view * res.1.lampModelMatrix))
        = (glmMat3 sc.view).det * (1 / 64) ∧
      glmDeterminant3 (glmMat3 (sc.view * res.1.benchModelMatrix))
        = (glmMat3 sc.view).det * (5368709 / 536870912) ^ 3 ∧
      glmDeterminant3 (glmMat3 (sc.view * res.1.treeModelMatrix))
        = (glmMat3 sc.view).det * (27 / 8) ∧
      glmDeterminant3 (glmMat3 (sc.view * res.1.planeModelMatrix)) ≠ 0 ∧
      glmDeterminant3 (glmMat3 (sc.view * res.1.lampModelMatrix)) ≠ 0 ∧
      glmDeterminant3 (glmMat3 (sc.view * res.1.benchModelMatrix)) ≠ 0 ∧
      glmDeterminant3 (glmMat3 (sc.view * res.1.treeModelMatrix)) ≠ 0 ∧
      res.1.planeNormalMatrix.transpose * glmMat3 (sc.view * res.1.planeModelMatrix) = 1 ∧
      res.1.lampNormalMatrix.transpose * glmMat3 (sc.view * res.1.lampModelMatrix) = 1 ∧
      res.1.benchNormalMatrix.transpose * glmMat3 (sc.view * res.1.benchModelMatrix) = 1 ∧
      res.1.treeNormalMatrix.transpose * glmMat3 (sc.view * res.1.treeModelMatrix) = 1 ∧
      ((∀ j : Fin 3, sc.view 3 (Fin.castSucc j) = 0) → sc.view 3 3 = 1 →
        sc.view.det = (glmMat3 sc.view).det) := by
  obtain ⟨res, h, dp, dl, db, dt, wp, wl, wb, wt, np, nl, nb, nt⟩ :=
    RenderObjects_exact_det T hinv hcs location subroutine sc shader planeModel benchModel
      lampModel treeModel render_pass depthMap t0 t1 t2
  have ep := wp sc.view
  have el := wl sc.view
  have eb := wb sc.view
  have et := wt sc.view
  rw [dp] at ep
  rw [dl] at el
  rw [db] at eb
  rw [dt] at et
  have vp : glmDeterminant3 (glmMat3 (sc.view * res.1.planeModelMatrix)) ≠ 0 := by
    rw [ep]
    exact mul_ne_zero hview (by norm_num)
  have vl : glmDeterminant3 (glmMat3 (sc.view * res.1.lampModelMatrix)) ≠ 0 := by
    rw [el]
    exact mul_ne_zero hview (by norm_num)
  have vb : glmDeterminant3 (glmMat3 (sc.view * res.1.benchModelMatrix)) ≠ 0 := by
    rw [eb]
    exact mul_ne_zero hview (by norm_num)
  have vt : glmDeterminant3 (glmMat3 (sc.view * res.1.treeModelMatrix)) ≠ 0 := by
    rw [et]
    exact mul_ne_zero hview (by norm_num)
  refine ⟨res, h, dp, dl, db, dt, ?_, ep, el, eb, et, vp, vl, vb, vt, ?_, ?_, ?_, ?_, ?_⟩
  · rw [db]
    norm_num
  · rw [np]
    exact glmInverseTranspose_spec _ vp
  · rw [nl]
    exact glmInverseTranspose_spec _ vl
  · rw [nb]
    exact glmInverseTranspose_spec _ vb
  · rw [nt]
    exact glmInverseTranspose_spec _ vt
  · intro hrow hone
    exact det_affine sc.view hrow hone

/-- Witness of C16: over the rationals, with the identity as view. -/
theorem C16_model_matrices_are_non_singular_witness :
    ∃ res, RenderObjects
        (FrameLibrary.exact Scalars.rational (fun _ _ => 0) (fun _ _ => 0)).toLibrary
        { Scene.rational with textureID := [11, 12, 13] } (Shader.mk 1) 20 21 22 23 RENDER 7
        = Except.ok res ∧
      (glmMat3 res.1.planeModelMatrix).det = 100 ∧
      (glmMat3 res.1.lampModelMatrix).det = 1 / 64 ∧
      (glmMat3 res.1.benchModelMatrix).det = (5368709 / 536870912) ^ 3 ∧
      (glmMat3 res.1.treeModelMatrix).det = 27 / 8 ∧
      res.1.lampNormalMatrix.transpose * glmMat3 (Scene.rational.view * res.1.lampModelMatrix)
        = 1 := by
  obtain ⟨res, h, dp, dl, db, dt, _, _, _, _, _, _, _, _, _, _, nl, _⟩ :=
    C16_model_matrices_are_non_singular Scalars.rational rfl Scalars.rational_cos_sin
      (fun _ _ => 0) (fun _ _ => 0) Scene.rational
      (by
        rw [Matrix.det_fin_three]
        simp [glmMat3, Scene.rational, castSucc_two, castSucc_one, castSucc_zero])
      (Shader.mk 1) 20 21 22 23 RENDER 7 11 12 13
  exact ⟨res, h, dp, dl, db, dt, nl⟩

/-- C12: with GLM in exact arithmetic (its arguments are `float` values), the orthographic
projection of the light, `glm::ortho(-5, 5, -5, 5, -10, 10)`, is the diagonal matrix with the entries 1/5, 1/5, -1/10,
1. A point `(x, y, z, 1)` with `|x| ≤ 5`, `|y| ≤ 5` and `-10 ≤ z ≤ 10` is sent to coordinates
between -1 and 1 with `w = 1`, and its depth `0.5 * z_ndc + 0.5` lies between 0 and 1. -/
theorem C12_light_projection_is_diagonal {K : Type} [LinearOrderedField K] (T : Scalars K)
    (location : Nat → String → Int) (subroutine : Nat → String → Nat) :
    (FrameLibrary.exact T location subroutine).ortho
        ((FrameLibrary.exact T location subroutine).lit (-5))
        ((FrameLibrary.exact T location subroutine).lit 5)
        ((FrameLibrary.exact T location subroutine).lit (-5))
        ((FrameLibrary.exact T location subroutine).lit 5)
        ((FrameLibrary.exact T location subroutine).lit (-10))
        ((FrameLibrary.exact T location subroutine).lit 10)
      = glmOrtho (-5) 5 (-5) 5 (-10) 10 ∧
    glmOrtho (-5 : K) 5 (-5) 5 (-10) 10 = Matrix.diagonal ![1 / 5, 1 / 5, -1 / 10, 1] ∧
    ∀ x y z : K, |x| ≤ 5 → |y| ≤ 5 → -10 ≤ z → z ≤ 10 →
      Matrix.mulVec (glmOrtho (-5 : K) 5 (-5) 5 (-10) 10) ![x, y, z, 1]
        = ![x / 5, y / 5, -z / 10, 1] ∧
      (-1 ≤ x / 5 ∧ x / 5 ≤ 1) ∧ (-1 ≤ y / 5 ∧ y / 5 ≤ 1) ∧
      (-1 ≤ -z / 10 ∧ -z / 10 ≤ 1) ∧
      (0 ≤ 1 / 2 * (-z / 10) + 1 / 2 ∧ 1 / 2 * (-z / 10) + 1 / 2 ≤ 1) := by
  have hdiag : glmOrtho (-5 : K) 5 (-5) 5 (-10) 10
      = Matrix.diagonal ![1 / 5, 1 / 5, -1 / 10, 1] := by
    ext i j
    fin_cases i <;> fin_cases j <;>
      simp [glmOrtho, Matrix.diagonal, Matrix.vecHead, Matrix.vecTail] <;> norm_num
  refine ⟨?_, hdiag, ?_⟩
  · simp only [FrameLibrary.exact, floatLiteral_five, floatLiteral_neg_five, floatLiteral_ten,
      floatLiteral_neg_ten]
    norm_num
  · intro x y z hx hy hz1 hz2
    obtain ⟨hx1, hx2⟩ := abs_le.mp hx
    obtain ⟨hy1, hy2⟩ := abs_le.mp hy
    refine ⟨?_, ⟨?_, ?_⟩, ⟨?_, ?_⟩, ⟨?_, ?_⟩, ⟨?_, ?_⟩⟩
    · rw [hdiag]
      ext i
      fin_cases i <;>
        simp [Matrix.mulVec, Matrix.dotProduct, Fin.sum_univ_four, Matrix.diagonal,
          Matrix.vecHead, Matrix.vecTail] <;> ring
    all_goals linarith

/-! ## Lookups outside the depth target -/

/-- The bottom row of a matrix built by `glm::lookAt` is `0 0 0 1`, as that of the
identity: the rows the view matrices of the program have. -/
theorem glmLookAt_bottom {K : Type} [Field K] (T : Scalars K) (eye center up : K × K × K) :
    (∀ j : Fin 3, (glmLookAt T eye center up) 3 (Fin.castSucc j) = 0) ∧
    (glmLookAt T eye center up) 3 3 = 1 := by
  constructor
  · intro j
    fin_cases j <;>
      simp [glmLookAt, Matrix.vecHead, Matrix.vecTail, castSucc_two, castSucc_one,
        castSucc_zero]
  · simp [glmLookAt, Matrix.vecHead, Matrix.vecTail]

/-- Witness of C17: an iteration without events, three variants found at start-up, over
`FrameLibrary.blank`: it returns, with twelve uploads of 4x4 matrices. -/
theorem C17_light_space_matrix_is_shared_witness :
    ∃ frame, renderFrame FrameLibrary.blank Assets.blank State.threeVariants
        (Clock.mk Fp.zero Fp.zero) { Scene.blank with textureID := [11, 12, 13] }
        (Fp.ofScaled 1 6) [] () = Except.ok frame ∧
      (matrix4Uploads frame.calls).length = 12 := by
  obtain ⟨htotal, hshared⟩ :=
    C17_light_space_matrix_is_shared FrameLibrary.blank Assets.blank State.threeVariants
      (Clock.mk Fp.zero Fp.zero) Scene.blank 11 12 13 (Fp.ofScaled 1 6) [] ()
  obtain ⟨frame, hframe⟩ := htotal State.threeVariants "Naive" rfl rfl
  obtain ⟨depthModels, litModels, hup, hd, hl, _, _⟩ := hshared frame hframe
  refine ⟨frame, hframe, ?_⟩
  rw [hup]
  simp [hd, hl]

/-! ## Indices into `textureID` -/

/-- C21: `main` leaves exactly three textures in `textureID`, those of the three calls of
`LoadTexture` in their order, whatever the loads answer. On that vector the reads
`textureID[1]`, `textureID[0]` and `textureID[2]` are in range, and `RenderObjects`, for any
value of `render_pass` (so in the depth pass and in the lit pass), returns, leaves
`textureID` as it was, and binds, after the shadow map in the lit pass, the textures of index
1, 0, 0, 2 for plane, lamp, bench, tree. On any vector, `RenderObjects` returns exactly when
the vector holds at least three textures. -/
theorem C21_texture_indices_are_in_range {V M4 M3 : Type} (L : Library V M4 M3)
    (sc : Scene V M4 M3) (shader : Shader) (planeModel benchModel lampModel treeModel : Model)
    (render_pass : Int) (depthMap : Nat) (s : State) (grid soil bark : TextureAnswer) :
    (main_textures s [] grid soil bark).2 =
      [toGLint grid.textureImage, toGLint soil.textureImage, toGLint bark.textureImage] ∧
    (main_textures s [] grid soil bark).2.length = 3 ∧
    textureAt (main_textures s [] grid soil bark).2 1 = Except.ok (toGLint soil.textureImage) ∧
    textureAt (main_textures s [] grid soil bark).2 0 = Except.ok (toGLint grid.textureImage) ∧
    textureAt (main_textures s [] grid soil bark).2 2 = Except.ok (toGLint bark.textureImage) ∧
    (∃ res, RenderObjects L { sc with textureID := (main_textures s [] grid soil bark).2 }
        shader planeModel benchModel lampModel treeModel render_pass depthMap = Except.ok res ∧
      res.1.textureID = (main_textures s [] grid soil bark).2 ∧
      res.2.filter GLCall.isBindTexture =
        (if render_pass = RENDER then [GLCall.bindTexture depthMap] else []) ++
        [GLCall.bindTexture (toGLuint (toGLint soil.textureImage)),
         GLCall.bindTexture (toGLuint (toGLint grid.textureImage)),
         GLCall.bindTexture (toGLuint (toGLint grid.textureImage)),
         GLCall.bindTexture (toGLuint (toGLint bark.textureImage))]) ∧
    ∀ textureID : List Int,
      (∃ res, RenderObjects L { sc with textureID := textureID } shader planeModel benchModel
        lampModel treeModel render_pass depthMap = Except.ok res) ↔ 3 ≤ textureID.length := by
  refine ⟨rfl, rfl, rfl, rfl, rfl, ⟨_, rfl, rfl, ?_⟩, ?_⟩
  · by_cases hr : render_pass = RENDER
    · simp [hr, GLCall.isBindTexture]
      exact ⟨rfl, rfl, rfl⟩
    · simp [hr, GLCall.isBindTexture]
      exact ⟨rfl, rfl, rfl⟩
  · intro textureID
    match textureID with
    | [] =>
      constructor
      · rintro ⟨res, h⟩
        exact Except.noConfusion h
      · intro h
        simp at h
    | [_] =>
      constructor
      · rintro ⟨res, h⟩
        exact Except.noConfusion h
      · intro h
        simp at h
    | [_, _] =>
      constructor
      · rintro ⟨res, h⟩
        exact Except.noConfusion h
      · intro h
        simp at h
    | t0 :: t1 :: t2 :: rest =>
      constructor
      · intro _
        simp
      · intro _
        simp only [RenderObjects, textureAt, List.getElem?_cons_succ, List.getElem?_cons_zero,
          bind, Except.bind, pure, Except.pure]
        exact ⟨_, rfl⟩

/-! ## The polygon mode across iterations -/

/-- The mouse callback leaves the subroutines and the wireframe flag alone. -/
theorem mouse_callback_valid (s : State) (xpos ypos : Fp) :
    (mouse_callback s xpos ypos).shaders = s.shaders ∧
    (mouse_callback s xpos ypos).current_subroutine = s.current_subroutine := by
  unfold mouse_callback
  by_cases h : s.firstMouse = true <;> simp [h]

/-- The events of one `glfwPollEvents()` are all handled when the writes to `keys` are
inside the array. -/
theorem pollEvents_total (events : List InputEvent) (s : State)
    (hb : ∀ e ∈ events, e.inBounds) : ∃ s', pollEvents s events = Except.ok s' := by
  induction events generalizing s with
  | nil => exact ⟨s, rfl⟩
  | cons e es ih =>
    have hrest : ∀ x ∈ es, x.inBounds := fun x hx => hb x (List.mem_cons_of_mem e hx)
    cases e with
    | key e =>
      obtain ⟨s1, h1⟩ := key_callback_total s e.key e.scancode e.action e.mode
        (hb (InputEvent.key e) (List.mem_cons_self _ _))
      obtain ⟨s', h'⟩ := ih s1 hrest
      refine ⟨s', ?_⟩
      simp only [pollEvents, h1]
      exact h'
    | mouse xpos ypos =>
      obtain ⟨s', h'⟩ := ih (mouse_callback s xpos ypos) hrest
      refine ⟨s', ?_⟩
      simp only [pollEvents]
      exact h'

/-- The events of one `glfwPollEvents()` keep the subroutine index valid. -/
theorem pollEvents_preserves_valid (events : List InputEvent) (s s' : State)
    (h : pollEvents s events = Except.ok s')
    (hv : s.current_subroutine < s.shaders.length) :
    s'.current_subroutine < s'.shaders.length := by
  induction events generalizing s with
  | nil =>
    simp only [pollEvents] at h
    injection h with h
    subst h
    exact hv
  | cons e es ih =>
    cases e with
    | key e =>
      simp only [pollEvents] at h
      split at h
      · rename_i s1 h1
        exact ih s1 h
          (key_callback_preserves_valid s s1 e.key e.scancode e.action e.mode h1 hv).2
      · exact Except.noConfusion h
    | mouse xpos ypos =>
      simp only [pollEvents] at h
      refine ih _ h ?_
      obtain ⟨h1, h2⟩ := mouse_callback_valid s xpos ypos
      rw [h1, h2]
      exact hv

theorem RasterState.run_append {V M4 M3 : Type} (xs ys : List (FrameCall V M4 M3))
    (g : RasterState) : RasterState.run g (xs ++ ys) = RasterState.run (RasterState.run g xs) ys := by
  induction xs generalizing g with
  | nil => rfl
  | cons x xs ih => exact ih (g.step x)

theorem rasterAtDraws_append {V M4 M3 : Type} (xs ys : List (FrameCall V M4 M3))
    (g : RasterState) :
    rasterAtDraws g (xs ++ ys) = rasterAtDraws g xs ++ rasterAtDraws (RasterState.run g xs) ys := by
  induction xs generalizing g with
  | nil => rfl
  | cons x xs ih =>
    cases x with
    | gl call => cases call <;> simp [rasterAtDraws, RasterState.run, RasterState.step, ih]
    | _ => simp [rasterAtDraws, RasterState.run, RasterState.step, ih]

theorem allCalls_append {V M4 M3 : Type} (xs ys : List (Frame V M4 M3)) :
    allCalls (xs ++ ys) = allCalls xs ++ allCalls ys := by
  induction xs with
  | nil => rfl
  | cons x xs ih =>
    show x.calls ++ allCalls (xs ++ ys) = x.calls ++ allCalls xs ++ allCalls ys
    rw [ih, List.append_assoc]

/-- The depth pass on a scene with three textures: the state of rasterisation at its four
draws and after it; it does not set the polygon mode. -/
theorem depthPass_raster {V M4 M3 : Type} (L : FrameLibrary V M4 M3) (a : Assets M4)
    (sc : Scene V M4 M3) (t0 t1 t2 : Int) :
    ∃ res, depthPass L a { sc with textureID := [t0, t1, t2] } = Except.ok res ∧
      (∀ g : RasterState,
        rasterAtDraws g res.2.2 =
          [(a.planeModel, RasterState.mk a.depthMapFBO g.line),
           (a.lampModel, RasterState.mk a.depthMapFBO g.line),
           (a.benchModel, RasterState.mk a.depthMapFBO g.line),
           (a.treeModel, RasterState.mk a.depthMapFBO g.line)] ∧
        RasterState.run g res.2.2 = RasterState.mk a.depthMapFBO g.line) ∧
      res.2.2.filter FrameCall.isDrawOrPolygonMode =
        [FrameCall.gl (GLCall.draw a.planeModel), FrameCall.gl (GLCall.draw a.lampModel),
         FrameCall.gl (GLCall.draw a.benchModel), FrameCall.gl (GLCall.draw a.treeModel)] := by
  refine ⟨_, rfl, ?_, ?_⟩
  · intro g
    simp [SHADOWMAP, RENDER, rasterAtDraws, RasterState.run, RasterState.step]
  · simp [SHADOWMAP, RENDER, FrameCall.isDrawOrPolygonMode]

/-- The lit pass on a scene with three textures and a valid subroutine index: it keeps the
textures, sets the polygon mode from the wireframe flag before its four draws, and draws to
the default framebuffer. -/
theorem litPass_raster {V M4 M3 : Type} (L : FrameLibrary V M4 M3) (a : Assets M4) (s : State)
    (sc : Scene V M4 M3) (t0 t1 t2 : Int) (lightSpaceMatrix cameraView : M4) (name : String)
    (hname : currentSubroutineName s = Except.ok name) :
    ∃ res, litPass L a s { sc with textureID := [t0, t1, t2] } lightSpaceMatrix cameraView
        = Except.ok res ∧
      res.1.textureID = [t0, t1, t2] ∧
      (∀ g : RasterState,
        rasterAtDraws g res.2 =
          [(a.planeModel, RasterState.mk 0 s.wireframe),
           (a.lampModel, RasterState.mk 0 s.wireframe),
           (a.benchModel, RasterState.mk 0 s.wireframe),
           (a.treeModel, RasterState.mk 0 s.wireframe)] ∧
        RasterState.run g res.2 = RasterState.mk 0 s.wireframe) ∧
      res.2.filter FrameCall.isDrawOrPolygonMode =
        [FrameCall.polygonMode s.wireframe,
         FrameCall.gl (GLCall.draw a.planeModel), FrameCall.gl (GLCall.draw a.lampModel),
         FrameCall.gl (GLCall.draw a.benchModel), FrameCall.gl (GLCall.draw a.treeModel)] := by
  unfold litPass
  rw [hname]
  refine ⟨_, rfl, rfl, ?_, ?_⟩
  · intro g
    simp [RENDER, rasterAtDraws, RasterState.run, RasterState.step]
  · simp [RENDER, FrameCall.isDrawOrPolygonMode]

/-- One iteration on a scene with three textures that returns: the textures stay, the state
it leaves is the one after the events, and the state of rasterisation at its eight draws is
the polygon mode found at its start for the four draws to the depth target, the wireframe
flag after the events for the four draws to the default framebuffer. -/
theorem renderFrame_raster {V M4 M3 : Type} (L : FrameLibrary V M4 M3) (a : Assets M4)
    (s : State) (clock : Clock) (sc : Scene V M4 M3) (t0 t1 t2 : Int) (time : Fp)
    (events : List InputEvent) (cameraView : M4) (frame : Frame V M4 M3)
    (h : renderFrame L a s clock { sc with textureID := [t0, t1, t2] } time events cameraView
      = Except.ok frame) :
    frame.scene.textureID = [t0, t1, t2] ∧
    pollEvents s events = Except.ok frame.state ∧
    (∀ g : RasterState,
      rasterAtDraws g frame.calls =
        [(a.planeModel, RasterState.mk a.depthMapFBO g.line),
         (a.lampModel, RasterState.mk a.depthMapFBO g.line),
         (a.benchModel, RasterState.mk a.depthMapFBO g.line),
         (a.treeModel, RasterState.mk a.depthMapFBO g.line),
         (a.planeModel, RasterState.mk 0 frame.state.wireframe),
         (a.lampModel, RasterState.mk 0 frame.state.wireframe),
         (a.benchModel, RasterState.mk 0 frame.state.wireframe),
         (a.treeModel, RasterState.mk 0 frame.state.wireframe)] ∧
      RasterState.run g frame.calls = RasterState.mk 0 frame.state.wireframe) ∧
    frame.calls.filter FrameCall.isDrawOrPolygonMode =
      [FrameCall.gl (GLCall.draw a.planeModel), FrameCall.gl (GLCall.draw a.lampModel),
       FrameCall.gl (GLCall.draw a.benchModel), FrameCall.gl (GLCall.draw a.treeModel),
       FrameCall.polygonMode frame.state.wireframe,
       FrameCall.gl (GLCall.draw a.planeModel), FrameCall.gl (GLCall.draw a.lampModel),
       FrameCall.gl (GLCall.draw a.benchModel), FrameCall.gl (GLCall.draw a.treeModel)] := by
  obtain ⟨d, hd, _, htex, _⟩ := depthPass_eq L a sc t0 t1 t2
  obtain ⟨d', hd', hdraws, hdfilter⟩ := depthPass_raster L a sc t0 t1 t2
  rw [hd] at hd'
  injection hd' with hd'
  subst hd'
  unfold renderFrame at h
  cases hp : pollEvents s events with
  | error f =>
    simp only [hp, bind, Except.bind] at h
    exact Except.noConfusion h
  | ok s' =>
    simp only [hp, hd, bind, Except.bind] at h
    cases hl : litPass L a s' d.2.1 d.1 cameraView with
    | error f =>
      simp only [hl] at h
      exact Except.noConfusion h
    | ok l =>
      simp only [hl, pure, Except.pure] at h
      injection h with h
      subst h
      have hname : ∃ name, currentSubroutineName s' = Except.ok name := by
        cases hn : currentSubroutineName s' with
        | ok name => exact ⟨name, rfl⟩
        | error f =>
          unfold litPass at hl
          simp only [hn, bind, Except.bind] at hl
          exact Except.noConfusion hl
      obtain ⟨name, hname⟩ := hname
      obtain ⟨l', hl', hltex, hldraws, hlfilter⟩ :=
        litPass_raster L a s' d.2.1 t0 t1 t2 d.1 cameraView name hname
      rw [← Scene.eq_of_textures d.2.1 t0 t1 t2 htex, hl] at hl'
      injection hl' with hl'
      subst hl'
      refine ⟨hltex, rfl, ?_, ?_⟩
      · intro g
        constructor
        · show rasterAtDraws g (d.2.2 ++ l.2) = _
          rw [rasterAtDraws_append, (hdraws g).1, (hldraws _).1]
          rfl
        · show RasterState.run g (d.2.2 ++ l.2) = _
          rw [RasterState.run_append, (hldraws _).2]
      · show (d.2.2 ++ l.2).filter FrameCall.isDrawOrPolygonMode = _
        rw [List.filter_append, hdfilter, hlfilter]
        rfl

/-- The rendering loop on a scene with three textures, a valid subroutine index and events
whose writes to `keys` are inside the array: it makes its iterations without a fault, at
least one when the window is not to be closed and an input is there, and each iteration has
the draws and the polygon mode of `renderFrame_raster`. -/
theorem renderLoop_frames {V M4 M3 : Type} (L : FrameLibrary V M4 M3) (a : Assets M4)
    (t0 t1 t2 : Int) (inputs : List (FrameInput M4)) (s : State) (clock : Clock)
    (sc : Scene V M4 M3) (htex : sc.textureID = [t0, t1, t2])
    (hvalid : s.current_subroutine < s.shaders.length)
    (hbounds : ∀ input ∈ inputs, ∀ e ∈ input.events, e.inBounds) :
    ∃ frames, renderLoop L a s clock sc inputs = Except.ok frames ∧
      frames.length ≤ inputs.length ∧
      (s.shouldClose = false → inputs ≠ [] → frames ≠ []) ∧
      ∀ frame ∈ frames,
        (∀ g : RasterState,
          rasterAtDraws g frame.calls =
            [(a.planeModel, RasterState.mk a.depthMapFBO g.line),
             (a.lampModel, RasterState.mk a.depthMapFBO g.line),
             (a.benchModel, RasterState.mk a.depthMapFBO g.line),
             (a.treeModel, RasterState.mk a.depthMapFBO g.line),
             (a.planeModel, RasterState.mk 0 frame.state.wireframe),
             (a.lampModel, RasterState.mk 0 frame.state.wireframe),
             (a.benchModel, RasterState.mk 0 frame.state.wireframe),
             (a.treeModel, RasterState.mk 0 frame.state.wireframe)] ∧
          RasterState.run g frame.calls = RasterState.mk 0 frame.state.wireframe) ∧
        frame.calls.filter FrameCall.isDrawOrPolygonMode =
          [FrameCall.gl (GLCall.draw a.planeModel), FrameCall.gl (GLCall.draw a.lampModel),
           FrameCall.gl (GLCall.draw a.benchModel), FrameCall.gl (GLCall.draw a.treeModel),
           FrameCall.polygonMode frame.state.wireframe,
           FrameCall.gl (GLCall.draw a.planeModel), FrameCall.gl (GLCall.draw a.lampModel),
           FrameCall.gl (GLCall.draw a.benchModel), FrameCall.gl (GLCall.draw a.treeModel)] := by
  induction inputs generalizing s clock sc with
  | nil =>
    refine ⟨[], rfl, Nat.le_refl _, fun _ h => absurd rfl h, ?_⟩
    intro frame hf
    exact absurd hf (List.not_mem_nil frame)
  | cons input rest ih =>
    by_cases hc : s.shouldClose = true
    · refine ⟨[], ?_, Nat.zero_le _, ?_, ?_⟩
      · simp only [renderLoop, hc, if_true]
      · intro hfalse
        rw [hc] at hfalse
        exact Bool.noConfusion hfalse
      · intro frame hf
        exact absurd hf (List.not_mem_nil frame)
    · obtain ⟨s1, hp⟩ := pollEvents_total input.events s
        (hbounds input (List.mem_cons_self _ _))
      have hv1 := pollEvents_preserves_valid input.events s s1 hp hvalid
      have hname : currentSubroutineName s1 = Except.ok (s1.shaders[s1.current_subroutine]) := by
        simp [currentSubroutineName, hv1]
      obtain ⟨frame, hframe⟩ :=
        (renderFrame_eq L a s clock sc t0 t1 t2 input.time input.events input.cameraView).1
          s1 _ hp hname
      obtain ⟨hftex, hfp, hfacts⟩ := renderFrame_raster L a s clock sc t0 t1 t2 input.time
        input.events input.cameraView frame hframe
      rw [hp] at hfp
      injection hfp with hfp
      rw [hfp] at hv1
      obtain ⟨frames, hloop, hlen, _, hall⟩ := ih frame.state frame.clock frame.scene hftex hv1
        (fun x hx => hbounds x (List.mem_cons_of_mem _ hx))
      rw [← Scene.eq_of_textures sc t0 t1 t2 htex] at hframe
      refine ⟨frame :: frames, ?_, ?_, ?_, ?_⟩
      · simp only [renderLoop, hc, hframe, hloop]
        rfl
      · simp only [List.length_cons]
        omega
      · intro _ _
        exact List.cons_ne_nil _ _
      · intro f hf
        rcases List.mem_cons.mp hf with rfl | hf
        · exact hfacts
        · exact hall f hf

/-- C22: the rendering loop, started on three textures with a valid subroutine index and fed
events whose writes to `keys` are inside the array, makes its iterations without a fault (at
least one when the window is not to be closed and an input is there). In every iteration
`glPolygonMode` is called once, with the wireframe flag left by the events of that
iteration, after the four draws of the depth pass and before the four draws of the lit pass.
So, from a new OpenGL context, the four draws to the depth target are made in fill mode in
the first iteration, and in every later iteration in the mode of the wireframe flag of the
iteration before it (line mode when that flag was on), while the four draws to the default
framebuffer are made in the mode of the flag of their own iteration. -/
theorem C22_depth_pass_uses_previous_polygon_mode {V M4 M3 : Type}
    (L : FrameLibrary V M4 M3) (a : Assets M4) (s : State) (clock : Clock)
    (sc : Scene V M4 M3) (t0 t1 t2 : Int) (inputs : List (FrameInput M4))
    (hvalid : s.current_subroutine < s.shaders.length)
    (hbounds : ∀ input ∈ inputs, ∀ e ∈ input.events, e.inBounds) :
    ∃ frames, renderLoop L a s clock { sc with textureID := [t0, t1, t2] } inputs
        = Except.ok frames ∧
      (s.shouldClose = false → inputs ≠ [] → frames ≠ []) ∧
      (∀ frame ∈ frames,
        frame.calls.filter FrameCall.isDrawOrPolygonMode =
          [FrameCall.gl (GLCall.draw a.planeModel), FrameCall.gl (GLCall.draw a.lampModel),
           FrameCall.gl (GLCall.draw a.benchModel), FrameCall.gl (GLCall.draw a.treeModel),
           FrameCall.polygonMode frame.state.wireframe,
           FrameCall.gl (GLCall.draw a.planeModel), FrameCall.gl (GLCall.draw a.lampModel),
           FrameCall.gl (GLCall.draw a.benchModel), FrameCall.gl (GLCall.draw a.treeModel)]) ∧
      (∀ first, frames[0]? = some first →
        rasterAtDraws RasterState.initial first.calls =
          [(a.planeModel, RasterState.mk a.depthMapFBO false),
           (a.lampModel, RasterState.mk a.depthMapFBO false),
           (a.benchModel, RasterState.mk a.depthMapFBO false),
           (a.treeModel, RasterState.mk a.depthMapFBO false),
           (a.planeModel, RasterState.mk 0 first.state.wireframe),
           (a.lampModel, RasterState.mk 0 first.state.wireframe),
           (a.benchModel, RasterState.mk 0 first.state.wireframe),
           (a.treeModel, RasterState.mk 0 first.state.wireframe)]) ∧
      ∀ n previous current, frames[n]? = some previous → frames[n + 1]? = some current →
        rasterAtDraws (RasterState.run RasterState.initial (allCalls (frames.take (n + 1))))
            current.calls =
          [(a.planeModel, RasterState.mk a.depthMapFBO previous.state.wireframe),
           (a.lampModel, RasterState.mk a.depthMapFBO previous.state.wireframe),
           (a.benchModel, RasterState.mk a.depthMapFBO previous.state.wireframe),
           (a.treeModel, RasterState.mk a.depthMapFBO previous.state.wireframe),
           (a.planeModel, RasterState.mk 0 current.state.wireframe),
           (a.lampModel, RasterState.mk 0 current.state.wireframe),
           (a.benchModel, RasterState.mk 0 current.state.wireframe),
           (a.treeModel, RasterState.mk 0 current.state.wireframe)] := by
  obtain ⟨frames, hloop, _, hne, hall⟩ :=
    renderLoop_frames L a t0 t1 t2 inputs s clock { sc with textureID := [t0, t1, t2] } rfl
      hvalid hbounds
  refine ⟨frames, hloop, hne, fun frame hf => (hall frame hf).2, ?_, ?_⟩
  · intro first hfirst
    exact ((hall first (List.getElem?_mem hfirst)).1 RasterState.initial).1
  · intro n previous current hprev hcur
    have hrun : RasterState.run RasterState.initial (allCalls (frames.take (n + 1)))
        = RasterState.mk 0 previous.state.wireframe := by
      rw [List.take_succ, hprev, allCalls_append, RasterState.run_append]
      show RasterState.run _ (previous.calls ++ []) = _
      rw [List.append_nil]
      exact ((hall previous (List.getElem?_mem hprev)).1 _).2
    rw [hrun]
    exact ((hall current (List.getElem?_mem hcur)).1 _).1

/-- Witness of C22: two iterations from a new context, the key `L` pressed during the
first. -/
theorem C22_depth_pass_uses_previous_polygon_mode_witness :
    ∃ frames first second,
      renderLoop FrameLibrary.blank Assets.blank State.threeVariants (Clock.mk Fp.zero Fp.zero)
        { Scene.blank with textureID := [11, 12, 13] }
        [FrameInput.mk (Fp.ofScaled 1 6) [InputEvent.key (KeyEvent.mk 76 0 1 0)] (),
         FrameInput.mk (Fp.ofScaled 1 5) [] ()] = Except.ok frames ∧
      frames = [first, second] ∧
      first.state.wireframe = true ∧
      rasterAtDraws RasterState.initial first.calls =
        [(20, RasterState.mk 1 false), (22, RasterState.mk 1 false),
         (21, RasterState.mk 1 false), (23, RasterState.mk 1 false),
         (20, RasterState.mk 0 true), (22, RasterState.mk 0 true),
         (21, RasterState.mk 0 true), (23, RasterState.mk 0 true)] ∧
      rasterAtDraws (RasterState.run RasterState.initial (allCalls (frames.take 1)))
          second.calls =
        [(20, RasterState.mk 1 true), (22, RasterState.mk 1 true),
         (21, RasterState.mk 1 true), (23, RasterState.mk 1 true),
         (20, RasterState.mk 0 true), (22, RasterState.mk 0 true),
         (21, RasterState.mk 0 true), (23, RasterState.mk 0 true)] := by
  obtain ⟨frames, hloop, _, _, hfirst, hnext⟩ :=
    C22_depth_pass_uses_previous_polygon_mode FrameLibrary.blank Assets.blank
      State.threeVariants (Clock.mk Fp.zero Fp.zero) Scene.blank 11 12 13
      [FrameInput.mk (Fp.ofScaled 1 6) [InputEvent.key (KeyEvent.mk 76 0 1 0)] (),
       FrameInput.mk (Fp.ofScaled 1 5) [] ()]
      (by decide)
      (by
        intro input hinput e he
        simp only [List.mem_cons, List.mem_singleton, List.not_mem_nil, or_false] at hinput
        rcases hinput with rfl | rfl
        · simp only [List.mem_singleton] at he
          subst he
          intro _
          exact ⟨by decide, by decide⟩
        · exact absurd he (List.not_mem_nil e))
  have heval : ∃ first second,
      renderLoop FrameLibrary.blank Assets.blank State.threeVariants (Clock.mk Fp.zero Fp.zero)
        { Scene.blank with textureID := [11, 12, 13] }
        [FrameInput.mk (Fp.ofScaled 1 6) [InputEvent.key (KeyEvent.mk 76 0 1 0)] (),
         FrameInput.mk (Fp.ofScaled 1 5) [] ()] = Except.ok [first, second] ∧
      first.state.wireframe = true ∧ second.state.wireframe = true :=
    ⟨_, _, rfl, rfl, rfl⟩
  obtain ⟨first, second, heq, hw1, hw2⟩ := heval
  rw [hloop] at heq
  injection heq with heq
  subst heq
  refine ⟨[first, second], first, second, hloop, rfl, hw1, ?_, ?_⟩
  · have h := hfirst first rfl
    rw [hw1] at h
    exact h
  · have h := hnext 0 first second rfl rfl
    rw [hw1, hw2] at h
    exact h

end RainSnow
